import Mathlib

/-!
WiFi client platform adaptor (TI): shallow embedding.

Embedding of `service/platformAdaptor/ti/pa_wifi_client_ti.c`.

* Bytes are natural numbers; a C string is the run of bytes before the first NUL of a byte
  sequence, and a byte sequence that ends without a NUL is read as if a NUL followed it.
* The static variables of the file form the record `PaState`; every public function takes the
  state and returns the new one together with its `le_result_t`.
* A nullable pointer argument is an `Option`.
* The operating system (`system`, `popen`, `fopen`, `fwrite`) is a record of outcomes, `World`,
  and every call made is logged as a `Call`.
* Loops over `fgets` take fuel; the public functions supply more fuel than the stream has bytes.
-/

namespace PaWifi

/-! ## Bytes and the C library -/

/-- Bytes of a string literal. -/
def bytes (s : String) : List Nat := s.toList.map Char.toNat

/-- The C string stored at the start of a byte sequence: the bytes before the first NUL. -/
def cstr (m : List Nat) : List Nat := m.takeWhile (fun c => c ≠ 0)

/-- C `strlen`. -/
def strlen (m : List Nat) : Nat := (cstr m).length

/-- C `strnlen(s, maxlen)`. -/
def strnlen (m : List Nat) (maxlen : Nat) : Nat := min (strlen m) maxlen

/-- C `strncpy(dst, src, n)`: exactly `n` bytes of `dst` are written, the string `src` cut at
`n` bytes and, when it is shorter, NUL padding up to `n`; no terminator is added. -/
def strncpy (dst src : List Nat) (n : Nat) : List Nat :=
  (cstr src ++ List.replicate n 0).take n ++ dst.drop n

/-- C `memset(dst, c, n)`. -/
def memset (dst : List Nat) (c n : Nat) : List Nat :=
  List.replicate n c ++ dst.drop n

/-- C `memcpy(dst, src, n)`; `none` when `n` bytes do not fit in `dst` or are not available in
`src` (undefined behaviour). -/
def memcpy (dst src : List Nat) (n : Nat) : Option (List Nat) :=
  if n ≤ dst.length ∧ n ≤ src.length then some (src.take n ++ dst.drop n) else none

/-- C `strncmp(a, b, n)`: the difference of the first differing bytes among the first `n`,
zero when there is none before the end of the strings. -/
def strncmp : List Nat → List Nat → Nat → Int
  | _, _, 0 => 0
  | a, b, n + 1 =>
    if a.headD 0 ≠ b.headD 0 then (a.headD 0 : Int) - (b.headD 0 : Int)
    else if a.headD 0 = 0 then 0
    else strncmp a.tail b.tail n

/-- Search of `needle` in `hay`, both NUL-free: the suffix of `hay` at the first match. -/
def strstrAux (needle : List Nat) : List Nat → Option (List Nat)
  | [] => if needle = [] then some [] else none
  | c :: s => if needle.isPrefixOf (c :: s) then some (c :: s) else strstrAux needle s

/-- C `strstr(hay, needle)`: pointer to the first occurrence (the string from there on), `none`
for NULL. -/
def strstr (hay needle : List Nat) : Option (List Nat) := strstrAux (cstr needle) (cstr hay)

/-- C `strchr(s, c)` for `c ≠ 0`, as the offset of the first occurrence; `none` for NULL. -/
def strchr (s : List Nat) (c : Nat) : Option Nat :=
  if c ∈ cstr s then some ((cstr s).indexOf c) else none

/-- C `isspace` in the "C" locale. -/
def isspace (c : Nat) : Bool := c == 32 || (9 ≤ c && c ≤ 13)

/-- C `isdigit`. -/
def isdigit (c : Nat) : Bool := 48 ≤ c && c ≤ 57

/-- Digits loop of `atoi`: accumulates decimal digits until the first other byte. -/
def atoiDigits : List Nat → Nat → Nat
  | [], acc => acc
  | c :: s, acc => if isdigit c then atoiDigits s (acc * 10 + (c - 48)) else acc

/-- The integer a decimal text starts with, as `strtol(s, NULL, 10)` parses it before any range
check: leading white space, an optional sign, then decimal digits; `0` when no digit is there. -/
def atoiValue (s : List Nat) : Int :=
  match s.dropWhile isspace with
  | 45 :: t => - (atoiDigits t 0 : Int)
  | 43 :: t => (atoiDigits t 0 : Int)
  | t => (atoiDigits t 0 : Int)

/-- C `atoi`, which returns an `int`: `(int) strtol(s, NULL, 10)`. The result is the parsed
integer whenever that fits an `int` of 32 bits. Outside that range C leaves the result
undefined; the embedding follows the C library with a `long` of 64 bits: `strtol` saturates at
`LONG_MIN` and `LONG_MAX`, and the conversion to `int` keeps the low 32 bits. -/
def atoi (s : List Nat) : Int :=
  let value := max (-(2 ^ 63)) (min (2 ^ 63 - 1) (atoiValue s))
  (value + 2 ^ 31) % 2 ^ 32 - 2 ^ 31

/-- Bytes one `fgets` call stores: at most `k` bytes, ending after the first newline; the
second component is the rest of the stream. -/
def readLine : Nat → List Nat → List Nat × List Nat
  | 0, s => ([], s)
  | _ + 1, [] => ([], [])
  | k + 1, b :: s =>
    if b = 10 then ([b], s) else ((b :: (readLine k s).1), (readLine k s).2)

/-- C `fgets(buf, size, stream)`: NULL (`none`) at end of stream, otherwise the bytes stored in
`buf` before the terminating NUL (at most `size - 1`) and the rest of the stream. -/
def fgets (size : Nat) (stream : List Nat) : Option (List Nat × List Nat) :=
  match stream with
  | [] => none
  | _ :: _ => some (readLine (size - 1) stream)

/-- The macro `WEXITSTATUS(status)`: bits 8..15 of the status. -/
def WEXITSTATUS (status : Int) : Int := (status / 256) % 256

/-! ## Types of the adaptor -/

/-- The result codes the file returns. -/
inductive le_result_t where
  | LE_OK
  | LE_NOT_FOUND
  | LE_FAULT
  | LE_BAD_PARAMETER
  | LE_BUSY
  deriving DecidableEq

/-- The events reported to the registered handlers. -/
inductive le_wifiClient_Event_t where
  | LE_WIFICLIENT_EVENT_CONNECTED
  | LE_WIFICLIENT_EVENT_DISCONNECTED
  deriving DecidableEq

open le_result_t le_wifiClient_Event_t

/-- Modelled from the spec: the `LE_WIFIDEFS_*` limits come from the interface definition,
which is not among the sources. They are parameters of the embedding; every `MAX_*_BYTES` is
the matching `MAX_*_LENGTH` plus one for the terminating NUL. -/
structure WifiDefs where
  LE_WIFIDEFS_MAX_SSID_LENGTH : Nat
  LE_WIFIDEFS_MAX_WEPKEY_LENGTH : Nat
  LE_WIFIDEFS_MIN_PASSPHRASE_LENGTH : Nat
  LE_WIFIDEFS_MAX_PASSPHRASE_LENGTH : Nat
  LE_WIFIDEFS_MAX_PSK_LENGTH : Nat
  LE_WIFIDEFS_MAX_USERNAME_LENGTH : Nat
  LE_WIFIDEFS_MAX_PASSWORD_LENGTH : Nat

namespace WifiDefs

/-- Capacity of an SSID buffer. -/
def LE_WIFIDEFS_MAX_SSID_BYTES (d : WifiDefs) : Nat := d.LE_WIFIDEFS_MAX_SSID_LENGTH + 1

/-- Capacity of the WEP key buffer. -/
def LE_WIFIDEFS_MAX_WEPKEY_BYTES (d : WifiDefs) : Nat := d.LE_WIFIDEFS_MAX_WEPKEY_LENGTH + 1

/-- Capacity of the passphrase buffer. -/
def LE_WIFIDEFS_MAX_PASSPHRASE_BYTES (d : WifiDefs) : Nat :=
  d.LE_WIFIDEFS_MAX_PASSPHRASE_LENGTH + 1

/-- Capacity of the pre-shared key buffer. -/
def LE_WIFIDEFS_MAX_PSK_BYTES (d : WifiDefs) : Nat := d.LE_WIFIDEFS_MAX_PSK_LENGTH + 1

/-- Capacity of the user name buffer. -/
def LE_WIFIDEFS_MAX_USERNAME_BYTES (d : WifiDefs) : Nat := d.LE_WIFIDEFS_MAX_USERNAME_LENGTH + 1

/-- Capacity of the password buffer. -/
def LE_WIFIDEFS_MAX_PASSWORD_BYTES (d : WifiDefs) : Nat := d.LE_WIFIDEFS_MAX_PASSWORD_LENGTH + 1

end WifiDefs

/-- The limits of the upstream interface definition (SSID 32, WEP key 63, passphrase 8..63,
pre-shared key 64, user name and password 254). -/
def upstreamDefs : WifiDefs where
  LE_WIFIDEFS_MAX_SSID_LENGTH := 32
  LE_WIFIDEFS_MAX_WEPKEY_LENGTH := 63
  LE_WIFIDEFS_MIN_PASSPHRASE_LENGTH := 8
  LE_WIFIDEFS_MAX_PASSPHRASE_LENGTH := 63
  LE_WIFIDEFS_MAX_PSK_LENGTH := 64
  LE_WIFIDEFS_MAX_USERNAME_LENGTH := 254
  LE_WIFIDEFS_MAX_PASSWORD_LENGTH := 254

/-- Modelled from the spec: the enumerators of `le_wifiClient_SecurityProtocol_t` are declared
in the generated interface header, which is not among the sources; they are numbered in the
order the spec lists them. A value of the type is any integer. -/
def LE_WIFICLIENT_SECURITY_NONE : Int := 0

/-- Modelled from the spec: second enumerator of `le_wifiClient_SecurityProtocol_t`. -/
def LE_WIFICLIENT_SECURITY_WEP : Int := 1

/-- Modelled from the spec: third enumerator of `le_wifiClient_SecurityProtocol_t`. -/
def LE_WIFICLIENT_SECURITY_WPA_PSK_PERSONAL : Int := 2

/-- Modelled from the spec: fourth enumerator of `le_wifiClient_SecurityProtocol_t`. -/
def LE_WIFICLIENT_SECURITY_WPA2_PSK_PERSONAL : Int := 3

/-- Modelled from the spec: fifth enumerator of `le_wifiClient_SecurityProtocol_t`. -/
def LE_WIFICLIENT_SECURITY_WPA_EAP_PEAP0_ENTERPRISE : Int := 4

/-- Modelled from the spec: sixth enumerator of `le_wifiClient_SecurityProtocol_t`. -/
def LE_WIFICLIENT_SECURITY_WPA2_EAP_PEAP0_ENTERPRISE : Int := 5

/-- Modelled from the spec: the record `pa_wifiClient_AccessPoint_t` is declared in `pa_wifi.h`,
which is not among the sources. It holds the signal strength (a signed value, `0xffff` standing
for unknown), the SSID length (unsigned; eight bits wide, like the `ssidLength` argument of
`pa_wifiClient_Connect`) and the SSID bytes (`LE_WIFIDEFS_MAX_SSID_BYTES` of them). -/
structure pa_wifiClient_AccessPoint_t where
  signalStrength : Int
  ssidLength : Nat
  ssidBytes : List Nat
  deriving DecidableEq

/-- The static variables of the file that the public functions read back: the stored protocol
and credentials and the scan pipe with its flag. A pipe that is open is the sequence of bytes
not yet read from it; a NULL pipe pointer is `none`. The handles of the worker thread, of its
pipe and of the key-derivation pipe are only passed to the framework and the C library; the
calls made with them are logged as `Call`s. -/
structure PaState where
  SavedSecurityProtocol : Int
  SavedWepKey : List Nat
  SavedPassphrase : List Nat
  SavedPreSharedKey : List Nat
  SavedUsername : List Nat
  SavedPassword : List Nat
  IwScanPipePtr : Option (List Nat)
  IsScanRunning : Bool
  deriving DecidableEq

/-- The state at program start: static storage is zero-initialised, no pipe is open. -/
def PaState.initial (d : WifiDefs) : PaState where
  SavedSecurityProtocol := 0
  SavedWepKey := List.replicate d.LE_WIFIDEFS_MAX_WEPKEY_BYTES 0
  SavedPassphrase := List.replicate d.LE_WIFIDEFS_MAX_PASSPHRASE_BYTES 0
  SavedPreSharedKey := List.replicate d.LE_WIFIDEFS_MAX_PSK_BYTES 0
  SavedUsername := List.replicate d.LE_WIFIDEFS_MAX_USERNAME_BYTES 0
  SavedPassword := List.replicate d.LE_WIFIDEFS_MAX_PASSWORD_BYTES 0
  IwScanPipePtr := none
  IsScanRunning := false

/-- Every credential buffer has the capacity of its array declaration. -/
def PaState.WellFormed (d : WifiDefs) (st : PaState) : Prop :=
  st.SavedWepKey.length = d.LE_WIFIDEFS_MAX_WEPKEY_BYTES ∧
  st.SavedPassphrase.length = d.LE_WIFIDEFS_MAX_PASSPHRASE_BYTES ∧
  st.SavedPreSharedKey.length = d.LE_WIFIDEFS_MAX_PSK_BYTES ∧
  st.SavedUsername.length = d.LE_WIFIDEFS_MAX_USERNAME_BYTES ∧
  st.SavedPassword.length = d.LE_WIFIDEFS_MAX_PASSWORD_BYTES

/-- Outcome of a function of the embedding: a value, undefined behaviour of the C code
(a copy outside its buffers, arithmetic on a NULL pointer), or a loop that ran out of fuel. -/
inductive Exec (α : Type) where
  | done (a : α)
  | undefinedBehaviour
  | fuelExhausted
  deriving DecidableEq

/-- Outcomes of the operating-system services the adaptor calls. -/
structure World where
  /-- Status returned by `system(command)`. -/
  system : List Nat → Int
  /-- Output of a command opened for reading with `popen`; `none` when `popen` returns NULL. -/
  popen : List Nat → Option (List Nat)
  /-- Whether `fopen(WPA_SUPPLICANT_FILE, "w")` succeeds. -/
  fopen : Bool
  /-- Number of bytes `fwrite` reports written for the data handed to it. -/
  fwrite : List Nat → Nat

/-- A call made by the adaptor to the operating system or, for the worker thread, to the
framework: `le_thread_Start` stands for the creation and launch of the worker
(`le_thread_Create`, `le_thread_SetJoinable`, `le_thread_AddDestructor`, `le_thread_Start`). -/
inductive Call where
  | system (command : List Nat)
  | popen (command : List Nat)
  | fopen
  | fwrite (data : List Nat)
  | le_thread_Start
  | le_thread_Cancel
  | le_thread_Join
  deriving DecidableEq

/-! ## Credential store -/

/-- `pa_wifiClient_SetSecurityProtocol`. -/
def pa_wifiClient_SetSecurityProtocol (st : PaState) (securityProtocol : Int) :
    le_result_t × PaState :=
  if securityProtocol = LE_WIFICLIENT_SECURITY_NONE
      ∨ securityProtocol = LE_WIFICLIENT_SECURITY_WEP
      ∨ securityProtocol = LE_WIFICLIENT_SECURITY_WPA_PSK_PERSONAL
      ∨ securityProtocol = LE_WIFICLIENT_SECURITY_WPA2_PSK_PERSONAL
      ∨ securityProtocol = LE_WIFICLIENT_SECURITY_WPA_EAP_PEAP0_ENTERPRISE
      ∨ securityProtocol = LE_WIFICLIENT_SECURITY_WPA2_EAP_PEAP0_ENTERPRISE then
    (LE_OK, { st with SavedSecurityProtocol := securityProtocol })
  else
    (LE_BAD_PARAMETER, st)

/-- `pa_wifiClient_ClearAllCredentials`. -/
def pa_wifiClient_ClearAllCredentials (d : WifiDefs) (st : PaState) : le_result_t × PaState :=
  (LE_OK,
    { st with
      SavedWepKey := memset st.SavedWepKey 0 d.LE_WIFIDEFS_MAX_WEPKEY_BYTES
      SavedPassphrase := memset st.SavedPassphrase 0 d.LE_WIFIDEFS_MAX_PASSPHRASE_BYTES
      SavedPreSharedKey := memset st.SavedPreSharedKey 0 d.LE_WIFIDEFS_MAX_PSK_BYTES
      SavedUsername := memset st.SavedUsername 0 d.LE_WIFIDEFS_MAX_USERNAME_BYTES
      SavedPassword := memset st.SavedPassword 0 d.LE_WIFIDEFS_MAX_PASSWORD_BYTES })

/-- `pa_wifiClient_SetWepKey`. -/
def pa_wifiClient_SetWepKey (d : WifiDefs) (st : PaState) (wepKeyPtr : Option (List Nat)) :
    le_result_t × PaState :=
  match wepKeyPtr with
  | none => (LE_BAD_PARAMETER, st)
  | some wepKey =>
    (LE_OK,
      { st with
        SavedWepKey :=
          (strncpy st.SavedWepKey wepKey d.LE_WIFIDEFS_MAX_WEPKEY_LENGTH).set
            d.LE_WIFIDEFS_MAX_WEPKEY_LENGTH 0 })

/-- `pa_wifiClient_SetPreSharedKey`. -/
def pa_wifiClient_SetPreSharedKey (d : WifiDefs) (st : PaState)
    (preSharedKeyPtr : Option (List Nat)) : le_result_t × PaState :=
  match preSharedKeyPtr with
  | none => (LE_BAD_PARAMETER, st)
  | some preSharedKey =>
    (LE_OK,
      { st with
        SavedPreSharedKey :=
          (strncpy st.SavedPreSharedKey preSharedKey d.LE_WIFIDEFS_MAX_PSK_LENGTH).set
            d.LE_WIFIDEFS_MAX_PSK_LENGTH 0
        SavedPassphrase := st.SavedPassphrase.set 0 0 })

/-- `pa_wifiClient_SetPassphrase`; `length` is a `uint32_t`. -/
def pa_wifiClient_SetPassphrase (d : WifiDefs) (st : PaState)
    (passphrasePtr : Option (List Nat)) : le_result_t × PaState :=
  match passphrasePtr with
  | none => (LE_BAD_PARAMETER, st)
  | some passphrase =>
    let length := strlen passphrase % 2 ^ 32
    if d.LE_WIFIDEFS_MIN_PASSPHRASE_LENGTH ≤ length
        ∧ length ≤ d.LE_WIFIDEFS_MAX_PASSPHRASE_LENGTH then
      (LE_OK,
        { st with
          SavedPassphrase :=
            (strncpy st.SavedPassphrase passphrase d.LE_WIFIDEFS_MAX_PASSPHRASE_LENGTH).set
              d.LE_WIFIDEFS_MAX_PASSPHRASE_LENGTH 0
          SavedPreSharedKey := st.SavedPreSharedKey.set 0 0 })
    else
      (LE_BAD_PARAMETER, st)

/-- `pa_wifiClient_SetUserCredentials`: the user name is stored before the password pointer is
looked at. -/
def pa_wifiClient_SetUserCredentials (d : WifiDefs) (st : PaState)
    (usernamePtr passwordPtr : Option (List Nat)) : le_result_t × PaState :=
  match usernamePtr with
  | none => (LE_BAD_PARAMETER, st)
  | some username =>
    let st1 : PaState :=
      { st with
        SavedUsername :=
          (strncpy st.SavedUsername username d.LE_WIFIDEFS_MAX_USERNAME_LENGTH).set
            d.LE_WIFIDEFS_MAX_USERNAME_LENGTH 0 }
    match passwordPtr with
    | none => (LE_BAD_PARAMETER, st1)
    | some password =>
      (LE_OK,
        { st1 with
          SavedPassword :=
            (strncpy st1.SavedPassword password d.LE_WIFIDEFS_MAX_PASSWORD_LENGTH).set
              d.LE_WIFIDEFS_MAX_PASSWORD_LENGTH 0 })

/-! ## Scan session -/

/-- The macro `WIFI_SCRIPT_PATH`. -/
def WIFI_SCRIPT_PATH : List Nat :=
  bytes "/legato/systems/current/apps/wifiService/read-only/pa_wifi.sh "

/-- The macro `COMMAND_WIFICLIENT_START_SCAN`. -/
def COMMAND_WIFICLIENT_START_SCAN : List Nat := bytes "wlan0 WIFICLIENT_START_SCAN"

/-- `pa_wifiClient_Scan`. -/
def pa_wifiClient_Scan (w : World) (st : PaState) : le_result_t × PaState × List Call :=
  if st.IsScanRunning then (LE_BUSY, st, [])
  else if st.IwScanPipePtr ≠ none then (LE_BUSY, st, [])
  else
    let command := WIFI_SCRIPT_PATH ++ COMMAND_WIFICLIENT_START_SCAN
    match w.popen command with
    | none => (LE_FAULT, { st with IwScanPipePtr := none, IsScanRunning := false },
        [Call.popen command])
    | some out => (LE_OK, { st with IwScanPipePtr := some out, IsScanRunning := false },
        [Call.popen command])

/-- `pa_wifiClient_IsScanRunning`. -/
def pa_wifiClient_IsScanRunning (st : PaState) : Bool := st.IsScanRunning

/-- The literal the scan loop compares the start of a line with to find the SSID. -/
def ssidTag : List Nat := bytes "\tSSID: "

/-- The literal the scan loop compares the start of a line with to find the signal strength. -/
def signalTag : List Nat := bytes "\tsignal: "

/-- The SSID branch of the scan loop on the line held in `path`: the length is
`strnlen(path, LE_WIFIDEFS_MAX_SSID_BYTES) - 7 - 1` converted to the eight-bit field, the SSID
array is zeroed and that many bytes are copied from `&path[7]`. The bytes of `path` that hold a
defined value are the line and its terminating NUL. -/
def storeSsid (d : WifiDefs) (path : List Nat) (ap : pa_wifiClient_AccessPoint_t) :
    Option pa_wifiClient_AccessPoint_t :=
  let ssidLength := (strnlen path d.LE_WIFIDEFS_MAX_SSID_BYTES + 256 - 7 - 1) % 256
  match memcpy (memset ap.ssidBytes 0 d.LE_WIFIDEFS_MAX_SSID_BYTES)
      ((path ++ [0]).drop 7) ssidLength with
  | none => none
  | some ssidBytes => some { ap with ssidLength := ssidLength, ssidBytes := ssidBytes }

/-- The `while (NULL != fgets(path, sizeof(path) - 1, IwScanPipePtr))` loop of
`pa_wifiClient_GetScanResult`, `path` being 1024 bytes: the result, the bytes left in the pipe
and the record. -/
def scanLoop (d : WifiDefs) :
    Nat → List Nat → pa_wifiClient_AccessPoint_t →
      Exec (le_result_t × List Nat × pa_wifiClient_AccessPoint_t)
  | 0, _, _ => Exec.fuelExhausted
  | fuel + 1, stream, ap =>
    match fgets 1023 stream with
    | none => Exec.done (LE_NOT_FOUND, stream, ap)
    | some (path, rest) =>
      if strncmp ssidTag path 7 = 0 then
        match storeSsid d path ap with
        | none => Exec.undefinedBehaviour
        | some ap1 => Exec.done (LE_OK, rest, ap1)
      else if strncmp signalTag path 9 = 0 then
        scanLoop d fuel rest { ap with signalStrength := atoi (path.drop 9) }
      else
        scanLoop d fuel rest ap

/-- `pa_wifiClient_GetScanResult`: the result, the new state and the caller's record. -/
def pa_wifiClient_GetScanResult (d : WifiDefs) (st : PaState)
    (accessPointPtr : Option pa_wifiClient_AccessPoint_t) :
    Exec (le_result_t × PaState × Option pa_wifiClient_AccessPoint_t) :=
  match st.IwScanPipePtr with
  | none => Exec.done (LE_FAULT, st, accessPointPtr)
  | some stream =>
    match accessPointPtr with
    | none => Exec.done (LE_BAD_PARAMETER, st, none)
    | some ap =>
      match scanLoop d (stream.length + 1) stream
          { ap with signalStrength := 0xffff, ssidLength := 0 } with
      | Exec.done (result, rest, ap1) =>
        Exec.done (result, { st with IwScanPipePtr := some rest }, some ap1)
      | Exec.undefinedBehaviour => Exec.undefinedBehaviour
      | Exec.fuelExhausted => Exec.fuelExhausted

/-- `pa_wifiClient_ScanDone`. -/
def pa_wifiClient_ScanDone (st : PaState) : le_result_t × PaState :=
  match st.IwScanPipePtr with
  | some _ => (LE_OK, { st with IwScanPipePtr := none, IsScanRunning := false })
  | none => (LE_OK, st)

/-! ## Key derivation and supplicant file -/

/-- The macro `COMMAND_WIFICLIENT_CONNECT_WPA_PASSPHRASE` filled in by `snprintf`: `%.*s`
prints at most `ssidLength` bytes of the SSID string. -/
def COMMAND_WIFICLIENT_CONNECT_WPA_PASSPHRASE (ssid : List Nat) (ssidLength : Nat)
    (passphrase : List Nat) : List Nat :=
  bytes "wlan0 WIFICLIENT_CONNECT_WPA_PASSPHRASE \"" ++ (cstr ssid).take ssidLength
    ++ bytes "\" " ++ cstr passphrase

/-- The literal `GeneratePsk` compares the start of a line with. -/
def pskTag : List Nat := bytes "\tpsk="

/-- The `while (NULL != fgets(path, sizeof(path) - 1, IwConnectPipePtr))` loop of
`GeneratePsk`, `path` being 255 bytes: the result and the key buffer. `strchr` returning NULL
makes `p1Ptr - p2Ptr` undefined. -/
def pskLoop (d : WifiDefs) :
    Nat → List Nat → le_result_t → List Nat → Exec (le_result_t × List Nat)
  | 0, _, _, _ => Exec.fuelExhausted
  | fuel + 1, stream, result, psk =>
    match fgets 254 stream with
    | none => Exec.done (result, psk)
    | some (path, rest) =>
      if strncmp pskTag path (strlen pskTag) = 0 then
        match strchr (path.drop 5) 10 with
        | none => Exec.undefinedBehaviour
        | some n =>
          if n < d.LE_WIFIDEFS_MAX_PSK_BYTES then
            Exec.done (LE_OK,
              strncpy (memset psk 0 d.LE_WIFIDEFS_MAX_PSK_BYTES) (path.drop 5) n)
          else
            pskLoop d fuel rest LE_FAULT (memset psk 0 d.LE_WIFIDEFS_MAX_PSK_BYTES)
      else
        pskLoop d fuel rest result psk

/-- `GeneratePsk`: the result, the key buffer behind `pskPtr` and the calls made;
`tmpString` is 255 bytes. -/
def GeneratePsk (d : WifiDefs) (w : World) (ssidBytesPtr : List Nat) (ssidLength : Nat)
    (passphrasePtr pskPtr : Option (List Nat)) :
    Exec (le_result_t × Option (List Nat) × List Call) :=
  match pskPtr with
  | none => Exec.done (LE_BAD_PARAMETER, none, [])
  | some psk =>
    match passphrasePtr with
    | none => Exec.done (LE_BAD_PARAMETER, some psk, [])
    | some passphrase =>
      let tmpString :=
        (WIFI_SCRIPT_PATH
          ++ COMMAND_WIFICLIENT_CONNECT_WPA_PASSPHRASE ssidBytesPtr ssidLength passphrase).take 254
      match w.popen tmpString with
      | none => Exec.done (LE_FAULT, some psk, [Call.popen tmpString])
      | some out =>
        match pskLoop d (out.length + 1) out LE_OK psk with
        | Exec.done (result, psk1) => Exec.done (result, some psk1, [Call.popen tmpString])
        | Exec.undefinedBehaviour => Exec.undefinedBehaviour
        | Exec.fuelExhausted => Exec.fuelExhausted

/-- The macro `WPA_SUPPLICANT_DATA` filled in by `snprintf`: the precision of `%.*s` is
`strlen(ssidPtr)`, so the whole SSID string is printed. -/
def WPA_SUPPLICANT_DATA (ssid psk : List Nat) : List Nat :=
  bytes "network=\x7b\n     ssid=\"" ++ cstr ssid ++ bytes "\"\n     psk=" ++ cstr psk
    ++ bytes "\n     \x7d\n"

/-- `GenerateWpaSupplicant`: the result and the calls made; `tmpString` is 255 bytes and
`length` a `uint8_t`. -/
def GenerateWpaSupplicant (d : WifiDefs) (w : World) (ssidPtr : Option (List Nat))
    (ssidLength : Nat) (pskPtr : List Nat) : le_result_t × List Call :=
  match ssidPtr with
  | none => (LE_FAULT, [])
  | some ssid =>
    if ssidLength = 0 ∨ ssidLength > d.LE_WIFIDEFS_MAX_SSID_LENGTH then (LE_FAULT, [])
    else if w.fopen = false then (LE_FAULT, [Call.fopen])
    else
      let tmpString := (WPA_SUPPLICANT_DATA ssid pskPtr).take 254
      let length := strlen tmpString % 256
      let data := tmpString.take length
      if w.fwrite data ≠ length then (LE_FAULT, [Call.fopen, Call.fwrite data])
      else (LE_OK, [Call.fopen, Call.fwrite data])

/-! ## Connect orchestrator -/

/-- The block `if (0 == WEXITSTATUS(systemResult)) result = LE_OK; else result = LE_FAULT;`
that follows every `system` call. -/
def systemResultCode (systemResult : Int) : le_result_t :=
  if 0 = WEXITSTATUS systemResult then LE_OK else LE_FAULT

/-- The macro `COMMAND_WIFICLIENT_CONNECT_SECURITY_NONE` filled in by `snprintf`. -/
def COMMAND_WIFICLIENT_CONNECT_SECURITY_NONE (ssid : List Nat) (ssidLength : Nat) : List Nat :=
  bytes "wlan0 WIFICLIENT_CONNECT_SECURITY_NONE \"" ++ (cstr ssid).take ssidLength ++ bytes "\""

/-- The macro `COMMAND_WIFICLIENT_CONNECT_SECURITY_WEP` filled in by `snprintf`. -/
def COMMAND_WIFICLIENT_CONNECT_SECURITY_WEP (ssid : List Nat) (ssidLength : Nat)
    (wepKey : List Nat) : List Nat :=
  bytes "wlan0 WIFICLIENT_CONNECT_SECURITY_WEP \"" ++ (cstr ssid).take ssidLength
    ++ bytes "\" \"" ++ cstr wepKey ++ bytes "\""

/-- The macro `COMMAND_WIFICLIENT_CONNECT_SECURITY_WPA_PSK_PERSONAL`; the connect command is
issued without arguments, so the format string itself is the command. -/
def COMMAND_WIFICLIENT_CONNECT_SECURITY_WPA_PSK_PERSONAL : List Nat :=
  bytes "wlan0 WIFICLIENT_CONNECT_SECURITY_WPA_PSK_PERSONAL \"%.*s\""

/-- The macro `COMMAND_WIFICLIENT_CONNECT_SECURITY_WPA2_PSK_PERSONAL`; the connect command is
issued without arguments, so the format string itself is the command. -/
def COMMAND_WIFICLIENT_CONNECT_SECURITY_WPA2_PSK_PERSONAL : List Nat :=
  bytes "wlan0 WIFICLIENT_CONNECT_SECURITY_WPA2_PSK_PERSONAL \"%.*s\""

/-- The macro `COMMAND_WIFICLIENT_CONNECT_SECURITY_WPA_EAP_PEAP0_ENTERPRISE` filled in by
`snprintf`. -/
def COMMAND_WIFICLIENT_CONNECT_SECURITY_WPA_EAP_PEAP0_ENTERPRISE (ssid : List Nat)
    (ssidLength : Nat) (username password : List Nat) : List Nat :=
  bytes "wlan0 WIFICLIENT_CONNECT_SECURITY_WPA_EAP_PEAP0_ENTERPRISE \""
    ++ (cstr ssid).take ssidLength ++ bytes "\" \"" ++ cstr username ++ bytes "\" \""
    ++ cstr password ++ bytes "\""

/-- The macro `COMMAND_WIFICLIENT_CONNECT_SECURITY_WPA2_EAP_PEAP0_ENTERPRISE` filled in by
`snprintf`. -/
def COMMAND_WIFICLIENT_CONNECT_SECURITY_WPA2_EAP_PEAP0_ENTERPRISE (ssid : List Nat)
    (ssidLength : Nat) (username password : List Nat) : List Nat :=
  bytes "wlan0 WIFICLIENT_CONNECT_SECURITY_WPA2_EAP_PEAP0_ENTERPRISE \""
    ++ (cstr ssid).take ssidLength ++ bytes "\" \"" ++ cstr username ++ bytes "\" \""
    ++ cstr password ++ bytes "\""

/-- The two `LE_WIFICLIENT_SECURITY_WPA*_PSK_PERSONAL` cases of `pa_wifiClient_Connect`, which
differ only in the connect command. When `GenerateWpaSupplicant` fails the command is skipped
and `result` keeps the `LE_OK` it had. -/
def connectPskPersonal (d : WifiDefs) (w : World) (st : PaState) (ssidBytes : List Nat)
    (ssidLength : Nat) (command : List Nat) : Exec (le_result_t × PaState × List Call) :=
  if st.SavedPassphrase.headD 0 = 0 ∧ st.SavedPreSharedKey.headD 0 = 0 then
    Exec.done (LE_FAULT, st, [])
  else
    let derived : Exec (le_result_t × PaState × List Call) :=
      if st.SavedPassphrase.headD 0 ≠ 0 then
        match GeneratePsk d w ssidBytes ssidLength (some st.SavedPassphrase)
            (some st.SavedPreSharedKey) with
        | Exec.done (result, psk, calls) =>
          Exec.done (result, { st with SavedPreSharedKey := psk.getD st.SavedPreSharedKey },
            calls)
        | Exec.undefinedBehaviour => Exec.undefinedBehaviour
        | Exec.fuelExhausted => Exec.fuelExhausted
      else Exec.done (LE_OK, st, [])
    match derived with
    | Exec.done (result, st1, calls) =>
      if result ≠ LE_OK then Exec.done (LE_FAULT, st1, calls)
      else
        match GenerateWpaSupplicant d w (some ssidBytes) ssidLength st1.SavedPreSharedKey with
        | (LE_OK, calls2) =>
          Exec.done (systemResultCode (w.system (WIFI_SCRIPT_PATH ++ command)), st1,
            calls ++ calls2 ++ [Call.system (WIFI_SCRIPT_PATH ++ command)])
        | (_, calls2) => Exec.done (result, st1, calls ++ calls2)
    | Exec.undefinedBehaviour => Exec.undefinedBehaviour
    | Exec.fuelExhausted => Exec.fuelExhausted

/-- One `system(tmpString)` call of `pa_wifiClient_Connect`, `tmpString` being 1024 bytes. -/
def connectCommand (w : World) (st : PaState) (command : List Nat) :
    Exec (le_result_t × PaState × List Call) :=
  let tmpString := (WIFI_SCRIPT_PATH ++ command).take 1023
  Exec.done (systemResultCode (w.system tmpString), st, [Call.system tmpString])

/-- `pa_wifiClient_Connect`: the result, the new state and the calls made, in order. -/
def pa_wifiClient_Connect (d : WifiDefs) (w : World) (st : PaState) (ssidBytes : List Nat)
    (ssidLength : Nat) : Exec (le_result_t × PaState × List Call) :=
  if ssidLength = 0 then Exec.done (LE_FAULT, st, [])
  else if st.SavedSecurityProtocol = LE_WIFICLIENT_SECURITY_NONE then
    connectCommand w st (COMMAND_WIFICLIENT_CONNECT_SECURITY_NONE ssidBytes ssidLength)
  else if st.SavedSecurityProtocol = LE_WIFICLIENT_SECURITY_WEP then
    if st.SavedWepKey.headD 0 = 0 then Exec.done (LE_FAULT, st, [])
    else
      connectCommand w st
        (COMMAND_WIFICLIENT_CONNECT_SECURITY_WEP ssidBytes ssidLength st.SavedWepKey)
  else if st.SavedSecurityProtocol = LE_WIFICLIENT_SECURITY_WPA_PSK_PERSONAL then
    connectPskPersonal d w st ssidBytes ssidLength
      COMMAND_WIFICLIENT_CONNECT_SECURITY_WPA_PSK_PERSONAL
  else if st.SavedSecurityProtocol = LE_WIFICLIENT_SECURITY_WPA2_PSK_PERSONAL then
    connectPskPersonal d w st ssidBytes ssidLength
      COMMAND_WIFICLIENT_CONNECT_SECURITY_WPA2_PSK_PERSONAL
  else if st.SavedSecurityProtocol = LE_WIFICLIENT_SECURITY_WPA_EAP_PEAP0_ENTERPRISE then
    if st.SavedUsername.headD 0 = 0 ∧ st.SavedPassword.headD 0 = 0 then
      Exec.done (LE_FAULT, st, [])
    else
      connectCommand w st
        (COMMAND_WIFICLIENT_CONNECT_SECURITY_WPA_EAP_PEAP0_ENTERPRISE ssidBytes ssidLength
          st.SavedUsername st.SavedPassword)
  else if st.SavedSecurityProtocol = LE_WIFICLIENT_SECURITY_WPA2_EAP_PEAP0_ENTERPRISE then
    if st.SavedUsername.headD 0 = 0 ∧ st.SavedPassword.headD 0 = 0 then
      Exec.done (LE_FAULT, st, [])
    else
      connectCommand w st
        (COMMAND_WIFICLIENT_CONNECT_SECURITY_WPA2_EAP_PEAP0_ENTERPRISE ssidBytes ssidLength
          st.SavedUsername st.SavedPassword)
  else Exec.done (LE_FAULT, st, [])

/-! ## Event bridge -/

/-- The macro `COMMAND_WIFI_SET_EVENT`. -/
def COMMAND_WIFI_SET_EVENT : List Nat := bytes "wlan0 WIFI_SET_EVENT"

/-- The body of the worker loop on the line held in `path`: the event reported for it, if
any. -/
def classifyLine (path : List Nat) : Option le_wifiClient_Event_t :=
  if (strstr path (bytes "connected to")).isSome then some LE_WIFICLIENT_EVENT_CONNECTED
  else if (strstr path (bytes "disconnected")).isSome then some LE_WIFICLIENT_EVENT_DISCONNECTED
  else none

/-- The `while (NULL != fgets(path, sizeof(path) - 1, IwThreadPipePtr))` loop of
`WifiClientPaThreadMain`, `path` being 1024 bytes: the events reported, in order. -/
def eventLoop : Nat → List Nat → Exec (List le_wifiClient_Event_t)
  | 0, _ => Exec.fuelExhausted
  | fuel + 1, stream =>
    match fgets 1023 stream with
    | none => Exec.done []
    | some (path, rest) =>
      match eventLoop fuel rest with
      | Exec.done events => Exec.done ((classifyLine path).toList ++ events)
      | Exec.undefinedBehaviour => Exec.undefinedBehaviour
      | Exec.fuelExhausted => Exec.fuelExhausted

/-- `WifiClientPaThreadMain` up to the point where it enters the event loop of the framework:
the events it reports with `le_event_Report`, in order. -/
def WifiClientPaThreadMain (w : World) : Exec (List le_wifiClient_Event_t) :=
  match w.popen (WIFI_SCRIPT_PATH ++ COMMAND_WIFI_SET_EVENT) with
  | none => Exec.done []
  | some out => eventLoop (out.length + 1) out

/-! ## Start, stop and disconnect -/

/-- The macro `COMMAND_WIFI_HW_START`. -/
def COMMAND_WIFI_HW_START : List Nat := bytes "wlan0 WIFI_START"

/-- The macro `COMMAND_WIFI_HW_STOP`. -/
def COMMAND_WIFI_HW_STOP : List Nat := bytes "wlan0 WIFI_STOP"

/-- The macro `COMMAND_WIFI_WLAN_UP`. -/
def COMMAND_WIFI_WLAN_UP : List Nat := bytes "wlan0 WIFI_WLAN_UP"

/-- The macro `COMMAND_WIFICLIENT_DISCONNECT`. -/
def COMMAND_WIFICLIENT_DISCONNECT : List Nat := bytes "wlan0 WIFICLIENT_DISCONNECT"

/-- `pa_wifiClient_Start`: the result and the calls made, in order. The worker is created and
started before any command runs; the second command runs only when the first gave `LE_OK`. -/
def pa_wifiClient_Start (w : World) : le_result_t × List Call :=
  let result := systemResultCode (w.system (WIFI_SCRIPT_PATH ++ COMMAND_WIFI_HW_START))
  if result = LE_OK then
    (systemResultCode (w.system (WIFI_SCRIPT_PATH ++ COMMAND_WIFI_WLAN_UP)),
      [Call.le_thread_Start, Call.system (WIFI_SCRIPT_PATH ++ COMMAND_WIFI_HW_START),
        Call.system (WIFI_SCRIPT_PATH ++ COMMAND_WIFI_WLAN_UP)])
  else
    (result, [Call.le_thread_Start, Call.system (WIFI_SCRIPT_PATH ++ COMMAND_WIFI_HW_START)])

/-- `pa_wifiClient_Stop`: the result and the calls made, in order; `joinResult` is what
`le_thread_Join` returns when it is called. -/
def pa_wifiClient_Stop (w : World) (joinResult : le_result_t) : le_result_t × List Call :=
  let result := systemResultCode (w.system (WIFI_SCRIPT_PATH ++ COMMAND_WIFI_HW_STOP))
  if result = LE_OK then
    (if joinResult = LE_OK then LE_OK else LE_FAULT,
      [Call.system (WIFI_SCRIPT_PATH ++ COMMAND_WIFI_HW_STOP), Call.le_thread_Cancel,
        Call.le_thread_Join])
  else
    (result, [Call.system (WIFI_SCRIPT_PATH ++ COMMAND_WIFI_HW_STOP)])

/-- `pa_wifiClient_Disconnect`: the result and the calls made. -/
def pa_wifiClient_Disconnect (w : World) : le_result_t × List Call :=
  (systemResultCode (w.system (WIFI_SCRIPT_PATH ++ COMMAND_WIFICLIENT_DISCONNECT)),
    [Call.system (WIFI_SCRIPT_PATH ++ COMMAND_WIFICLIENT_DISCONNECT)])

/-! ## Sequences of public operations -/

/-- A call of a public function of the adaptor, with its arguments and with the outcomes of
the operating system during the call. -/
inductive Op where
  | Start (w : World)
  | Stop (w : World) (joinResult : le_result_t)
  | Scan (w : World)
  | IsScanRunning
  | GetScanResult (accessPointPtr : Option pa_wifiClient_AccessPoint_t)
  | ScanDone
  | SetSecurityProtocol (securityProtocol : Int)
  | Connect (w : World) (ssidBytes : List Nat) (ssidLength : Nat)
  | Disconnect (w : World)
  | ClearAllCredentials
  | SetWepKey (wepKeyPtr : Option (List Nat))
  | SetPreSharedKey (preSharedKeyPtr : Option (List Nat))
  | SetPassphrase (passphrasePtr : Option (List Nat))
  | SetUserCredentials (usernamePtr passwordPtr : Option (List Nat))

/-- The state after one public operation. -/
def applyOp (d : WifiDefs) (st : PaState) : Op → Exec PaState
  | Op.Start _ => Exec.done st
  | Op.Stop _ _ => Exec.done st
  | Op.Scan w => Exec.done (pa_wifiClient_Scan w st).2.1
  | Op.IsScanRunning => Exec.done st
  | Op.GetScanResult accessPointPtr =>
    match pa_wifiClient_GetScanResult d st accessPointPtr with
    | Exec.done (_, st1, _) => Exec.done st1
    | Exec.undefinedBehaviour => Exec.undefinedBehaviour
    | Exec.fuelExhausted => Exec.fuelExhausted
  | Op.ScanDone => Exec.done (pa_wifiClient_ScanDone st).2
  | Op.SetSecurityProtocol v => Exec.done (pa_wifiClient_SetSecurityProtocol st v).2
  | Op.Connect w ssidBytes ssidLength =>
    match pa_wifiClient_Connect d w st ssidBytes ssidLength with
    | Exec.done (_, st1, _) => Exec.done st1
    | Exec.undefinedBehaviour => Exec.undefinedBehaviour
    | Exec.fuelExhausted => Exec.fuelExhausted
  | Op.Disconnect _ => Exec.done st
  | Op.ClearAllCredentials => Exec.done (pa_wifiClient_ClearAllCredentials d st).2
  | Op.SetWepKey k => Exec.done (pa_wifiClient_SetWepKey d st k).2
  | Op.SetPreSharedKey k => Exec.done (pa_wifiClient_SetPreSharedKey d st k).2
  | Op.SetPassphrase p => Exec.done (pa_wifiClient_SetPassphrase d st p).2
  | Op.SetUserCredentials u p => Exec.done (pa_wifiClient_SetUserCredentials d st u p).2

/-- The state after a sequence of public operations, each one completed before the next. -/
def runOps (d : WifiDefs) : PaState → List Op → Exec PaState
  | st, [] => Exec.done st
  | st, op :: ops =>
    match applyOp d st op with
    | Exec.done st1 => runOps d st1 ops
    | Exec.undefinedBehaviour => Exec.undefinedBehaviour
    | Exec.fuelExhausted => Exec.fuelExhausted

/-- Whether the operation is a `Connect` that derives the pre-shared key from the stored
passphrase: a non-zero SSID length, one of the two PSK-Personal protocols and a passphrase. -/
def derivesKey (st : PaState) : Op → Bool
  | Op.Connect _ _ ssidLength =>
    ssidLength ≠ 0
      && (st.SavedSecurityProtocol == LE_WIFICLIENT_SECURITY_WPA_PSK_PERSONAL
        || st.SavedSecurityProtocol == LE_WIFICLIENT_SECURITY_WPA2_PSK_PERSONAL)
      && st.SavedPassphrase.headD 0 ≠ 0
  | _ => false

/-- No operation of the sequence, run from `st`, is a `Connect` that derives the key. -/
def noKeyDerivation (d : WifiDefs) : PaState → List Op → Bool
  | _, [] => true
  | st, op :: ops =>
    !derivesKey st op
      && match applyOp d st op with
        | Exec.done st1 => noKeyDerivation d st1 ops
        | _ => true

/-- The wait status `system` returns for a command that exited with the code `code`. -/
def exitedWith (code : Int) : Int := code * 256

/-! ## Vocabulary of the statements -/

/-- A line of a stream that one `fgets` call of the scan loop and of the event loop returns
whole: it ends with its only newline and is at most 1022 bytes long, newline included. -/
def ShortLine (l : List Nat) : Prop :=
  l.getLast? = some 10 ∧ 10 ∉ l.dropLast ∧ l.length ≤ 1022

instance (l : List Nat) : Decidable (ShortLine l) := by
  unfold ShortLine
  infer_instance

/-- Decimal digits of `n` in front of `acc`, most significant first; `fuel` bounds the number
of digits. -/
def digitCharsAux : Nat → Nat → List Nat → List Nat
  | 0, _, acc => acc
  | fuel + 1, n, acc =>
    if n = 0 then acc else digitCharsAux fuel (n / 10) ((n % 10 + 48) :: acc)

/-- Decimal digits of a natural number, most significant first; none for zero. -/
def digitChars (n : Nat) : List Nat := digitCharsAux n n []

/-- An integer written in decimal: a minus sign when it is negative, then its digits, the
single digit `0` for zero. -/
def decimalText (v : Int) : List Nat :=
  (if v < 0 then [45] else []) ++ (if v = 0 then [48] else digitChars v.natAbs)

/-- Whether the text starts with a decimal digit. -/
def leadingDigit : List Nat → Bool
  | [] => false
  | c :: _ => isdigit c

/-- Whether the text starts with an integer in the sense of `strtol`: white space if any, an
optional sign, then at least one decimal digit. -/
def startsWithInteger (s : List Nat) : Bool :=
  match s.dropWhile isspace with
  | 45 :: t => leadingDigit t
  | 43 :: t => leadingDigit t
  | t => leadingDigit t

/-- Bits 8 to 15 of a wait status, read off its 32-bit pattern by shifting and masking. -/
def statusBits8to15 (status : Int) : Nat := ((status % 2 ^ 32).toNat >>> 8) &&& 0xFF

/-- Outcomes of the operating system in which `system` returns the wait status `status` for
every command, `popen` returns NULL and the supplicant file can be written. -/
def worldStatus (status : Int) : World :=
  { system := fun _ => status, popen := fun _ => none, fopen := true, fwrite := List.length }

/-- The record after the scan loop has read the line `l`, which is not an SSID line: a line
that starts with the signal tag sets the signal field to `atoi` of what follows the tag. -/
def readSignal (ap : pa_wifiClient_AccessPoint_t) (l : List Nat) : pa_wifiClient_AccessPoint_t :=
  if strncmp signalTag l 9 = 0 then { ap with signalStrength := atoi (l.drop 9) } else ap

/-- The state at the upstream limits in which a scan is open and `stream` is still to be
read from its pipe. -/
def scanOpen (stream : List Nat) : PaState :=
  { PaState.initial upstreamDefs with IwScanPipePtr := some stream }

/-- A caller's record at the upstream limits, all zero. -/
def blankRecord : pa_wifiClient_AccessPoint_t :=
  { signalStrength := 0, ssidLength := 0, ssidBytes := List.replicate 33 0 }

/-- Outcomes of the operating system in which `popen` hands out `stream` for every command and
everything else succeeds. -/
def worldWith (stream : List Nat) : World :=
  { system := fun _ => 0, popen := fun _ => some stream, fopen := true, fwrite := List.length }

/-- The state at the upstream limits after `SetSecurityProtocol` with WPA2-PSK-Personal and
`SetPreSharedKey key`, from the initial state. -/
def personalKeyState (key : List Nat) : PaState :=
  (pa_wifiClient_SetPreSharedKey upstreamDefs
    (pa_wifiClient_SetSecurityProtocol (PaState.initial upstreamDefs)
      LE_WIFICLIENT_SECURITY_WPA2_PSK_PERSONAL).2 (some key)).2

/-- The state at the upstream limits after `SetSecurityProtocol` with WPA2-PSK-Personal and
`SetPassphrase passphrase`, from the initial state. -/
def personalPassphraseState (passphrase : List Nat) : PaState :=
  (pa_wifiClient_SetPassphrase upstreamDefs
    (pa_wifiClient_SetSecurityProtocol (PaState.initial upstreamDefs)
      LE_WIFICLIENT_SECURITY_WPA2_PSK_PERSONAL).2 (some passphrase)).2

/-- Outcomes of the operating system in which the supplicant file cannot be opened, while
`popen` hands out `stream` and every command exits with code zero. -/
def worldFopenFails (stream : List Nat) : World :=
  { system := fun _ => 0, popen := fun _ => some stream, fopen := false, fwrite := List.length }

/-- A buffer of the given capacity that holds a NUL byte. -/
def Terminated (buf : List Nat) (capacity : Nat) : Prop :=
  buf.length = capacity ∧ 0 ∈ buf

/-- Every credential buffer holds a NUL byte within its capacity. -/
def PaState.CredentialsTerminated (d : WifiDefs) (st : PaState) : Prop :=
  Terminated st.SavedWepKey d.LE_WIFIDEFS_MAX_WEPKEY_BYTES
  ∧ Terminated st.SavedPassphrase d.LE_WIFIDEFS_MAX_PASSPHRASE_BYTES
  ∧ Terminated st.SavedPreSharedKey d.LE_WIFIDEFS_MAX_PSK_BYTES
  ∧ Terminated st.SavedUsername d.LE_WIFIDEFS_MAX_USERNAME_BYTES
  ∧ Terminated st.SavedPassword d.LE_WIFIDEFS_MAX_PASSWORD_BYTES

/-- Output of the key-derivation helper for the SSID `Home` and the passphrase `passphrase`,
in the layout of `wpa_passphrase`, with a key of 64 hexadecimal digits. -/
def helperOutput : List Nat :=
  bytes ("network=\x7b\n\tssid=\"Home\"\n\t#psk=\"passphrase\"\n"
    ++ "\tpsk=0123456789abcdef0123456789abcdef0123456789abcdef0123456789abcdef\n\x7d\n")

/-! # Theorems -/

/-! ## C strings in buffers -/

theorem cstr_nil : cstr [] = [] := rfl

theorem cstr_zero_cons (l : List Nat) : cstr (0 :: l) = [] := by
  simp [cstr]

theorem cstr_set_zero (buf : List Nat) : cstr (buf.set 0 0) = [] := by
  cases buf with
  | nil => rfl
  | cons b t => simp [cstr]

theorem cstr_no_zero (m : List Nat) : ∀ c ∈ cstr m, c ≠ 0 := by
  intro c hc
  have := List.mem_takeWhile_imp hc
  simpa using this

theorem cstr_append_zero (a b : List Nat) (h : ∀ c ∈ a, c ≠ 0) : cstr (a ++ 0 :: b) = a := by
  unfold cstr
  rw [List.takeWhile_append_of_pos (by simpa using h)]
  simp

theorem cstr_append_replicate_zero (a : List Nat) (k : Nat) (h : ∀ c ∈ a, c ≠ 0) :
    cstr (a ++ List.replicate k 0 ++ [0]) = a := by
  cases k with
  | zero => simpa using cstr_append_zero a [] h
  | succ k =>
    rw [List.replicate_succ, List.append_assoc, List.cons_append]
    exact cstr_append_zero a _ h

/-- What a setter leaves in a buffer of capacity `n + 1`: the string cut at `n` bytes. -/
theorem cstr_strncpy_set (buf p : List Nat) (n : Nat) (h : buf.length = n + 1) :
    cstr ((strncpy buf p n).set n 0) = (cstr p).take n := by
  have hlen : ((cstr p ++ List.replicate n 0).take n).length = n := by
    simp
  have hd : ∃ x, buf.drop n = [x] := by
    have : (buf.drop n).length = 1 := by simp [h]
    match hb : buf.drop n, this with
    | [x], _ => exact ⟨x, rfl⟩
  obtain ⟨x, hx⟩ := hd
  unfold strncpy
  rw [hx, List.set_append, hlen]
  simp only [lt_self_iff_false, if_false, Nat.sub_self, List.set_cons_zero]
  rw [List.take_append_eq_append_take, List.take_replicate]
  apply cstr_append_replicate_zero
  intro c hc
  exact cstr_no_zero p c (List.mem_of_mem_take hc)

theorem take_cstr_of_le (p : List Nat) (n : Nat) (h : strlen p ≤ n) : (cstr p).take n = cstr p :=
  List.take_of_length_le h

/-! ## Credential store: claims C1 to C4 -/

theorem initial_wellFormed (d : WifiDefs) : (PaState.initial d).WellFormed d := by
  simp [PaState.WellFormed, PaState.initial]

theorem headD_memset_zero (buf : List Nat) (n : Nat) : (memset buf 0 (n + 1)).headD 0 = 0 := by
  simp [memset, List.replicate_succ]

/-- C1: on a state whose buffers have their declared capacity, for every pre-shared key `k` and
every passphrase `p` whose length lies within the passphrase limits (and fits the `uint32_t`
that holds it): `SetPreSharedKey k` followed by `SetPassphrase p` both succeed and leave the
passphrase `p` stored and the pre-shared key empty; `SetPassphrase p` followed by
`SetPreSharedKey k` both succeed and leave `k`, cut at the maximum key length, stored and the
passphrase empty. -/
theorem C1_passphrase_and_psk_exclusive (d : WifiDefs) (st : PaState) (k p : List Nat)
    (hst : st.WellFormed d)
    (hmin : d.LE_WIFIDEFS_MIN_PASSPHRASE_LENGTH ≤ strlen p)
    (hmax : strlen p ≤ d.LE_WIFIDEFS_MAX_PASSPHRASE_LENGTH)
    (h32 : strlen p < 2 ^ 32) :
    ((pa_wifiClient_SetPreSharedKey d st (some k)).1 = LE_OK
      ∧ (pa_wifiClient_SetPassphrase d (pa_wifiClient_SetPreSharedKey d st (some k)).2
          (some p)).1 = LE_OK
      ∧ cstr (pa_wifiClient_SetPassphrase d (pa_wifiClient_SetPreSharedKey d st (some k)).2
          (some p)).2.SavedPassphrase = cstr p
      ∧ cstr (pa_wifiClient_SetPassphrase d (pa_wifiClient_SetPreSharedKey d st (some k)).2
          (some p)).2.SavedPreSharedKey = [])
    ∧ ((pa_wifiClient_SetPassphrase d st (some p)).1 = LE_OK
      ∧ (pa_wifiClient_SetPreSharedKey d (pa_wifiClient_SetPassphrase d st (some p)).2
          (some k)).1 = LE_OK
      ∧ cstr (pa_wifiClient_SetPreSharedKey d (pa_wifiClient_SetPassphrase d st (some p)).2
          (some k)).2.SavedPreSharedKey = (cstr k).take d.LE_WIFIDEFS_MAX_PSK_LENGTH
      ∧ cstr (pa_wifiClient_SetPreSharedKey d (pa_wifiClient_SetPassphrase d st (some p)).2
          (some k)).2.SavedPassphrase = []) := by
  obtain ⟨_, hpass, hpsk, _, _⟩ := hst
  have hcond : d.LE_WIFIDEFS_MIN_PASSPHRASE_LENGTH ≤ strlen p % 2 ^ 32
      ∧ strlen p % 2 ^ 32 ≤ d.LE_WIFIDEFS_MAX_PASSPHRASE_LENGTH := by
    rw [Nat.mod_eq_of_lt h32]; exact ⟨hmin, hmax⟩
  have hpass1 : (st.SavedPassphrase.set 0 0).length = d.LE_WIFIDEFS_MAX_PASSPHRASE_LENGTH + 1 := by
    rw [List.length_set]; exact hpass
  have hpsk1 : (st.SavedPreSharedKey.set 0 0).length = d.LE_WIFIDEFS_MAX_PSK_LENGTH + 1 := by
    rw [List.length_set]; exact hpsk
  refine ⟨⟨rfl, ?_, ?_, ?_⟩, ?_, rfl, ?_, ?_⟩
  · simp only [pa_wifiClient_SetPassphrase, pa_wifiClient_SetPreSharedKey, hcond, and_self,
      if_true]
  · simp only [pa_wifiClient_SetPassphrase, pa_wifiClient_SetPreSharedKey, hcond, and_self,
      if_true]
    rw [cstr_strncpy_set _ _ _ hpass1, take_cstr_of_le _ _ hmax]
  · simp only [pa_wifiClient_SetPassphrase, pa_wifiClient_SetPreSharedKey, hcond, and_self,
      if_true]
    exact cstr_set_zero _
  · simp only [pa_wifiClient_SetPassphrase, hcond, and_self, if_true]
  · simp only [pa_wifiClient_SetPassphrase, pa_wifiClient_SetPreSharedKey, hcond, and_self,
      if_true]
    exact cstr_strncpy_set _ _ _ hpsk1
  · simp only [pa_wifiClient_SetPassphrase, pa_wifiClient_SetPreSharedKey, hcond, and_self,
      if_true]
    exact cstr_set_zero _

/-- C1 at the upstream limits, from the initial state, with the key `00ff` and the passphrase
`passphrase`. -/
theorem C1_passphrase_and_psk_exclusive_witness :
    (PaState.initial upstreamDefs).WellFormed upstreamDefs
    ∧ cstr (pa_wifiClient_SetPassphrase upstreamDefs
        (pa_wifiClient_SetPreSharedKey upstreamDefs (PaState.initial upstreamDefs)
          (some (bytes "00ff"))).2 (some (bytes "passphrase"))).2.SavedPassphrase
        = cstr (bytes "passphrase")
    ∧ cstr (pa_wifiClient_SetPreSharedKey upstreamDefs
        (pa_wifiClient_SetPassphrase upstreamDefs (PaState.initial upstreamDefs)
          (some (bytes "passphrase"))).2 (some (bytes "00ff"))).2.SavedPassphrase = [] :=
  ⟨initial_wellFormed upstreamDefs,
    (C1_passphrase_and_psk_exclusive upstreamDefs (PaState.initial upstreamDefs) (bytes "00ff")
      (bytes "passphrase") (initial_wellFormed upstreamDefs) (by decide) (by decide)
      (by decide)).1.2.2.1,
    (C1_passphrase_and_psk_exclusive upstreamDefs (PaState.initial upstreamDefs) (bytes "00ff")
      (bytes "passphrase") (initial_wellFormed upstreamDefs) (by decide) (by decide)
      (by decide)).2.2.2.2⟩

/-- C2: for every non-null passphrase `p` (its length fitting the `uint32_t` that holds it),
`SetPassphrase p` succeeds exactly when the length of `p` lies within the two passphrase
limits, both included; otherwise it returns `LE_BAD_PARAMETER` and leaves the whole state, the
stored passphrase and pre-shared key included, unchanged. -/
theorem C2_passphrase_length_range (d : WifiDefs) (st : PaState) (p : List Nat)
    (h32 : strlen p < 2 ^ 32) :
    ((pa_wifiClient_SetPassphrase d st (some p)).1 = LE_OK
      ↔ d.LE_WIFIDEFS_MIN_PASSPHRASE_LENGTH ≤ strlen p
        ∧ strlen p ≤ d.LE_WIFIDEFS_MAX_PASSPHRASE_LENGTH)
    ∧ (¬ (d.LE_WIFIDEFS_MIN_PASSPHRASE_LENGTH ≤ strlen p
          ∧ strlen p ≤ d.LE_WIFIDEFS_MAX_PASSPHRASE_LENGTH)
      → pa_wifiClient_SetPassphrase d st (some p) = (LE_BAD_PARAMETER, st)) := by
  simp only [pa_wifiClient_SetPassphrase, Nat.mod_eq_of_lt h32]
  by_cases h : d.LE_WIFIDEFS_MIN_PASSPHRASE_LENGTH ≤ strlen p
      ∧ strlen p ≤ d.LE_WIFIDEFS_MAX_PASSPHRASE_LENGTH
  · simp [h]
  · simp [h]

/-- C2 at the upstream limits for the eight-byte passphrase `password`, the shortest length
accepted. -/
theorem C2_passphrase_length_range_witness :
    strlen (bytes "password") < 2 ^ 32
    ∧ ((pa_wifiClient_SetPassphrase upstreamDefs (PaState.initial upstreamDefs)
          (some (bytes "password"))).1 = LE_OK
        ↔ upstreamDefs.LE_WIFIDEFS_MIN_PASSPHRASE_LENGTH ≤ strlen (bytes "password")
          ∧ strlen (bytes "password") ≤ upstreamDefs.LE_WIFIDEFS_MAX_PASSPHRASE_LENGTH) :=
  ⟨by decide,
    (C2_passphrase_length_range upstreamDefs (PaState.initial upstreamDefs) (bytes "password")
      (by decide)).1⟩

/-- C3: `SetSecurityProtocol v` returns `LE_OK` exactly when `v` is one of the six defined
protocols, and then `v` is the stored protocol and nothing else changes; for every other value
it returns `LE_BAD_PARAMETER` and leaves the state unchanged. -/
theorem C3_security_protocol_validated (st : PaState) (v : Int) :
    ((pa_wifiClient_SetSecurityProtocol st v).1 = LE_OK
      ↔ v ∈ [LE_WIFICLIENT_SECURITY_NONE, LE_WIFICLIENT_SECURITY_WEP,
          LE_WIFICLIENT_SECURITY_WPA_PSK_PERSONAL, LE_WIFICLIENT_SECURITY_WPA2_PSK_PERSONAL,
          LE_WIFICLIENT_SECURITY_WPA_EAP_PEAP0_ENTERPRISE,
          LE_WIFICLIENT_SECURITY_WPA2_EAP_PEAP0_ENTERPRISE])
    ∧ ((pa_wifiClient_SetSecurityProtocol st v).1 = LE_OK
      → (pa_wifiClient_SetSecurityProtocol st v).2 = { st with SavedSecurityProtocol := v })
    ∧ ((pa_wifiClient_SetSecurityProtocol st v).1 ≠ LE_OK
      → pa_wifiClient_SetSecurityProtocol st v = (LE_BAD_PARAMETER, st)) := by
  unfold pa_wifiClient_SetSecurityProtocol
  split <;> rename_i h
  · simp [h, List.mem_cons]
  · simp [h, List.mem_cons]

/-- C4: whatever the credentials were, and whatever the SSID bytes and length, once
`ClearAllCredentials` has run a `Connect` under WEP, WPA-PSK-Personal or WPA2-PSK-Personal
returns `LE_FAULT`, makes no call to the operating system and changes nothing. -/
theorem C4_connect_after_clear_faults (d : WifiDefs) (w : World) (st : PaState)
    (ssidBytes : List Nat) (ssidLength : Nat)
    (hproto : st.SavedSecurityProtocol = LE_WIFICLIENT_SECURITY_WEP
      ∨ st.SavedSecurityProtocol = LE_WIFICLIENT_SECURITY_WPA_PSK_PERSONAL
      ∨ st.SavedSecurityProtocol = LE_WIFICLIENT_SECURITY_WPA2_PSK_PERSONAL) :
    (pa_wifiClient_ClearAllCredentials d st).1 = LE_OK
    ∧ pa_wifiClient_Connect d w (pa_wifiClient_ClearAllCredentials d st).2 ssidBytes ssidLength
      = Exec.done (LE_FAULT, (pa_wifiClient_ClearAllCredentials d st).2, []) := by
  refine ⟨rfl, ?_⟩
  unfold pa_wifiClient_Connect
  by_cases h0 : ssidLength = 0
  · simp [h0]
  · simp only [h0, if_false]
    have hw : (pa_wifiClient_ClearAllCredentials d st).2.SavedWepKey.headD 0 = 0 :=
      headD_memset_zero _ _
    have hp : (pa_wifiClient_ClearAllCredentials d st).2.SavedPassphrase.headD 0 = 0 :=
      headD_memset_zero _ _
    have hk : (pa_wifiClient_ClearAllCredentials d st).2.SavedPreSharedKey.headD 0 = 0 :=
      headD_memset_zero _ _
    have hs : (pa_wifiClient_ClearAllCredentials d st).2.SavedSecurityProtocol
        = st.SavedSecurityProtocol := rfl
    simp only [List.headD_eq_head?_getD] at hw hp hk
    rcases hproto with h | h | h
    · rw [hs, h]
      simp [hw, LE_WIFICLIENT_SECURITY_NONE, LE_WIFICLIENT_SECURITY_WEP]
    · rw [hs, h]
      simp [connectPskPersonal, hp, hk, LE_WIFICLIENT_SECURITY_NONE, LE_WIFICLIENT_SECURITY_WEP,
        LE_WIFICLIENT_SECURITY_WPA_PSK_PERSONAL]
    · rw [hs, h]
      simp [connectPskPersonal, hp, hk, LE_WIFICLIENT_SECURITY_NONE, LE_WIFICLIENT_SECURITY_WEP,
        LE_WIFICLIENT_SECURITY_WPA_PSK_PERSONAL, LE_WIFICLIENT_SECURITY_WPA2_PSK_PERSONAL]

/-- C4 at the upstream limits: a WEP key is stored, the protocol is WEP, the credentials are
cleared and `Connect` is called for the SSID `Home`. -/
theorem C4_connect_after_clear_faults_witness :
    (pa_wifiClient_SetWepKey upstreamDefs
        { PaState.initial upstreamDefs with
          SavedSecurityProtocol := LE_WIFICLIENT_SECURITY_WEP }
        (some (bytes "0123456789"))).2.SavedSecurityProtocol = LE_WIFICLIENT_SECURITY_WEP
    ∧ pa_wifiClient_Connect upstreamDefs
        { system := fun _ => 0, popen := fun _ => none, fopen := true, fwrite := List.length }
        (pa_wifiClient_ClearAllCredentials upstreamDefs
          (pa_wifiClient_SetWepKey upstreamDefs
            { PaState.initial upstreamDefs with
              SavedSecurityProtocol := LE_WIFICLIENT_SECURITY_WEP }
            (some (bytes "0123456789"))).2).2 (bytes "Home") 4
      = Exec.done (LE_FAULT,
          (pa_wifiClient_ClearAllCredentials upstreamDefs
            (pa_wifiClient_SetWepKey upstreamDefs
              { PaState.initial upstreamDefs with
                SavedSecurityProtocol := LE_WIFICLIENT_SECURITY_WEP }
              (some (bytes "0123456789"))).2).2, []) :=
  ⟨rfl,
    (C4_connect_after_clear_faults upstreamDefs
      { system := fun _ => 0, popen := fun _ => none, fopen := true, fwrite := List.length }
      (pa_wifiClient_SetWepKey upstreamDefs
        { PaState.initial upstreamDefs with
          SavedSecurityProtocol := LE_WIFICLIENT_SECURITY_WEP }
        (some (bytes "0123456789"))).2 (bytes "Home") 4 (Or.inl rfl)).2⟩

/-! ## Lines and tags -/

theorem strncmp_eq_zero_iff (t : List Nat) (ht : ∀ c ∈ t, c ≠ 0) (l : List Nat) :
    strncmp t l t.length = 0 ↔ t <+: l := by
  induction t generalizing l with
  | nil => simp [strncmp]
  | cons a t ih =>
    have ha : a ≠ 0 := ht a (List.mem_cons_self a t)
    have ht1 : ∀ c ∈ t, c ≠ 0 := fun c hc => ht c (List.mem_cons_of_mem a hc)
    cases l with
    | nil =>
      simp only [List.length_cons, strncmp, List.headD_cons, List.headD_nil, ne_eq, ha,
        not_false_eq_true, if_true]
      constructor
      · intro h
        exact absurd h (by simpa using ha)
      · intro h
        simp at h
    | cons b l =>
      simp only [List.length_cons, strncmp, List.headD_cons, List.tail_cons]
      by_cases hab : a = b
      · subst hab
        simp only [ne_eq, not_true_eq_false, if_false, ha]
        rw [ih ht1 l]
        simp [List.cons_prefix_cons]
      · simp only [ne_eq, hab, not_false_eq_true, if_true]
        constructor
        · intro h
          have : (a : Int) = b := by linarith
          exact absurd (by exact_mod_cast this) hab
        · intro h
          rw [List.cons_prefix_cons] at h
          exact absurd h.1 hab

theorem ssidTag_eq : ssidTag = [9, 83, 83, 73, 68, 58, 32] := by decide

theorem signalTag_eq : signalTag = [9, 115, 105, 103, 110, 97, 108, 58, 32] := by decide

theorem strncmp_ssidTag (l : List Nat) : strncmp ssidTag l 7 = 0 ↔ ssidTag <+: l :=
  strncmp_eq_zero_iff ssidTag (by decide) l

theorem strncmp_signalTag (l : List Nat) : strncmp signalTag l 9 = 0 ↔ signalTag <+: l :=
  strncmp_eq_zero_iff signalTag (by decide) l

theorem readLine_line (body rest : List Nat) (k : Nat) (h10 : 10 ∉ body)
    (hk : body.length < k) : readLine k (body ++ 10 :: rest) = (body ++ [10], rest) := by
  induction body generalizing k with
  | nil =>
    cases k with
    | zero => omega
    | succ k => simp [readLine]
  | cons b body ih =>
    cases k with
    | zero => omega
    | succ k =>
      have hb : b ≠ 10 := fun h => h10 (h ▸ List.mem_cons_self b body)
      have h10b : 10 ∉ body := fun h => h10 (List.mem_cons_of_mem b h)
      have hk1 : body.length < k := by simpa using hk
      simp [readLine, hb, ih k h10b hk1]

theorem readLine_unterminated (l : List Nat) (k : Nat) (h10 : 10 ∉ l) (hk : l.length ≤ k) :
    readLine k l = (l, []) := by
  induction l generalizing k with
  | nil => cases k <;> rfl
  | cons b l ih =>
    cases k with
    | zero => simp at hk
    | succ k =>
      have hb : b ≠ 10 := fun h => h10 (h ▸ List.mem_cons_self b l)
      have h10b : 10 ∉ l := fun h => h10 (List.mem_cons_of_mem b h)
      have hk1 : l.length ≤ k := by simpa using hk
      simp [readLine, hb, ih k h10b hk1]

theorem readLine_full (l rest : List Nat) (h10 : 10 ∉ l) :
    readLine l.length (l ++ rest) = (l, rest) := by
  induction l with
  | nil => cases rest <;> rfl
  | cons b l ih =>
    have hb : b ≠ 10 := fun h => h10 (h ▸ List.mem_cons_self b l)
    have h10b : 10 ∉ l := fun h => h10 (List.mem_cons_of_mem b h)
    simp [readLine, hb, ih h10b]

/-! ## atoi on decimal text -/

theorem isdigit_digit (x : Nat) (h : x < 10) : isdigit (x + 48) = true := by
  simp [isdigit]; omega

theorem atoiDigits_digitCharsAux (fuel n : Nat) (acc tail : List Nat) (h : n ≤ fuel) :
    atoiDigits (digitCharsAux fuel n acc ++ tail) 0 = atoiDigits (acc ++ tail) n := by
  induction fuel generalizing n acc with
  | zero =>
    have : n = 0 := by omega
    subst this
    rfl
  | succ fuel ih =>
    unfold digitCharsAux
    by_cases h0 : n = 0
    · subst h0; simp
    · simp only [h0, if_false]
      rw [ih (n / 10) _ (by omega)]
      simp only [List.cons_append, atoiDigits, isdigit_digit (n % 10) (Nat.mod_lt _ (by norm_num)),
        if_true, Nat.add_sub_cancel]
      congr 1
      omega

theorem atoiDigits_stop (tail : List Nat) (acc : Nat)
    (ht : ∀ c ∈ tail.head?, isdigit c = false) : atoiDigits tail acc = acc := by
  cases tail with
  | nil => rfl
  | cons c t =>
    have : isdigit c = false := ht c (by simp)
    simp [atoiDigits, this]

theorem atoiDigits_digitChars (n : Nat) (tail : List Nat)
    (ht : ∀ c ∈ tail.head?, isdigit c = false) :
    atoiDigits (digitChars n ++ tail) 0 = n := by
  unfold digitChars
  rw [atoiDigits_digitCharsAux n n [] tail (le_refl n)]
  exact atoiDigits_stop tail n ht

theorem digitCharsAux_head (fuel n : Nat) (acc : List Nat)
    (hacc : ∀ c ∈ acc.head?, isdigit c = true) :
    ∀ c ∈ (digitCharsAux fuel n acc).head?, isdigit c = true := by
  induction fuel generalizing n acc with
  | zero => simpa [digitCharsAux] using hacc
  | succ fuel ih =>
    unfold digitCharsAux
    by_cases h0 : n = 0
    · simpa [h0] using hacc
    · simp only [h0, if_false]
      apply ih
      intro c hc
      simp only [List.head?_cons, Option.mem_def, Option.some.injEq] at hc
      subst hc
      exact isdigit_digit _ (Nat.mod_lt _ (by norm_num))

/-- The text of an integer does not start with white space. -/
theorem dropWhile_isspace_digits (l : List Nat) (h : ∀ c ∈ l.head?, isspace c = false) :
    l.dropWhile isspace = l := by
  cases l with
  | nil => rfl
  | cons c t =>
    have : isspace c = false := h c (by simp)
    simp [List.dropWhile, this]

theorem isspace_of_isdigit (c : Nat) (h : isdigit c = true) : isspace c = false := by
  simp [isdigit] at h
  simp [isspace]
  omega

theorem digitCharsAux_suffix (fuel n : Nat) (acc : List Nat) :
    ∃ pre, digitCharsAux fuel n acc = pre ++ acc := by
  induction fuel generalizing n acc with
  | zero => exact ⟨[], rfl⟩
  | succ fuel ih =>
    unfold digitCharsAux
    by_cases h0 : n = 0
    · exact ⟨[], by simp [h0]⟩
    · obtain ⟨pre, hpre⟩ := ih (n / 10) ((n % 10 + 48) :: acc)
      exact ⟨pre ++ [n % 10 + 48], by simp [h0, hpre]⟩

theorem digitChars_pos (n : Nat) (hn : 0 < n) :
    ∃ c t, digitChars n = c :: t ∧ isdigit c = true := by
  obtain ⟨m, rfl⟩ : ∃ m, n = m + 1 := ⟨n - 1, by omega⟩
  have hd : digitChars (m + 1)
      = digitCharsAux m ((m + 1) / 10) [((m + 1) % 10 + 48)] := by
    simp [digitChars, digitCharsAux]
  obtain ⟨pre, hpre⟩ := digitCharsAux_suffix m ((m + 1) / 10) [((m + 1) % 10 + 48)]
  have hhead := digitCharsAux_head m ((m + 1) / 10) [((m + 1) % 10 + 48)] (by
    intro c hc
    simp only [List.head?_cons, Option.mem_def, Option.some.injEq] at hc
    subst hc
    exact isdigit_digit _ (Nat.mod_lt _ (by norm_num)))
  rw [hd]
  cases hres : digitCharsAux m ((m + 1) / 10) [((m + 1) % 10 + 48)] with
  | nil =>
    rw [hres] at hpre
    cases pre <;> simp at hpre
  | cons c t =>
    rw [hres] at hhead
    exact ⟨c, t, rfl, hhead c (by simp)⟩

theorem atoiValue_digit_head (c : Nat) (t : List Nat) (h : isdigit c = true) :
    atoiValue (c :: t) = (atoiDigits (c :: t) 0 : Int) := by
  have hs : isspace c = false := isspace_of_isdigit c h
  have h45 : c ≠ 45 := by
    intro hc; subst hc; simp [isdigit] at h
  have h43 : c ≠ 43 := by
    intro hc; subst hc; simp [isdigit] at h
  unfold atoiValue
  simp only [List.dropWhile, hs]
  split
  · rename_i heq
    simp only [List.cons.injEq] at heq
    exact absurd heq.1 h45
  · rename_i heq
    simp only [List.cons.injEq] at heq
    exact absurd heq.1 h43
  · rfl

/-- The value parsed from an integer written in decimal is that integer, whatever follows it,
as long as that does not start with a digit. -/
theorem atoiValue_decimalText (v : Int) (tail : List Nat)
    (ht : ∀ c ∈ tail.head?, isdigit c = false) : atoiValue (decimalText v ++ tail) = v := by
  unfold decimalText
  rcases lt_trichotomy v 0 with hv | hv | hv
  · have hne : v ≠ 0 := by omega
    simp only [hv, hne, if_true, if_false, List.cons_append, List.nil_append]
    unfold atoiValue
    simp only [List.dropWhile, isspace]
    simp only [show ((45 : Nat) == 32 || (decide (9 ≤ 45) && decide (45 ≤ 13))) = false by decide]
    rw [atoiDigits_digitChars _ _ ht]
    omega
  · subst hv
    simp only [lt_self_iff_false, if_true, if_false, List.nil_append, List.cons_append]
    unfold atoiValue
    simp only [List.dropWhile, isspace]
    simp only [show ((48 : Nat) == 32 || (decide (9 ≤ 48) && decide (48 ≤ 13))) = false by decide]
    have h1 : atoiDigits (48 :: tail) 0 = 0 := by
      simp [atoiDigits, isdigit, atoiDigits_stop tail 0 ht]
    simp [h1]
  · have hne : v ≠ 0 := by omega
    have hnlt : ¬ v < 0 := by omega
    simp only [hnlt, hne, if_false, List.nil_append]
    obtain ⟨c, t, hct, hc⟩ := digitChars_pos v.natAbs (by omega)
    have key := atoiDigits_digitChars v.natAbs tail ht
    rw [hct] at key ⊢
    rw [List.cons_append, atoiValue_digit_head c _ hc]
    rw [List.cons_append] at key
    rw [key]
    omega

/-- `atoi` returns the parsed integer when that fits an `int`. -/
theorem atoi_of_value (s : List Nat)
    (h : -(2 ^ 31) ≤ atoiValue s ∧ atoiValue s < 2 ^ 31) : atoi s = atoiValue s := by
  unfold atoi
  simp only []
  omega

/-- `atoi` reads back an integer that fits an `int` and is written in decimal, whatever
follows it, as long as that does not start with a digit. -/
theorem atoi_decimalText (v : Int) (tail : List Nat) (hv : -(2 ^ 31) ≤ v ∧ v < 2 ^ 31)
    (ht : ∀ c ∈ tail.head?, isdigit c = false) : atoi (decimalText v ++ tail) = v := by
  have hval := atoiValue_decimalText v tail ht
  rw [atoi_of_value _ (by rw [hval]; exact hv), hval]

theorem atoiDigits_of_no_leadingDigit (t : List Nat) (h : leadingDigit t = false) :
    atoiDigits t 0 = 0 := by
  cases t with
  | nil => rfl
  | cons c t =>
    have hc : isdigit c = false := h
    simp [atoiDigits, hc]

/-- `atoi` returns `0` on a text that does not start with an integer. -/
theorem atoi_of_no_integer (s : List Nat) (h : startsWithInteger s = false) : atoi s = 0 := by
  have hval : atoiValue s = 0 := by
    unfold startsWithInteger at h
    unfold atoiValue
    split at h
    · rw [atoiDigits_of_no_leadingDigit _ h]; rfl
    · rw [atoiDigits_of_no_leadingDigit _ h]; rfl
    · rw [atoiDigits_of_no_leadingDigit _ h]; rfl
  rw [atoi_of_value s (by rw [hval]; decide), hval]

/-! ## The scan loop, line by line -/

theorem shortLine_iff (l : List Nat) :
    ShortLine l ↔ ∃ body, l = body ++ [10] ∧ 10 ∉ body ∧ l.length ≤ 1022 := by
  constructor
  · rintro ⟨hlast, hbody, hlen⟩
    refine ⟨l.dropLast, ?_, hbody, hlen⟩
    exact (List.dropLast_append_getLast? 10 hlast).symm
  · rintro ⟨body, rfl, hbody, hlen⟩
    exact ⟨by simp, by simpa using hbody, hlen⟩

theorem fgets_shortLine (l rest : List Nat) (h : ShortLine l) :
    fgets 1023 (l ++ rest) = some (l, rest) := by
  obtain ⟨body, rfl, h10, hlen⟩ := (shortLine_iff l).1 h
  have hb : body.length < 1022 := by
    simp only [List.length_append, List.length_singleton] at hlen
    omega
  have hr := readLine_line body rest 1022 h10 hb
  rw [List.append_assoc, List.singleton_append]
  cases hbody : body with
  | nil =>
    subst hbody
    simpa [fgets] using hr
  | cons b t =>
    subst hbody
    simpa [fgets] using hr

theorem fgets_unterminated (l : List Nat) (hne : l ≠ []) (h10 : 10 ∉ l)
    (hlen : l.length ≤ 1022) : fgets 1023 l = some (l, []) := by
  have hr := readLine_unterminated l 1022 h10 hlen
  cases l with
  | nil => exact absurd rfl hne
  | cons b t => simpa [fgets] using hr

theorem shortLine_ne_nil (l : List Nat) (h : ShortLine l) : l ≠ [] := by
  obtain ⟨body, rfl, _, _⟩ := (shortLine_iff l).1 h
  simp

theorem cstr_eq_self (l : List Nat) (h : 0 ∉ l) : cstr l = l := by
  unfold cstr
  rw [List.takeWhile_eq_self_iff]
  intro x hx
  have : x ≠ 0 := fun hx0 => h (hx0 ▸ hx)
  simpa using this

theorem strlen_ssid_line (s : List Nat) (hs : 0 ∉ s) :
    strlen (ssidTag ++ s ++ [10]) = s.length + 8 := by
  have h0 : 0 ∉ ssidTag ++ s ++ [10] := by
    simp only [List.mem_append, List.mem_singleton, not_or]
    exact ⟨⟨by decide, hs⟩, by decide⟩
  unfold strlen
  rw [cstr_eq_self _ h0]
  simp [ssidTag_eq]

/-- The SSID branch on a line `"\tSSID: " ++ s ++ "\n"` without NUL: the length stored is that
of `s` capped at `LE_WIFIDEFS_MAX_SSID_BYTES - 8`, and that many bytes of `s` are stored. -/
theorem storeSsid_line (d : WifiDefs) (ap : pa_wifiClient_AccessPoint_t) (s : List Nat)
    (hs : 0 ∉ s)
    (hd : 7 ≤ d.LE_WIFIDEFS_MAX_SSID_LENGTH ∧ d.LE_WIFIDEFS_MAX_SSID_LENGTH ≤ 255) :
    storeSsid d (ssidTag ++ s ++ [10]) ap
      = some
        { signalStrength := ap.signalStrength
          ssidLength := min s.length (d.LE_WIFIDEFS_MAX_SSID_LENGTH - 7)
          ssidBytes := s.take (d.LE_WIFIDEFS_MAX_SSID_LENGTH - 7)
            ++ List.replicate
              (d.LE_WIFIDEFS_MAX_SSID_LENGTH + 1
                - min s.length (d.LE_WIFIDEFS_MAX_SSID_LENGTH - 7)) 0
            ++ ap.ssidBytes.drop (d.LE_WIFIDEFS_MAX_SSID_LENGTH + 1) } := by
  obtain ⟨hd1, hd2⟩ := hd
  have hn : (strnlen (ssidTag ++ s ++ [10]) d.LE_WIFIDEFS_MAX_SSID_BYTES + 256 - 7 - 1) % 256
      = min s.length (d.LE_WIFIDEFS_MAX_SSID_LENGTH - 7) := by
    unfold strnlen WifiDefs.LE_WIFIDEFS_MAX_SSID_BYTES
    rw [strlen_ssid_line s hs]
    omega
  have hdrop : (ssidTag ++ s ++ [10] ++ [0]).drop 7 = s ++ [10, 0] := by
    simp [ssidTag_eq]
  unfold storeSsid
  simp only [hn, hdrop]
  unfold memcpy memset WifiDefs.LE_WIFIDEFS_MAX_SSID_BYTES
  have hcond : min s.length (d.LE_WIFIDEFS_MAX_SSID_LENGTH - 7)
        ≤ (List.replicate (d.LE_WIFIDEFS_MAX_SSID_LENGTH + 1) 0
            ++ ap.ssidBytes.drop (d.LE_WIFIDEFS_MAX_SSID_LENGTH + 1)).length
      ∧ min s.length (d.LE_WIFIDEFS_MAX_SSID_LENGTH - 7) ≤ (s ++ [10, 0]).length := by
    simp only [List.length_append, List.length_replicate, List.length_cons, List.length_nil]
    omega
  simp only [hcond, and_self, if_true]
  have htake : (s ++ [10, 0]).take (min s.length (d.LE_WIFIDEFS_MAX_SSID_LENGTH - 7))
      = s.take (d.LE_WIFIDEFS_MAX_SSID_LENGTH - 7) := by
    rw [List.take_append_of_le_length (by omega)]
    rw [Nat.min_comm, ← List.take_take, List.take_length]
  have hdrop2 : (List.replicate (d.LE_WIFIDEFS_MAX_SSID_LENGTH + 1) 0
        ++ ap.ssidBytes.drop (d.LE_WIFIDEFS_MAX_SSID_LENGTH + 1)).drop
          (min s.length (d.LE_WIFIDEFS_MAX_SSID_LENGTH - 7))
      = List.replicate (d.LE_WIFIDEFS_MAX_SSID_LENGTH + 1
          - min s.length (d.LE_WIFIDEFS_MAX_SSID_LENGTH - 7)) 0
        ++ ap.ssidBytes.drop (d.LE_WIFIDEFS_MAX_SSID_LENGTH + 1) := by
    rw [List.drop_append_of_le_length (by simp; omega)]
    simp
  rw [htake, hdrop2, List.append_assoc]

theorem ssid_line_short (s : List Nat) (h10 : 10 ∉ s) (hlen : s.length + 8 ≤ 1022) :
    ShortLine (ssidTag ++ s ++ [10]) := by
  refine (shortLine_iff _).2 ⟨ssidTag ++ s, rfl, ?_, ?_⟩
  · simp only [List.mem_append, not_or]
    exact ⟨by decide, h10⟩
  · simp [ssidTag_eq]; omega

/-- One turn of the scan loop on an SSID line. -/
theorem scanLoop_ssid (d : WifiDefs) (fuel : Nat) (s rest : List Nat)
    (ap : pa_wifiClient_AccessPoint_t) (hs : 0 ∉ s) (h10 : 10 ∉ s)
    (hlen : s.length + 8 ≤ 1022)
    (hd : 7 ≤ d.LE_WIFIDEFS_MAX_SSID_LENGTH ∧ d.LE_WIFIDEFS_MAX_SSID_LENGTH ≤ 255) :
    scanLoop d (fuel + 1) (ssidTag ++ s ++ [10] ++ rest) ap
      = Exec.done (LE_OK, rest,
        { signalStrength := ap.signalStrength
          ssidLength := min s.length (d.LE_WIFIDEFS_MAX_SSID_LENGTH - 7)
          ssidBytes := s.take (d.LE_WIFIDEFS_MAX_SSID_LENGTH - 7)
            ++ List.replicate
              (d.LE_WIFIDEFS_MAX_SSID_LENGTH + 1
                - min s.length (d.LE_WIFIDEFS_MAX_SSID_LENGTH - 7)) 0
            ++ ap.ssidBytes.drop (d.LE_WIFIDEFS_MAX_SSID_LENGTH + 1) }) := by
  have hpre : strncmp ssidTag (ssidTag ++ s ++ [10]) 7 = 0 :=
    (strncmp_ssidTag _).2 ⟨s ++ [10], by simp⟩
  unfold scanLoop
  rw [fgets_shortLine _ rest (ssid_line_short s h10 hlen)]
  simp only [hpre, if_true, storeSsid_line d ap s hs hd]

/-- One turn of the scan loop on a line that is not an SSID line. -/
theorem scanLoop_skip (d : WifiDefs) (fuel : Nat) (l rest : List Nat)
    (ap : pa_wifiClient_AccessPoint_t) (hl : ShortLine l) (hno : ¬ ssidTag <+: l) :
    scanLoop d (fuel + 1) (l ++ rest) ap = scanLoop d fuel rest (readSignal ap l) := by
  have hpre : ¬ strncmp ssidTag l 7 = 0 := fun h => hno ((strncmp_ssidTag l).1 h)
  conv_lhs => unfold scanLoop
  rw [fgets_shortLine l rest hl]
  simp only [hpre, if_false, readSignal]
  split <;> rfl

/-- The scan loop over leading lines none of which is an SSID line. -/
theorem scanLoop_lines (d : WifiDefs) (pre : List (List Nat))
    (hpre : ∀ l ∈ pre, ShortLine l ∧ ¬ ssidTag <+: l) (fuel : Nat) (rest : List Nat)
    (ap : pa_wifiClient_AccessPoint_t) :
    scanLoop d (pre.length + fuel) (pre.flatten ++ rest) ap
      = scanLoop d fuel rest (pre.foldl readSignal ap) := by
  induction pre generalizing ap with
  | nil => simp
  | cons l pre ih =>
    have hl := hpre l (List.mem_cons_self l pre)
    have hrest : ∀ x ∈ pre, ShortLine x ∧ ¬ ssidTag <+: x :=
      fun x hx => hpre x (List.mem_cons_of_mem l hx)
    have e1 : (l :: pre).length + fuel = (pre.length + fuel) + 1 := by
      simp only [List.length_cons]; omega
    rw [e1, List.flatten_cons, List.append_assoc, scanLoop_skip d _ l _ ap hl.1 hl.2,
      ih hrest, List.foldl_cons]

theorem length_le_flatten (pre : List (List Nat)) (hpre : ∀ l ∈ pre, l ≠ []) :
    pre.length ≤ pre.flatten.length := by
  induction pre with
  | nil => simp
  | cons l pre ih =>
    have hl : l ≠ [] := hpre l (List.mem_cons_self l pre)
    have := ih (fun x hx => hpre x (List.mem_cons_of_mem l hx))
    have hpos : 0 < l.length := List.length_pos.2 hl
    simp only [List.length_cons, List.flatten_cons, List.length_append]
    omega

/-- The signal field is untouched by the lines read, the others follow the record. -/
theorem foldl_readSignal_fields (pre : List (List Nat)) (ap : pa_wifiClient_AccessPoint_t) :
    (pre.foldl readSignal ap).ssidLength = ap.ssidLength
    ∧ (pre.foldl readSignal ap).ssidBytes = ap.ssidBytes := by
  induction pre generalizing ap with
  | nil => exact ⟨rfl, rfl⟩
  | cons l pre ih =>
    rw [List.foldl_cons]
    obtain ⟨h1, h2⟩ := ih (readSignal ap l)
    rw [h1, h2]
    unfold readSignal
    split <;> exact ⟨rfl, rfl⟩

theorem foldl_readSignal_none (pre : List (List Nat)) (ap : pa_wifiClient_AccessPoint_t)
    (h : ∀ l ∈ pre, ¬ signalTag <+: l) : pre.foldl readSignal ap = ap := by
  induction pre generalizing ap with
  | nil => rfl
  | cons l pre ih =>
    have hl : ¬ strncmp signalTag l 9 = 0 :=
      fun hh => h l (List.mem_cons_self l pre) ((strncmp_signalTag l).1 hh)
    rw [List.foldl_cons]
    have : readSignal ap l = ap := by simp [readSignal, hl]
    rw [this]
    exact ih ap (fun x hx => h x (List.mem_cons_of_mem l hx))

theorem foldl_readSignal_last (a b : List (List Nat)) (sig : List Nat)
    (ap : pa_wifiClient_AccessPoint_t) (hsig : signalTag <+: sig)
    (hb : ∀ l ∈ b, ¬ signalTag <+: l) :
    ((a ++ [sig] ++ b).foldl readSignal ap).signalStrength = atoi (sig.drop 9) := by
  have hs : strncmp signalTag sig 9 = 0 := (strncmp_signalTag sig).2 hsig
  rw [List.foldl_append, List.foldl_append, foldl_readSignal_none b _ hb]
  simp [readSignal, hs]

/-! ## GetScanResult on whole streams -/

/-- `GetScanResult` on a stream of lines that are not SSID lines followed by an SSID line. -/
theorem getScanResult_found (d : WifiDefs) (st : PaState) (ap : pa_wifiClient_AccessPoint_t)
    (pre : List (List Nat)) (s rest : List Nat)
    (hd : 7 ≤ d.LE_WIFIDEFS_MAX_SSID_LENGTH ∧ d.LE_WIFIDEFS_MAX_SSID_LENGTH ≤ 255)
    (hpipe : st.IwScanPipePtr = some (pre.flatten ++ (ssidTag ++ s ++ [10] ++ rest)))
    (hpre : ∀ l ∈ pre, ShortLine l ∧ ¬ ssidTag <+: l)
    (hs : 0 ∉ s) (h10 : 10 ∉ s) (hlen : s.length + 8 ≤ 1022) :
    pa_wifiClient_GetScanResult d st (some ap)
      = Exec.done (LE_OK, { st with IwScanPipePtr := some rest },
        some
          { signalStrength :=
              (pre.foldl readSignal
                { ap with signalStrength := 0xffff, ssidLength := 0 }).signalStrength
            ssidLength := min s.length (d.LE_WIFIDEFS_MAX_SSID_LENGTH - 7)
            ssidBytes := s.take (d.LE_WIFIDEFS_MAX_SSID_LENGTH - 7)
              ++ List.replicate
                (d.LE_WIFIDEFS_MAX_SSID_LENGTH + 1
                  - min s.length (d.LE_WIFIDEFS_MAX_SSID_LENGTH - 7)) 0
              ++ ap.ssidBytes.drop (d.LE_WIFIDEFS_MAX_SSID_LENGTH + 1) }) := by
  have hne : ∀ l ∈ pre, l ≠ [] := fun l hl => shortLine_ne_nil l (hpre l hl).1
  have hle := length_le_flatten pre hne
  obtain ⟨k, hk⟩ : ∃ k, (pre.flatten ++ (ssidTag ++ s ++ [10] ++ rest)).length + 1
      = pre.length + (k + 1) := by
    refine ⟨(pre.flatten ++ (ssidTag ++ s ++ [10] ++ rest)).length - pre.length, ?_⟩
    simp only [List.length_append]
    omega
  unfold pa_wifiClient_GetScanResult
  simp only [hpipe]
  rw [hk, scanLoop_lines d pre hpre, scanLoop_ssid d k s rest _ hs h10 hlen hd]
  obtain ⟨_, h2⟩ := foldl_readSignal_fields pre
    { ap with signalStrength := 0xffff, ssidLength := 0 }
  simp only [h2]

theorem scanLoop_end (d : WifiDefs) (fuel : Nat) (ap : pa_wifiClient_AccessPoint_t) :
    scanLoop d (fuel + 1) [] ap = Exec.done (LE_NOT_FOUND, [], ap) := by
  simp [scanLoop, fgets]

/-- The scan loop on a last line without newline that is not an SSID line. -/
theorem scanLoop_tail (d : WifiDefs) (fuel : Nat) (tail : List Nat)
    (ap : pa_wifiClient_AccessPoint_t) (h10 : 10 ∉ tail) (hlen : tail.length ≤ 1022)
    (hno : ¬ ssidTag <+: tail) :
    scanLoop d (fuel + 2) tail ap
      = Exec.done (LE_NOT_FOUND, [], if tail = [] then ap else readSignal ap tail) := by
  by_cases hnil : tail = []
  · subst hnil
    simpa using scanLoop_end d (fuel + 1) ap
  · have hf := fgets_unterminated tail hnil h10 hlen
    have hpre : ¬ strncmp ssidTag tail 7 = 0 := fun h => hno ((strncmp_ssidTag tail).1 h)
    conv_lhs => unfold scanLoop
    simp only [hf, hpre, if_false, hnil]
    by_cases hsig : strncmp signalTag tail 9 = 0
    · simp only [hsig, if_true, readSignal]
      exact scanLoop_end d fuel _
    · simp only [hsig, if_false, readSignal]
      exact scanLoop_end d fuel _

/-- `GetScanResult` on a stream without SSID line: lines that one `fgets` call returns whole,
then possibly a last line without newline. -/
theorem getScanResult_notFound (d : WifiDefs) (st : PaState)
    (ap : pa_wifiClient_AccessPoint_t) (ls : List (List Nat)) (tail : List Nat)
    (hpipe : st.IwScanPipePtr = some (ls.flatten ++ tail))
    (hls : ∀ l ∈ ls, ShortLine l ∧ ¬ ssidTag <+: l)
    (h10 : 10 ∉ tail) (hlen : tail.length ≤ 1022) (hno : ¬ ssidTag <+: tail) :
    pa_wifiClient_GetScanResult d st (some ap)
      = Exec.done (LE_NOT_FOUND, { st with IwScanPipePtr := some [] },
        some (if tail = [] then
            ls.foldl readSignal { ap with signalStrength := 0xffff, ssidLength := 0 }
          else
            readSignal
              (ls.foldl readSignal { ap with signalStrength := 0xffff, ssidLength := 0 })
              tail)) := by
  have hne : ∀ l ∈ ls, l ≠ [] := fun l hl => shortLine_ne_nil l (hls l hl).1
  have hle := length_le_flatten ls hne
  unfold pa_wifiClient_GetScanResult
  simp only [hpipe]
  by_cases hnil : tail = []
  · subst hnil
    obtain ⟨k, hk⟩ : ∃ k, (ls.flatten ++ []).length + 1 = ls.length + (k + 1) := by
      refine ⟨(ls.flatten ++ []).length - ls.length, ?_⟩
      simp only [List.length_append, List.length_nil]
      omega
    rw [hk, scanLoop_lines d ls hls, scanLoop_end d k]
    simp
  · obtain ⟨k, hk⟩ : ∃ k, (ls.flatten ++ tail).length + 1 = ls.length + (k + 2) := by
      refine ⟨(ls.flatten ++ tail).length - ls.length - 1, ?_⟩
      have : 0 < tail.length := List.length_pos.2 hnil
      simp only [List.length_append]
      omega
    rw [hk, scanLoop_lines d ls hls, scanLoop_tail d k tail _ h10 hlen hno]

set_option maxRecDepth 8000

theorem decimalText_head (v : Int) :
    ∃ c t, decimalText v = c :: t ∧ (c = 45 ∨ isdigit c = true) := by
  unfold decimalText
  rcases lt_trichotomy v 0 with hv | hv | hv
  · exact ⟨45, if v = 0 then [48] else digitChars v.natAbs, by simp [hv], Or.inl rfl⟩
  · subst hv
    exact ⟨48, [], by simp, Or.inr (by decide)⟩
  · have hne : v ≠ 0 := by omega
    have hnlt : ¬ v < 0 := by omega
    obtain ⟨c, t, hct, hc⟩ := digitChars_pos v.natAbs (by omega)
    exact ⟨c, t, by simp [hne, hnlt, hct], Or.inr hc⟩

/-! ## Scan results: claims C6 to C10 -/

/-- C6, as stated, fails on the instance of the spec: for the stream
`"\tSSID: Home\n\tsignal: -40\n"` the call returns at the SSID line, which comes first, so the
signal field holds the sentinel `0xffff` and not `-40`; the signal line stays in the pipe. -/
theorem C6_counterexample :
    pa_wifiClient_GetScanResult upstreamDefs
        (scanOpen (bytes "\tSSID: Home\n\tsignal: -40\n")) (some blankRecord)
      = Exec.done (LE_OK, scanOpen (bytes "\tsignal: -40\n"),
          some { signalStrength := 0xffff, ssidLength := 4,
                 ssidBytes := bytes "Home" ++ List.replicate 29 0 })
    ∧ ¬ ∃ st rec, pa_wifiClient_GetScanResult upstreamDefs
          (scanOpen (bytes "\tSSID: Home\n\tsignal: -40\n")) (some blankRecord)
        = Exec.done (LE_OK, st, some rec) ∧ rec.signalStrength = -40 := by
  have h : pa_wifiClient_GetScanResult upstreamDefs
        (scanOpen (bytes "\tSSID: Home\n\tsignal: -40\n")) (some blankRecord)
      = Exec.done (LE_OK, scanOpen (bytes "\tsignal: -40\n"),
          some { signalStrength := 0xffff, ssidLength := 4,
                 ssidBytes := bytes "Home" ++ List.replicate 29 0 }) := by decide
  refine ⟨h, ?_⟩
  rintro ⟨st, rec, hrec, hsig⟩
  rw [h] at hrec
  simp only [Exec.done.injEq, Prod.mk.injEq, Option.some.injEq, true_and] at hrec
  rw [← hrec.2] at hsig
  exact absurd hsig (by decide)

/-- C6 amended: with a scan open and a non-null record, on a stream made of an SSID line
followed by a signal line, `GetScanResult` returns `LE_OK` with the SSID of the SSID line (at
most `LE_WIFIDEFS_MAX_SSID_BYTES - 8` bytes, free of NUL and newline) and its length, and with
the signal field at the sentinel `0xffff`: the signal line is left unread in the pipe. -/
theorem C6_ssid_line_before_signal_line (d : WifiDefs) (st : PaState)
    (ap : pa_wifiClient_AccessPoint_t) (s t : List Nat)
    (hd : 7 ≤ d.LE_WIFIDEFS_MAX_SSID_LENGTH ∧ d.LE_WIFIDEFS_MAX_SSID_LENGTH ≤ 255)
    (hpipe : st.IwScanPipePtr = some (ssidTag ++ s ++ [10] ++ (signalTag ++ t ++ [10])))
    (hs : 0 ∉ s) (h10 : 10 ∉ s)
    (hlen : s.length ≤ d.LE_WIFIDEFS_MAX_SSID_BYTES - 8) :
    pa_wifiClient_GetScanResult d st (some ap)
      = Exec.done (LE_OK, { st with IwScanPipePtr := some (signalTag ++ t ++ [10]) },
        some
          { signalStrength := 0xffff
            ssidLength := s.length
            ssidBytes := s ++ List.replicate (d.LE_WIFIDEFS_MAX_SSID_BYTES - s.length) 0
              ++ ap.ssidBytes.drop d.LE_WIFIDEFS_MAX_SSID_BYTES }) := by
  unfold WifiDefs.LE_WIFIDEFS_MAX_SSID_BYTES at hlen ⊢
  have hlen2 : s.length ≤ d.LE_WIFIDEFS_MAX_SSID_LENGTH - 7 := by omega
  have h := getScanResult_found d st ap [] s (signalTag ++ t ++ [10]) hd
    (by simpa using hpipe) (by simp) hs h10 (by omega)
  rw [h, Nat.min_eq_left hlen2, List.take_of_length_le hlen2]
  rfl

/-- C6 amended, on the instance of the spec at the upstream limits. -/
theorem C6_ssid_line_before_signal_line_witness :
    pa_wifiClient_GetScanResult upstreamDefs
        (scanOpen (bytes "\tSSID: Home\n\tsignal: -40\n")) (some blankRecord)
      = Exec.done (LE_OK,
          { scanOpen (bytes "\tSSID: Home\n\tsignal: -40\n") with
            IwScanPipePtr := some (signalTag ++ bytes "-40" ++ [10]) },
          some
            { signalStrength := 0xffff
              ssidLength := (bytes "Home").length
              ssidBytes := bytes "Home"
                ++ List.replicate
                  (upstreamDefs.LE_WIFIDEFS_MAX_SSID_BYTES - (bytes "Home").length) 0
                ++ blankRecord.ssidBytes.drop upstreamDefs.LE_WIFIDEFS_MAX_SSID_BYTES }) :=
  C6_ssid_line_before_signal_line upstreamDefs (scanOpen (bytes "\tSSID: Home\n\tsignal: -40\n"))
    blankRecord (bytes "Home") (bytes "-40") (by decide) (by decide) (by decide) (by decide)
    (by decide)

/-- C7, as stated, fails when a later line starts with the signal tag without carrying an
integer: on `"\tsignal: -40\n\tsignal: n/a\n\tSSID: Home\n"` the first line is the only one
of the form tag, decimal integer; the second is not of that form for any integer, yet it is
read with `atoi` and sets the signal field to `0`, which is what the call returns. -/
theorem C7_counterexample :
    bytes "\tsignal: -40\n" = signalTag ++ decimalText (-40) ++ [10]
    ∧ (¬ ∃ v tail, bytes "\tsignal: n/a\n" = signalTag ++ decimalText v ++ tail)
    ∧ pa_wifiClient_GetScanResult upstreamDefs
        (scanOpen (bytes "\tsignal: -40\n\tsignal: n/a\n\tSSID: Home\n")) (some blankRecord)
      = Exec.done (LE_OK, scanOpen [],
          some { signalStrength := 0, ssidLength := 4,
                 ssidBytes := bytes "Home" ++ List.replicate 29 0 }) := by
  refine ⟨by decide, ?_, by decide⟩
  rintro ⟨v, tail, h⟩
  obtain ⟨c, t, hct, hc⟩ := decimalText_head v
  rw [hct] at h
  have h2 : bytes "n/a\n" = c :: t ++ tail := by
    have := congrArg (List.drop 9) h
    simpa [signalTag_eq, bytes] using this
  have hc110 : c = 110 := by
    have := congrArg List.head? h2
    simp [bytes] at this
    omega
  subst hc110
  rcases hc with hc | hc
  · exact absurd hc (by decide)
  · exact absurd hc (by decide)

/-- C7 amended: with a scan open, on a stream whose lines before the first SSID line are
at most 1022 bytes long, `GetScanResult` returns `LE_OK` at the first SSID line and leaves what
follows it in the pipe. The signal field is the sentinel `0xffff` when no earlier line starts
with the signal tag; otherwise it is `atoi` of what follows the tag in the last such line:
the integer the line carries when it carries one in decimal from -32768 to 32767, a range that
an `int` holds and that a signal field of 16 bits or more holds, and `0` when what follows the
tag does not start with an integer. -/
theorem C7_signal_of_last_signal_line (d : WifiDefs) (st : PaState)
    (ap : pa_wifiClient_AccessPoint_t) (pre : List (List Nat)) (s rest : List Nat)
    (hd : 7 ≤ d.LE_WIFIDEFS_MAX_SSID_LENGTH ∧ d.LE_WIFIDEFS_MAX_SSID_LENGTH ≤ 255)
    (hpipe : st.IwScanPipePtr = some (pre.flatten ++ (ssidTag ++ s ++ [10] ++ rest)))
    (hpre : ∀ l ∈ pre, ShortLine l ∧ ¬ ssidTag <+: l)
    (hs : 0 ∉ s) (h10 : 10 ∉ s) (hlen : s.length + 8 ≤ 1022) :
    ∃ rec, pa_wifiClient_GetScanResult d st (some ap)
        = Exec.done (LE_OK, { st with IwScanPipePtr := some rest }, some rec)
      ∧ ((∀ l ∈ pre, ¬ signalTag <+: l) → rec.signalStrength = 0xffff)
      ∧ (∀ a b sig, pre = a ++ [sig] ++ b → signalTag <+: sig
          → (∀ l ∈ b, ¬ signalTag <+: l) → rec.signalStrength = atoi (sig.drop 9))
      ∧ (∀ a b v tail, pre = a ++ [signalTag ++ decimalText v ++ tail] ++ b
          → (∀ l ∈ b, ¬ signalTag <+: l) → (∀ c ∈ tail.head?, isdigit c = false)
          → -32768 ≤ v → v ≤ 32767
          → rec.signalStrength = v)
      ∧ (∀ a b text, pre = a ++ [signalTag ++ text] ++ b
          → (∀ l ∈ b, ¬ signalTag <+: l) → startsWithInteger text = false
          → rec.signalStrength = 0) := by
  refine ⟨_, getScanResult_found d st ap pre s rest hd hpipe hpre hs h10 hlen, ?_, ?_, ?_, ?_⟩
  · intro hnone
    simp only [foldl_readSignal_none pre _ hnone]
  · intro a b sig hsplit hsig hb
    simp only [hsplit]
    exact foldl_readSignal_last a b sig _ hsig hb
  · intro a b v tail hsplit hb htail hlo hhi
    simp only [hsplit]
    rw [foldl_readSignal_last a b _ _ ⟨decimalText v ++ tail, by simp⟩ hb]
    have : (signalTag ++ decimalText v ++ tail).drop 9 = decimalText v ++ tail := by
      simp [signalTag_eq]
    rw [this]
    exact atoi_decimalText v tail ⟨by omega, by omega⟩ htail
  · intro a b text hsplit hb htext
    simp only [hsplit]
    rw [foldl_readSignal_last a b _ _ ⟨text, rfl⟩ hb]
    have : (signalTag ++ text).drop 9 = text := by
      simp [signalTag_eq]
    rw [this]
    exact atoi_of_no_integer text htext

/-- C7 amended, at the upstream limits on `"\tsignal: -40\n\tSSID: Home\n\tfreq: 2412\n"`: the
call returns `LE_OK` with the signal `-40` and leaves the last line in the pipe; on
`"\tsignal: n/a\n\tSSID: Home\n"` the signal is `0`. -/
theorem C7_signal_of_last_signal_line_witness :
    (∃ rec, pa_wifiClient_GetScanResult upstreamDefs
          (scanOpen (bytes "\tsignal: -40\n\tSSID: Home\n\tfreq: 2412\n")) (some blankRecord)
        = Exec.done (LE_OK, scanOpen (bytes "\tfreq: 2412\n"), some rec)
      ∧ rec.signalStrength = -40)
    ∧ (∃ rec, pa_wifiClient_GetScanResult upstreamDefs
          (scanOpen (bytes "\tsignal: n/a\n\tSSID: Home\n")) (some blankRecord)
        = Exec.done (LE_OK, scanOpen [], some rec)
      ∧ rec.signalStrength = 0) := by
  constructor
  · obtain ⟨rec, h, _, _, h3, _⟩ := C7_signal_of_last_signal_line upstreamDefs
      (scanOpen (bytes "\tsignal: -40\n\tSSID: Home\n\tfreq: 2412\n")) blankRecord
      [bytes "\tsignal: -40\n"] (bytes "Home") (bytes "\tfreq: 2412\n") (by decide) (by decide)
      (by
        intro l hl
        rw [List.mem_singleton] at hl
        subst hl
        exact ⟨by decide, by decide⟩)
      (by decide) (by decide) (by decide)
    exact ⟨rec, h, h3 [] [] (-40) [10] (by decide) (by simp) (by decide) (by decide) (by decide)⟩
  · obtain ⟨rec, h, _, _, _, h4⟩ := C7_signal_of_last_signal_line upstreamDefs
      (scanOpen (bytes "\tsignal: n/a\n\tSSID: Home\n")) blankRecord
      [bytes "\tsignal: n/a\n"] (bytes "Home") [] (by decide) (by decide)
      (by
        intro l hl
        rw [List.mem_singleton] at hl
        subst hl
        exact ⟨by decide, by decide⟩)
      (by decide) (by decide) (by decide)
    exact ⟨rec, h, h4 [] [] (bytes "n/a\n") (by decide) (by simp) (by decide)⟩

/-- C8 at the failing input: at the upstream limits (SSID of at most 32 bytes, buffer of 33)
the line `"\tSSID: "`, 26 times `A`, newline carries an SSID of 26 bytes, yet the call stores
the length 25 and the first 25 bytes only. -/
theorem C8_ssid_of_26_bytes_cut_to_25 :
    (List.replicate 26 65).length ≤ upstreamDefs.LE_WIFIDEFS_MAX_SSID_LENGTH
    ∧ pa_wifiClient_GetScanResult upstreamDefs
        (scanOpen (bytes "\tSSID: " ++ List.replicate 26 65 ++ bytes "\n")) (some blankRecord)
      = Exec.done (LE_OK, scanOpen [],
          some { signalStrength := 0xffff, ssidLength := 25,
                 ssidBytes := List.replicate 25 65 ++ List.replicate 8 0 }) := by
  decide

/-- C9, as stated, fails on a line longer than the 1022 bytes one `fgets` call reads: the
stream of 1022 times `x` followed by `"\tSSID: Home\n"` is a single line, it does not begin
with the SSID tag, and the call returns `LE_OK` with the SSID `Home`, because the second
`fgets` call starts in the middle of the line, at the tag. -/
theorem C9_counterexample :
    (List.replicate 1022 120 ++ bytes "\tSSID: Home\n").getLast? = some 10
    ∧ 10 ∉ (List.replicate 1022 120 ++ bytes "\tSSID: Home\n").dropLast
    ∧ ¬ ssidTag <+: (List.replicate 1022 120 ++ bytes "\tSSID: Home\n")
    ∧ pa_wifiClient_GetScanResult upstreamDefs
        (scanOpen (List.replicate 1022 120 ++ bytes "\tSSID: Home\n")) (some blankRecord)
      = Exec.done (LE_OK, scanOpen [],
          some { signalStrength := 0xffff, ssidLength := 4,
                 ssidBytes := bytes "Home" ++ List.replicate 29 0 }) := by
  decide

/-- C9 amended: with a scan open and a non-null record, for every stream whose lines are at
most 1022 bytes long (the last one may lack its newline) and none of which begins with the
SSID tag, the empty stream included, `GetScanResult` reads the stream to its end and returns
`LE_NOT_FOUND`. -/
theorem C9_no_ssid_line_not_found (d : WifiDefs) (st : PaState)
    (ap : pa_wifiClient_AccessPoint_t) (ls : List (List Nat)) (tail : List Nat)
    (hpipe : st.IwScanPipePtr = some (ls.flatten ++ tail))
    (hls : ∀ l ∈ ls, ShortLine l ∧ ¬ ssidTag <+: l)
    (h10 : 10 ∉ tail) (hlen : tail.length ≤ 1022) (hno : ¬ ssidTag <+: tail) :
    ∃ rec, pa_wifiClient_GetScanResult d st (some ap)
      = Exec.done (LE_NOT_FOUND, { st with IwScanPipePtr := some [] }, some rec) :=
  ⟨_, getScanResult_notFound d st ap ls tail hpipe hls h10 hlen hno⟩

/-- C9 amended, at the upstream limits on a stream of two lines, a signal line and a
frequency line. -/
theorem C9_no_ssid_line_not_found_witness :
    ∃ rec, pa_wifiClient_GetScanResult upstreamDefs
        (scanOpen (bytes "\tsignal: -40\n\tfreq: 2412\n")) (some blankRecord)
      = Exec.done (LE_NOT_FOUND, scanOpen [], some rec) :=
  C9_no_ssid_line_not_found upstreamDefs (scanOpen (bytes "\tsignal: -40\n\tfreq: 2412\n"))
    blankRecord [bytes "\tsignal: -40\n", bytes "\tfreq: 2412\n"] [] (by decide)
    (by
      intro l hl
      simp only [List.mem_cons, List.mem_singleton, List.not_mem_nil, or_false] at hl
      rcases hl with hl | hl
      · subst hl
        exact ⟨by decide, by decide⟩
      · subst hl
        exact ⟨by decide, by decide⟩)
    (by decide) (by decide) (by decide)

/-- C10, as stated, fails: without an open scan the call returns `LE_FAULT`, the very code
the claim sets the result apart from; the file has no result code for a failed precondition. -/
theorem C10_counterexample :
    ¬ ∃ r st rec, pa_wifiClient_GetScanResult upstreamDefs (PaState.initial upstreamDefs)
        (some blankRecord) = Exec.done (r, st, rec) ∧ r ≠ LE_FAULT := by
  rintro ⟨r, st, rec, h, hr⟩
  have h2 : pa_wifiClient_GetScanResult upstreamDefs (PaState.initial upstreamDefs)
      (some blankRecord)
      = Exec.done (LE_FAULT, PaState.initial upstreamDefs, some blankRecord) := rfl
  rw [h2] at h
  simp only [Exec.done.injEq, Prod.mk.injEq] at h
  exact hr h.1.symm

/-- C10 amended: when no scan has been started (the pipe pointer is NULL) `GetScanResult`
returns `LE_FAULT` and changes neither the state nor the caller's record, whether that
pointer is NULL or not. -/
theorem C10_no_scan_open_faults (d : WifiDefs) (st : PaState)
    (accessPointPtr : Option pa_wifiClient_AccessPoint_t) (hpipe : st.IwScanPipePtr = none) :
    pa_wifiClient_GetScanResult d st accessPointPtr
      = Exec.done (LE_FAULT, st, accessPointPtr) := by
  unfold pa_wifiClient_GetScanResult
  simp only [hpipe]

/-- C10 amended, at the upstream limits in the initial state. -/
theorem C10_no_scan_open_faults_witness :
    pa_wifiClient_GetScanResult upstreamDefs (PaState.initial upstreamDefs) (some blankRecord)
      = Exec.done (LE_FAULT, PaState.initial upstreamDefs, some blankRecord) :=
  C10_no_scan_open_faults upstreamDefs (PaState.initial upstreamDefs) (some blankRecord) rfl

/-! ## Event bridge: claim C5 -/

theorem strstrAux_isSome_iff (needle hay : List Nat) :
    (strstrAux needle hay).isSome = true ↔ needle <:+: hay := by
  induction hay with
  | nil =>
    unfold strstrAux
    by_cases h : needle = []
    · simp [h]
    · simp [h]
  | cons c s ih =>
    unfold strstrAux
    rw [List.infix_cons_iff]
    by_cases hp : needle.isPrefixOf (c :: s) = true
    · simp only [hp, if_true, Option.isSome_some, true_iff]
      exact Or.inl (List.isPrefixOf_iff_prefix.1 hp)
    · simp only [hp, Bool.false_eq_true, if_false]
      rw [ih]
      constructor
      · exact Or.inr
      · rintro (h | h)
        · exact absurd (List.isPrefixOf_iff_prefix.2 h) hp
        · exact h

/-- `strstr` finds the needle exactly when it occurs in the C string of the line. -/
theorem strstr_isSome_iff (hay needle : List Nat) (hn : 0 ∉ needle) :
    (strstr hay needle).isSome = true ↔ needle <:+: cstr hay := by
  unfold strstr
  rw [cstr_eq_self needle hn]
  exact strstrAux_isSome_iff needle (cstr hay)

/-- C5, as stated, fails on a line that holds both markers: `"wlan0: disconnected to
00:11:22:33:44:55"` contains `disconnected` (and, inside it, `connected to`), and the event
reported for it is Connected, not Disconnected. -/
theorem C5_counterexample :
    bytes "disconnected" <:+: cstr (bytes "wlan0: disconnected to 00:11:22:33:44:55")
    ∧ classifyLine (bytes "wlan0: disconnected to 00:11:22:33:44:55")
      = some LE_WIFICLIENT_EVENT_CONNECTED
    ∧ classifyLine (bytes "wlan0: disconnected to 00:11:22:33:44:55")
      ≠ some LE_WIFICLIENT_EVENT_DISCONNECTED := by
  refine ⟨?_, by decide, by decide⟩
  rw [← strstr_isSome_iff _ _ (by decide)]
  decide

/-- C5 amended: the event loop reports Connected for every line whose text contains
`connected to`, Disconnected for every line whose text contains `disconnected` but not
`connected to`, and nothing for a line that contains neither. In particular the stream
`"wlan0: connected to 00:11:22:33:44:55"` yields exactly one Connected event, the stream
`"wlan0: disconnected"` exactly one Disconnected event and an unrelated line none. -/
theorem C5_line_classification :
    (∀ path, bytes "connected to" <:+: cstr path
      → classifyLine path = some LE_WIFICLIENT_EVENT_CONNECTED)
    ∧ (∀ path, ¬ bytes "connected to" <:+: cstr path → bytes "disconnected" <:+: cstr path
      → classifyLine path = some LE_WIFICLIENT_EVENT_DISCONNECTED)
    ∧ (∀ path, ¬ bytes "connected to" <:+: cstr path → ¬ bytes "disconnected" <:+: cstr path
      → classifyLine path = none)
    ∧ WifiClientPaThreadMain (worldWith (bytes "wlan0: connected to 00:11:22:33:44:55"))
      = Exec.done [LE_WIFICLIENT_EVENT_CONNECTED]
    ∧ WifiClientPaThreadMain (worldWith (bytes "wlan0: disconnected"))
      = Exec.done [LE_WIFICLIENT_EVENT_DISCONNECTED]
    ∧ WifiClientPaThreadMain (worldWith (bytes "wlan0: scan started\n")) = Exec.done [] := by
  have h1 := fun path => strstr_isSome_iff path (bytes "connected to") (by decide)
  have h2 := fun path => strstr_isSome_iff path (bytes "disconnected") (by decide)
  refine ⟨?_, ?_, ?_, by decide, by decide, by decide⟩
  · intro path hc
    simp [classifyLine, (h1 path).2 hc]
  · intro path hc hd
    have hc2 : ¬ (strstr path (bytes "connected to")).isSome = true :=
      fun h => hc ((h1 path).1 h)
    simp [classifyLine, hc2, (h2 path).2 hd]
  · intro path hc hd
    have hc2 : ¬ (strstr path (bytes "connected to")).isSome = true :=
      fun h => hc ((h1 path).1 h)
    have hd2 : ¬ (strstr path (bytes "disconnected")).isSome = true :=
      fun h => hd ((h2 path).1 h)
    simp [classifyLine, hc2, hd2]

/-! ## Scan session and lifecycle: claims C11, C14, C18, C19 -/

/-- C11: when the scan command can be opened, `Scan` from the idle state returns `LE_OK` and
opens the pipe; every `Scan` made while a pipe is open returns `LE_BUSY`, calls nothing and
leaves the state untouched; `ScanDone` always returns `LE_OK`, closes the pipe, and repeating
it changes nothing; after it a new `Scan` returns `LE_OK` again. -/
theorem C11_scan_busy_until_done (w : World) (st : PaState) (out : List Nat)
    (hidle : st.IwScanPipePtr = none ∧ st.IsScanRunning = false)
    (hopen : w.popen (WIFI_SCRIPT_PATH ++ COMMAND_WIFICLIENT_START_SCAN) = some out) :
    (pa_wifiClient_Scan w st).1 = LE_OK
    ∧ (pa_wifiClient_Scan w st).2.1.IwScanPipePtr = some out
    ∧ (∀ (w2 : World) (st2 : PaState), st2.IwScanPipePtr ≠ none
        → pa_wifiClient_Scan w2 st2 = (LE_BUSY, st2, []))
    ∧ pa_wifiClient_Scan w (pa_wifiClient_Scan w st).2.1
        = (LE_BUSY, (pa_wifiClient_Scan w st).2.1, [])
    ∧ (∀ st2 : PaState, (pa_wifiClient_ScanDone st2).1 = LE_OK
        ∧ (pa_wifiClient_ScanDone st2).2.IwScanPipePtr = none
        ∧ pa_wifiClient_ScanDone (pa_wifiClient_ScanDone st2).2
          = (LE_OK, (pa_wifiClient_ScanDone st2).2))
    ∧ (pa_wifiClient_Scan w (pa_wifiClient_ScanDone (pa_wifiClient_Scan w st).2.1).2).1 = LE_OK
    ∧ (pa_wifiClient_Scan w
        (pa_wifiClient_ScanDone (pa_wifiClient_Scan w st).2.1).2).2.1.IwScanPipePtr
      = some out := by
  obtain ⟨hpipe, hrun⟩ := hidle
  have hbusy : ∀ (w2 : World) (st2 : PaState), st2.IwScanPipePtr ≠ none
      → pa_wifiClient_Scan w2 st2 = (LE_BUSY, st2, []) := by
    intro w2 st2 h
    unfold pa_wifiClient_Scan
    by_cases hr : st2.IsScanRunning = true
    · simp [hr]
    · simp [hr, h]
  have hscan : pa_wifiClient_Scan w st
      = (LE_OK, { st with IwScanPipePtr := some out, IsScanRunning := false },
        [Call.popen (WIFI_SCRIPT_PATH ++ COMMAND_WIFICLIENT_START_SCAN)]) := by
    unfold pa_wifiClient_Scan
    simp [hpipe, hrun, hopen]
  have hdone : ∀ st2 : PaState, (pa_wifiClient_ScanDone st2).1 = LE_OK
      ∧ (pa_wifiClient_ScanDone st2).2.IwScanPipePtr = none
      ∧ pa_wifiClient_ScanDone (pa_wifiClient_ScanDone st2).2
        = (LE_OK, (pa_wifiClient_ScanDone st2).2) := by
    intro st2
    unfold pa_wifiClient_ScanDone
    cases h : st2.IwScanPipePtr with
    | none => simp [h]
    | some x => simp
  have hagain : pa_wifiClient_Scan w (pa_wifiClient_ScanDone (pa_wifiClient_Scan w st).2.1).2
      = (LE_OK, { st with IwScanPipePtr := some out, IsScanRunning := false },
        [Call.popen (WIFI_SCRIPT_PATH ++ COMMAND_WIFICLIENT_START_SCAN)]) := by
    rw [hscan]
    simp [pa_wifiClient_ScanDone, pa_wifiClient_Scan, hopen]
  refine ⟨by rw [hscan], by rw [hscan], hbusy, ?_, hdone, by rw [hagain], by rw [hagain]⟩
  apply hbusy
  rw [hscan]
  simp

/-- C11 from the initial state at the upstream limits, the scan command printing one line. -/
theorem C11_scan_busy_until_done_witness :
    (pa_wifiClient_Scan (worldWith (bytes "\tSSID: Home\n"))
        (PaState.initial upstreamDefs)).1 = LE_OK
    ∧ pa_wifiClient_Scan (worldWith (bytes "\tSSID: Home\n"))
        (pa_wifiClient_Scan (worldWith (bytes "\tSSID: Home\n"))
          (PaState.initial upstreamDefs)).2.1
      = (LE_BUSY,
          (pa_wifiClient_Scan (worldWith (bytes "\tSSID: Home\n"))
            (PaState.initial upstreamDefs)).2.1, []) :=
  ⟨(C11_scan_busy_until_done (worldWith (bytes "\tSSID: Home\n")) (PaState.initial upstreamDefs)
      (bytes "\tSSID: Home\n") ⟨rfl, rfl⟩ rfl).1,
    (C11_scan_busy_until_done (worldWith (bytes "\tSSID: Home\n")) (PaState.initial upstreamDefs)
      (bytes "\tSSID: Home\n") ⟨rfl, rfl⟩ rfl).2.2.2.1⟩

theorem WEXITSTATUS_exitedWith (code : Int) (h : 0 ≤ code ∧ code ≤ 255) :
    WEXITSTATUS (exitedWith code) = code := by
  unfold WEXITSTATUS exitedWith
  omega

/-- C14: `Disconnect` runs exactly one command, the fixed disconnect command, and maps its
outcome: `LE_OK` when the command exited with code zero, `LE_FAULT` when it exited with any
code from 1 to 255, and `LE_FAULT` when `system` returned -1, the sign that the fork failed. -/
theorem C14_disconnect_maps_exit_status (w : World) :
    (pa_wifiClient_Disconnect w).2
      = [Call.system (bytes ("/legato/systems/current/apps/wifiService/read-only/pa_wifi.sh "
          ++ "wlan0 WIFICLIENT_DISCONNECT"))]
    ∧ (w.system (WIFI_SCRIPT_PATH ++ COMMAND_WIFICLIENT_DISCONNECT) = exitedWith 0
      → (pa_wifiClient_Disconnect w).1 = LE_OK)
    ∧ (∀ code : Int, 1 ≤ code → code ≤ 255
      → w.system (WIFI_SCRIPT_PATH ++ COMMAND_WIFICLIENT_DISCONNECT) = exitedWith code
      → (pa_wifiClient_Disconnect w).1 = LE_FAULT)
    ∧ (w.system (WIFI_SCRIPT_PATH ++ COMMAND_WIFICLIENT_DISCONNECT) = -1
      → (pa_wifiClient_Disconnect w).1 = LE_FAULT) := by
  refine ⟨?_, ?_, ?_, ?_⟩
  · simp only [pa_wifiClient_Disconnect]
    decide
  · intro h
    simp [pa_wifiClient_Disconnect, systemResultCode, h, WEXITSTATUS, exitedWith]
  · intro code h1 h2 h
    have hw := WEXITSTATUS_exitedWith code ⟨by omega, h2⟩
    simp only [pa_wifiClient_Disconnect, systemResultCode, h, hw]
    have : ¬ (0 = code) := by omega
    simp [this]
  · intro h
    simp [pa_wifiClient_Disconnect, systemResultCode, h, WEXITSTATUS]

theorem statusBits8to15_eq (s : Int) :
    statusBits8to15 s = ((s % 2 ^ 32).toNat / 256) % 256 := by
  unfold statusBits8to15
  rw [Nat.shiftRight_eq_div_pow]
  exact Nat.and_pow_two_sub_one_eq_mod _ 8

/-- The macro `WEXITSTATUS` is zero exactly when bits 8 to 15 of the status are zero. -/
theorem statusBits8to15_eq_zero_iff (s : Int) : statusBits8to15 s = 0 ↔ WEXITSTATUS s = 0 := by
  rw [statusBits8to15_eq]
  unfold WEXITSTATUS
  omega

theorem systemResultCode_bits (s : Int) :
    systemResultCode s = if statusBits8to15 s = 0 then LE_OK else LE_FAULT := by
  unfold systemResultCode
  by_cases h : statusBits8to15 s = 0
  · have hw : WEXITSTATUS s = 0 := (statusBits8to15_eq_zero_iff s).1 h
    simp [h, hw]
  · have hw : ¬ (0 = WEXITSTATUS s) := fun hh => h ((statusBits8to15_eq_zero_iff s).2 hh.symm)
    simp [h, hw]

/-- Bits 8 to 15 of the status of a command that exited with the code `code` hold that code. -/
theorem statusBits8to15_exitedWith (code : Int) (h : 0 ≤ code ∧ code ≤ 255) :
    (statusBits8to15 (exitedWith code) : Int) = code := by
  rw [statusBits8to15_eq]
  unfold exitedWith
  omega

theorem statusBits8to15_exitedWith_eq_zero_iff (code : Int) (h : 0 ≤ code ∧ code ≤ 255) :
    statusBits8to15 (exitedWith code) = 0 ↔ code = 0 := by
  have := statusBits8to15_exitedWith code h
  omega

/-- The status 9, that of a child killed by signal 9, is the status of no exit. -/
theorem exitedWith_ne_nine (code : Int) : exitedWith code ≠ 9 := by
  unfold exitedWith
  omega

/-- C18, as stated, fails when the hardware-enable command does not exit at all: with the
status 9 for every command (the child was killed by signal 9 and has no exit code),
`Start` still runs the link-up command and returns `LE_OK`. -/
theorem C18_counterexample :
    (∀ code : Int, exitedWith code ≠ 9)
    ∧ pa_wifiClient_Start (worldStatus 9)
      = (LE_OK,
          [Call.le_thread_Start,
            Call.system (bytes ("/legato/systems/current/apps/wifiService/read-only/pa_wifi.sh "
              ++ "wlan0 WIFI_START")),
            Call.system (bytes ("/legato/systems/current/apps/wifiService/read-only/pa_wifi.sh "
              ++ "wlan0 WIFI_WLAN_UP"))]) := by
  refine ⟨exitedWith_ne_nine, by decide⟩

/-- C18 amended: `Start` launches the worker first, then runs the hardware-enable command, and
runs the link-up command exactly when bits 8 to 15 of the status of hardware-enable are zero.
It returns `LE_OK` exactly when bits 8 to 15 of both statuses are zero and `LE_FAULT` otherwise;
in every case the worker has been started and is neither cancelled nor joined. For commands
that exit, this is: link-up runs when hardware-enable exited with code zero, and the result is
`LE_OK` exactly when both exited with code zero; a failed fork (status -1) of hardware-enable
gives `LE_FAULT` without link-up; a status such as 9 counts as success. -/
theorem C18_start_order_and_result (w : World) :
    pa_wifiClient_Start w
      = (if statusBits8to15 (w.system (WIFI_SCRIPT_PATH ++ COMMAND_WIFI_HW_START)) = 0
            ∧ statusBits8to15 (w.system (WIFI_SCRIPT_PATH ++ COMMAND_WIFI_WLAN_UP)) = 0
          then LE_OK else LE_FAULT,
        Call.le_thread_Start :: Call.system (WIFI_SCRIPT_PATH ++ COMMAND_WIFI_HW_START)
          :: (if statusBits8to15 (w.system (WIFI_SCRIPT_PATH ++ COMMAND_WIFI_HW_START)) = 0
              then [Call.system (WIFI_SCRIPT_PATH ++ COMMAND_WIFI_WLAN_UP)] else []))
    ∧ Call.le_thread_Cancel ∉ (pa_wifiClient_Start w).2
    ∧ Call.le_thread_Join ∉ (pa_wifiClient_Start w).2
    ∧ (∀ c1 c2 : Int, 0 ≤ c1 → c1 ≤ 255 → 0 ≤ c2 → c2 ≤ 255
        → w.system (WIFI_SCRIPT_PATH ++ COMMAND_WIFI_HW_START) = exitedWith c1
        → w.system (WIFI_SCRIPT_PATH ++ COMMAND_WIFI_WLAN_UP) = exitedWith c2
        → pa_wifiClient_Start w
          = (if c1 = 0 ∧ c2 = 0 then LE_OK else LE_FAULT,
            Call.le_thread_Start :: Call.system (WIFI_SCRIPT_PATH ++ COMMAND_WIFI_HW_START)
              :: (if c1 = 0 then [Call.system (WIFI_SCRIPT_PATH ++ COMMAND_WIFI_WLAN_UP)]
                  else [])))
    ∧ (w.system (WIFI_SCRIPT_PATH ++ COMMAND_WIFI_HW_START) = -1
        → pa_wifiClient_Start w
          = (LE_FAULT,
            [Call.le_thread_Start, Call.system (WIFI_SCRIPT_PATH ++ COMMAND_WIFI_HW_START)]))
    ∧ (w.system (WIFI_SCRIPT_PATH ++ COMMAND_WIFI_HW_START) = 9
        → w.system (WIFI_SCRIPT_PATH ++ COMMAND_WIFI_WLAN_UP) = exitedWith 0
        → pa_wifiClient_Start w
          = (LE_OK,
            [Call.le_thread_Start, Call.system (WIFI_SCRIPT_PATH ++ COMMAND_WIFI_HW_START),
              Call.system (WIFI_SCRIPT_PATH ++ COMMAND_WIFI_WLAN_UP)])) := by
  have hmain : pa_wifiClient_Start w
      = (if statusBits8to15 (w.system (WIFI_SCRIPT_PATH ++ COMMAND_WIFI_HW_START)) = 0
            ∧ statusBits8to15 (w.system (WIFI_SCRIPT_PATH ++ COMMAND_WIFI_WLAN_UP)) = 0
          then LE_OK else LE_FAULT,
        Call.le_thread_Start :: Call.system (WIFI_SCRIPT_PATH ++ COMMAND_WIFI_HW_START)
          :: (if statusBits8to15 (w.system (WIFI_SCRIPT_PATH ++ COMMAND_WIFI_HW_START)) = 0
              then [Call.system (WIFI_SCRIPT_PATH ++ COMMAND_WIFI_WLAN_UP)] else [])) := by
    unfold pa_wifiClient_Start
    simp only [systemResultCode_bits]
    by_cases h1 : statusBits8to15 (w.system (WIFI_SCRIPT_PATH ++ COMMAND_WIFI_HW_START)) = 0
    · by_cases h2 : statusBits8to15 (w.system (WIFI_SCRIPT_PATH ++ COMMAND_WIFI_WLAN_UP)) = 0
      · simp [h1, h2]
      · simp [h1, h2]
    · simp [h1]
  refine ⟨hmain, ?_, ?_, ?_, ?_, ?_⟩
  · rw [hmain]
    by_cases h1 : statusBits8to15 (w.system (WIFI_SCRIPT_PATH ++ COMMAND_WIFI_HW_START)) = 0
    · simp [h1]
    · simp [h1]
  · rw [hmain]
    by_cases h1 : statusBits8to15 (w.system (WIFI_SCRIPT_PATH ++ COMMAND_WIFI_HW_START)) = 0
    · simp [h1]
    · simp [h1]
  · intro c1 c2 h1lo h1hi h2lo h2hi hs1 hs2
    rw [hmain, hs1, hs2]
    simp only [statusBits8to15_exitedWith_eq_zero_iff c1 ⟨h1lo, h1hi⟩,
      statusBits8to15_exitedWith_eq_zero_iff c2 ⟨h2lo, h2hi⟩]
  · intro hs1
    rw [hmain, hs1]
    have : statusBits8to15 (-1) ≠ 0 := by decide
    simp [this]
  · intro hs1 hs2
    rw [hmain, hs1, hs2]
    have h9 : statusBits8to15 9 = 0 := by decide
    have h0 : statusBits8to15 (exitedWith 0) = 0 := by decide
    simp [h9, h0]

/-- C19, as stated, fails when the hardware-disable command does not exit at all: with the
status 9 (the child was killed by signal 9 and has no exit code) `Stop` still cancels
and joins the worker, and returns `LE_OK` when the join succeeds. -/
theorem C19_counterexample :
    (∀ code : Int, exitedWith code ≠ 9)
    ∧ pa_wifiClient_Stop (worldStatus 9) LE_OK
      = (LE_OK,
          [Call.system (bytes ("/legato/systems/current/apps/wifiService/read-only/pa_wifi.sh "
              ++ "wlan0 WIFI_STOP")),
            Call.le_thread_Cancel, Call.le_thread_Join]) := by
  refine ⟨exitedWith_ne_nine, by decide⟩

/-- C19 amended: `Stop` runs the hardware-disable command first and cancels and joins the worker
exactly when bits 8 to 15 of the status of that command are zero. It returns `LE_OK` exactly
when those bits are zero and the join returned `LE_OK`, and `LE_FAULT` otherwise. For a command
that exits, this is: the worker is cancelled and joined exactly when the command exited with
code zero, and the result is `LE_OK` exactly when it did and the join succeeded; a failed fork
(status -1) gives `LE_FAULT` and leaves the worker alone; a status such as 9 counts as
success. -/
theorem C19_stop_order_and_result (w : World) (joinResult : le_result_t) :
    pa_wifiClient_Stop w joinResult
      = (if statusBits8to15 (w.system (WIFI_SCRIPT_PATH ++ COMMAND_WIFI_HW_STOP)) = 0
            ∧ joinResult = LE_OK
          then LE_OK else LE_FAULT,
        Call.system (WIFI_SCRIPT_PATH ++ COMMAND_WIFI_HW_STOP)
          :: (if statusBits8to15 (w.system (WIFI_SCRIPT_PATH ++ COMMAND_WIFI_HW_STOP)) = 0
              then [Call.le_thread_Cancel, Call.le_thread_Join] else []))
    ∧ (∀ code : Int, 0 ≤ code → code ≤ 255
        → w.system (WIFI_SCRIPT_PATH ++ COMMAND_WIFI_HW_STOP) = exitedWith code
        → pa_wifiClient_Stop w joinResult
          = (if code = 0 ∧ joinResult = LE_OK then LE_OK else LE_FAULT,
            Call.system (WIFI_SCRIPT_PATH ++ COMMAND_WIFI_HW_STOP)
              :: (if code = 0 then [Call.le_thread_Cancel, Call.le_thread_Join] else [])))
    ∧ (w.system (WIFI_SCRIPT_PATH ++ COMMAND_WIFI_HW_STOP) = -1
        → pa_wifiClient_Stop w joinResult
          = (LE_FAULT, [Call.system (WIFI_SCRIPT_PATH ++ COMMAND_WIFI_HW_STOP)]))
    ∧ (w.system (WIFI_SCRIPT_PATH ++ COMMAND_WIFI_HW_STOP) = 9
        → pa_wifiClient_Stop w joinResult
          = (if joinResult = LE_OK then LE_OK else LE_FAULT,
            [Call.system (WIFI_SCRIPT_PATH ++ COMMAND_WIFI_HW_STOP), Call.le_thread_Cancel,
              Call.le_thread_Join])) := by
  have hmain : pa_wifiClient_Stop w joinResult
      = (if statusBits8to15 (w.system (WIFI_SCRIPT_PATH ++ COMMAND_WIFI_HW_STOP)) = 0
            ∧ joinResult = LE_OK
          then LE_OK else LE_FAULT,
        Call.system (WIFI_SCRIPT_PATH ++ COMMAND_WIFI_HW_STOP)
          :: (if statusBits8to15 (w.system (WIFI_SCRIPT_PATH ++ COMMAND_WIFI_HW_STOP)) = 0
              then [Call.le_thread_Cancel, Call.le_thread_Join] else [])) := by
    unfold pa_wifiClient_Stop
    simp only [systemResultCode_bits]
    by_cases h1 : statusBits8to15 (w.system (WIFI_SCRIPT_PATH ++ COMMAND_WIFI_HW_STOP)) = 0
    · by_cases h2 : joinResult = LE_OK
      · simp [h1, h2]
      · simp [h1, h2]
    · simp [h1]
  refine ⟨hmain, ?_, ?_, ?_⟩
  · intro code hlo hhi hs
    rw [hmain, hs]
    simp only [statusBits8to15_exitedWith_eq_zero_iff code ⟨hlo, hhi⟩]
  · intro hs
    rw [hmain, hs]
    have : statusBits8to15 (-1) ≠ 0 := by decide
    simp [this]
  · intro hs
    rw [hmain, hs]
    have h9 : statusBits8to15 9 = 0 := by decide
    simp [h9]

/-! ## Connect and key derivation: claims C12, C13, C15 -/

/-- C12 at the failing inputs, at the upstream limits under WPA2-PSK-Personal for the SSID
`Home`. With a pre-shared key stored and a supplicant file that cannot be opened, `Connect`
returns `LE_OK` although no connect command was issued; the same with an SSID length of 33,
above the maximum of 32; the same with a passphrase stored, the key derived and the file not
opened. Only a failed derivation (here `popen` returning NULL) gives `LE_FAULT`. -/
theorem C12_supplicant_failure_returns_ok :
    pa_wifiClient_Connect upstreamDefs (worldFopenFails []) (personalKeyState (bytes "00ff"))
        (bytes "Home") 4
      = Exec.done (LE_OK, personalKeyState (bytes "00ff"), [Call.fopen])
    ∧ pa_wifiClient_Connect upstreamDefs (worldWith []) (personalKeyState (bytes "00ff"))
        (List.replicate 33 65) 33
      = Exec.done (LE_OK, personalKeyState (bytes "00ff"), [])
    ∧ pa_wifiClient_Connect upstreamDefs (worldFopenFails (bytes "\tpsk=00ff\n"))
        (personalPassphraseState (bytes "passphrase")) (bytes "Home") 4
      = Exec.done (LE_OK,
          { personalPassphraseState (bytes "passphrase") with
            SavedPreSharedKey := bytes "00ff" ++ List.replicate 61 0 },
          [Call.popen (bytes ("/legato/systems/current/apps/wifiService/read-only/pa_wifi.sh "
              ++ "wlan0 WIFICLIENT_CONNECT_WPA_PASSPHRASE \"Home\" passphrase")),
            Call.fopen])
    ∧ pa_wifiClient_Connect upstreamDefs
        { system := fun _ => 0, popen := fun _ => none, fopen := true, fwrite := List.length }
        (personalPassphraseState (bytes "passphrase")) (bytes "Home") 4
      = Exec.done (LE_FAULT, personalPassphraseState (bytes "passphrase"),
          [Call.popen (bytes ("/legato/systems/current/apps/wifiService/read-only/pa_wifi.sh "
              ++ "wlan0 WIFICLIENT_CONNECT_WPA_PASSPHRASE \"Home\" passphrase"))]) := by
  refine ⟨by decide, by decide, by decide, by decide⟩

/-- C13 at the failing inputs, at the upstream limits: the helper is spawned and its output
holds no line that begins with the key tag (no output at all, or an error message), and
`GeneratePsk` returns `LE_OK` with the key buffer untouched. The other cases of the claim, for
comparison: `popen` returning NULL gives `LE_FAULT`; a key of 65 bytes, one more than fits,
gives `LE_FAULT` and a zeroed buffer; a key of 64 bytes is stored and gives `LE_OK`. -/
theorem C13_no_key_line_returns_ok :
    GeneratePsk upstreamDefs (worldWith []) (bytes "Home") 4 (some (bytes "passphrase"))
        (some (List.replicate 65 0))
      = Exec.done (LE_OK, some (List.replicate 65 0),
          [Call.popen (bytes ("/legato/systems/current/apps/wifiService/read-only/pa_wifi.sh "
              ++ "wlan0 WIFICLIENT_CONNECT_WPA_PASSPHRASE \"Home\" passphrase"))])
    ∧ GeneratePsk upstreamDefs (worldWith (bytes "Passphrase must be 8..63 characters\n"))
        (bytes "Home") 4 (some (bytes "passphrase")) (some (List.replicate 65 0))
      = Exec.done (LE_OK, some (List.replicate 65 0),
          [Call.popen (bytes ("/legato/systems/current/apps/wifiService/read-only/pa_wifi.sh "
              ++ "wlan0 WIFICLIENT_CONNECT_WPA_PASSPHRASE \"Home\" passphrase"))])
    ∧ GeneratePsk upstreamDefs
        { system := fun _ => 0, popen := fun _ => none, fopen := true, fwrite := List.length }
        (bytes "Home") 4 (some (bytes "passphrase")) (some (bytes "old" ++ List.replicate 62 0))
      = Exec.done (LE_FAULT, some (bytes "old" ++ List.replicate 62 0),
          [Call.popen (bytes ("/legato/systems/current/apps/wifiService/read-only/pa_wifi.sh "
              ++ "wlan0 WIFICLIENT_CONNECT_WPA_PASSPHRASE \"Home\" passphrase"))])
    ∧ GeneratePsk upstreamDefs (worldWith (pskTag ++ List.replicate 65 97 ++ [10]))
        (bytes "Home") 4 (some (bytes "passphrase")) (some (bytes "old" ++ List.replicate 62 0))
      = Exec.done (LE_FAULT, some (List.replicate 65 0),
          [Call.popen (bytes ("/legato/systems/current/apps/wifiService/read-only/pa_wifi.sh "
              ++ "wlan0 WIFICLIENT_CONNECT_WPA_PASSPHRASE \"Home\" passphrase"))])
    ∧ GeneratePsk upstreamDefs (worldWith helperOutput)
        (bytes "Home") 4 (some (bytes "passphrase")) (some (bytes "old" ++ List.replicate 62 0))
      = Exec.done (LE_OK,
          some (bytes "0123456789abcdef0123456789abcdef0123456789abcdef0123456789abcdef" ++ [0]),
          [Call.popen (bytes ("/legato/systems/current/apps/wifiService/read-only/pa_wifi.sh "
              ++ "wlan0 WIFICLIENT_CONNECT_WPA_PASSPHRASE \"Home\" passphrase"))]) := by
  refine ⟨by decide, by decide, by decide, by decide, by decide⟩

theorem take_cstr_of_no_nul (ssid : List Nat) (n : Nat) (h0 : 0 ∉ ssid.take n) :
    (cstr ssid).take n = ssid.take n := by
  have hsplit : ssid = ssid.take n ++ ssid.drop n := (List.take_append_drop n ssid).symm
  have hpos : ∀ a ∈ ssid.take n, (fun c => decide (c ≠ 0)) a = true := by
    intro a ha
    have : a ≠ 0 := fun h => h0 (h ▸ ha)
    simpa using this
  have hc : cstr ssid = ssid.take n ++ cstr (ssid.drop n) := by
    conv_lhs => rw [hsplit]
    unfold cstr
    exact List.takeWhile_append_of_pos hpos
  rw [hc, List.take_append_eq_append_take, List.take_take, Nat.min_self]
  by_cases hl : n ≤ ssid.length
  · have hlen : (ssid.take n).length = n := by simp [hl]
    rw [hlen, Nat.sub_self]
    simp
  · have hd : ssid.drop n = [] := List.drop_eq_nil_of_le (by omega)
    rw [hd]
    simp [cstr]

theorem systemResultCode_eq (s : Int) :
    systemResultCode s = if WEXITSTATUS s = 0 then LE_OK else LE_FAULT := by
  unfold systemResultCode
  by_cases h : WEXITSTATUS s = 0
  · simp [h]
  · have : ¬ (0 = WEXITSTATUS s) := fun hh => h hh.symm
    simp [h, this]

/-- C15, as stated, fails in two ways. For an SSID that holds a NUL byte: the SSID is printed
with `%.*s`, which stops at the first NUL, so under protocol None, for the four SSID bytes `H`,
NUL, `m`, `e` and the length 4, the one command issued embeds `H` alone, not the first four
bytes. For a command that does not exit: with the status 9 (the child was killed by signal 9
and has no exit code) `Connect` under protocol None returns `LE_OK`. -/
theorem C15_counterexample :
    pa_wifiClient_Connect upstreamDefs (worldWith []) (PaState.initial upstreamDefs)
        [72, 0, 109, 101] 4
      = Exec.done (LE_OK, PaState.initial upstreamDefs,
          [Call.system (bytes ("/legato/systems/current/apps/wifiService/read-only/pa_wifi.sh "
              ++ "wlan0 WIFICLIENT_CONNECT_SECURITY_NONE \"H\""))])
    ∧ ¬ [72, 0, 109, 101] <:+:
        bytes ("/legato/systems/current/apps/wifiService/read-only/pa_wifi.sh "
          ++ "wlan0 WIFICLIENT_CONNECT_SECURITY_NONE \"H\"")
    ∧ (∀ code : Int, exitedWith code ≠ 9)
    ∧ pa_wifiClient_Connect upstreamDefs (worldStatus 9) (PaState.initial upstreamDefs)
        (bytes "Home") 4
      = Exec.done (LE_OK, PaState.initial upstreamDefs,
          [Call.system (bytes ("/legato/systems/current/apps/wifiService/read-only/pa_wifi.sh "
              ++ "wlan0 WIFICLIENT_CONNECT_SECURITY_NONE \"Home\""))]) := by
  refine ⟨by decide, by decide, exitedWith_ne_nine, by decide⟩

/-- C15 amended: `Connect` with the SSID length zero returns `LE_FAULT` and calls nothing, under
every protocol. With a non-zero length, under protocol None, under WEP with a WEP key stored and
under either Enterprise protocol with a user name or a password stored, it issues exactly one
command, cut at the 1023 bytes of the command buffer, and returns `LE_OK` when bits 8 to 15 of
the status `system` returns for it are zero and `LE_FAULT` otherwise; the command embeds the
SSID string cut at `ssidLength` bytes (the first `ssidLength` bytes when none of them is NUL)
and the stored WEP key, respectively the stored user name and password. Under WEP without key
and under an Enterprise protocol with neither user name nor password it returns `LE_FAULT` and
calls nothing. Bits 8 to 15 of the status are zero for a command that exited with code zero,
non-zero for one that exited with a code from 1 to 255 and for the status -1 of a failed fork,
and zero again for the status 9 of a child killed by a signal. -/
theorem C15_single_command_connect (d : WifiDefs) (w : World) (st : PaState)
    (ssidBytes : List Nat) (ssidLength : Nat) :
    (ssidLength = 0
      → pa_wifiClient_Connect d w st ssidBytes ssidLength = Exec.done (LE_FAULT, st, []))
    ∧ (ssidLength ≠ 0 → st.SavedSecurityProtocol = LE_WIFICLIENT_SECURITY_NONE
      → ∀ command, command
          = (bytes ("/legato/systems/current/apps/wifiService/read-only/pa_wifi.sh "
              ++ "wlan0 WIFICLIENT_CONNECT_SECURITY_NONE \"")
            ++ (cstr ssidBytes).take ssidLength ++ bytes "\"").take 1023
        → pa_wifiClient_Connect d w st ssidBytes ssidLength
          = Exec.done (if statusBits8to15 (w.system command) = 0 then LE_OK else LE_FAULT, st,
              [Call.system command]))
    ∧ (ssidLength ≠ 0 → st.SavedSecurityProtocol = LE_WIFICLIENT_SECURITY_WEP
      → (st.SavedWepKey.headD 0 = 0
          → pa_wifiClient_Connect d w st ssidBytes ssidLength = Exec.done (LE_FAULT, st, []))
        ∧ (st.SavedWepKey.headD 0 ≠ 0
          → ∀ command, command
              = (bytes ("/legato/systems/current/apps/wifiService/read-only/pa_wifi.sh "
                  ++ "wlan0 WIFICLIENT_CONNECT_SECURITY_WEP \"")
                ++ (cstr ssidBytes).take ssidLength ++ bytes "\" \"" ++ cstr st.SavedWepKey
                ++ bytes "\"").take 1023
            → pa_wifiClient_Connect d w st ssidBytes ssidLength
              = Exec.done (if statusBits8to15 (w.system command) = 0 then LE_OK else LE_FAULT, st,
                  [Call.system command])))
    ∧ (ssidLength ≠ 0
      → st.SavedSecurityProtocol = LE_WIFICLIENT_SECURITY_WPA_EAP_PEAP0_ENTERPRISE
      → (st.SavedUsername.headD 0 = 0 ∧ st.SavedPassword.headD 0 = 0
          → pa_wifiClient_Connect d w st ssidBytes ssidLength = Exec.done (LE_FAULT, st, []))
        ∧ (¬ (st.SavedUsername.headD 0 = 0 ∧ st.SavedPassword.headD 0 = 0)
          → ∀ command, command
              = (bytes ("/legato/systems/current/apps/wifiService/read-only/pa_wifi.sh "
                  ++ "wlan0 WIFICLIENT_CONNECT_SECURITY_WPA_EAP_PEAP0_ENTERPRISE \"")
                ++ (cstr ssidBytes).take ssidLength ++ bytes "\" \"" ++ cstr st.SavedUsername
                ++ bytes "\" \"" ++ cstr st.SavedPassword ++ bytes "\"").take 1023
            → pa_wifiClient_Connect d w st ssidBytes ssidLength
              = Exec.done (if statusBits8to15 (w.system command) = 0 then LE_OK else LE_FAULT, st,
                  [Call.system command])))
    ∧ (ssidLength ≠ 0
      → st.SavedSecurityProtocol = LE_WIFICLIENT_SECURITY_WPA2_EAP_PEAP0_ENTERPRISE
      → (st.SavedUsername.headD 0 = 0 ∧ st.SavedPassword.headD 0 = 0
          → pa_wifiClient_Connect d w st ssidBytes ssidLength = Exec.done (LE_FAULT, st, []))
        ∧ (¬ (st.SavedUsername.headD 0 = 0 ∧ st.SavedPassword.headD 0 = 0)
          → ∀ command, command
              = (bytes ("/legato/systems/current/apps/wifiService/read-only/pa_wifi.sh "
                  ++ "wlan0 WIFICLIENT_CONNECT_SECURITY_WPA2_EAP_PEAP0_ENTERPRISE \"")
                ++ (cstr ssidBytes).take ssidLength ++ bytes "\" \"" ++ cstr st.SavedUsername
                ++ bytes "\" \"" ++ cstr st.SavedPassword ++ bytes "\"").take 1023
            → pa_wifiClient_Connect d w st ssidBytes ssidLength
              = Exec.done (if statusBits8to15 (w.system command) = 0 then LE_OK else LE_FAULT, st,
                  [Call.system command])))
    ∧ (0 ∉ ssidBytes.take ssidLength
      → (cstr ssidBytes).take ssidLength = ssidBytes.take ssidLength)
    ∧ (∀ code : Int, 0 ≤ code → code ≤ 255
      → (statusBits8to15 (exitedWith code) = 0 ↔ code = 0))
    ∧ statusBits8to15 (-1) ≠ 0
    ∧ statusBits8to15 9 = 0 := by
  have e0 : bytes ("/legato/systems/current/apps/wifiService/read-only/pa_wifi.sh "
        ++ "wlan0 WIFICLIENT_CONNECT_SECURITY_NONE \"")
      = WIFI_SCRIPT_PATH ++ bytes "wlan0 WIFICLIENT_CONNECT_SECURITY_NONE \"" := by decide
  have e1 : bytes ("/legato/systems/current/apps/wifiService/read-only/pa_wifi.sh "
        ++ "wlan0 WIFICLIENT_CONNECT_SECURITY_WEP \"")
      = WIFI_SCRIPT_PATH ++ bytes "wlan0 WIFICLIENT_CONNECT_SECURITY_WEP \"" := by decide
  have e2 : bytes ("/legato/systems/current/apps/wifiService/read-only/pa_wifi.sh "
        ++ "wlan0 WIFICLIENT_CONNECT_SECURITY_WPA_EAP_PEAP0_ENTERPRISE \"")
      = WIFI_SCRIPT_PATH ++ bytes "wlan0 WIFICLIENT_CONNECT_SECURITY_WPA_EAP_PEAP0_ENTERPRISE \""
      := by decide
  have e3 : bytes ("/legato/systems/current/apps/wifiService/read-only/pa_wifi.sh "
        ++ "wlan0 WIFICLIENT_CONNECT_SECURITY_WPA2_EAP_PEAP0_ENTERPRISE \"")
      = WIFI_SCRIPT_PATH ++ bytes "wlan0 WIFICLIENT_CONNECT_SECURITY_WPA2_EAP_PEAP0_ENTERPRISE \""
      := by decide
  refine ⟨?_, ?_, ?_, ?_, ?_, take_cstr_of_no_nul ssidBytes ssidLength,
    fun code hlo hhi => statusBits8to15_exitedWith_eq_zero_iff code ⟨hlo, hhi⟩,
    by decide, by decide⟩
  · intro h0
    simp [pa_wifiClient_Connect, h0]
  · intro h0 hp command hc
    subst hc
    unfold pa_wifiClient_Connect
    simp only [h0, if_false, hp, if_true, connectCommand, systemResultCode_bits,
      COMMAND_WIFICLIENT_CONNECT_SECURITY_NONE, e0, List.append_assoc]
  · intro h0 hp
    have hne : LE_WIFICLIENT_SECURITY_WEP ≠ LE_WIFICLIENT_SECURITY_NONE := by decide
    constructor
    · intro hk
      unfold pa_wifiClient_Connect
      simp only [h0, if_false, hp, hne, if_true, hk]
    · intro hk command hc
      subst hc
      unfold pa_wifiClient_Connect
      simp only [h0, if_false, hp, hne, if_true, hk, connectCommand, systemResultCode_bits,
        COMMAND_WIFICLIENT_CONNECT_SECURITY_WEP, e1, List.append_assoc]
  · intro h0 hp
    have hne1 : LE_WIFICLIENT_SECURITY_WPA_EAP_PEAP0_ENTERPRISE ≠ LE_WIFICLIENT_SECURITY_NONE := by
      decide
    have hne2 : LE_WIFICLIENT_SECURITY_WPA_EAP_PEAP0_ENTERPRISE ≠ LE_WIFICLIENT_SECURITY_WEP := by
      decide
    have hne3 : LE_WIFICLIENT_SECURITY_WPA_EAP_PEAP0_ENTERPRISE
        ≠ LE_WIFICLIENT_SECURITY_WPA_PSK_PERSONAL := by decide
    have hne4 : LE_WIFICLIENT_SECURITY_WPA_EAP_PEAP0_ENTERPRISE
        ≠ LE_WIFICLIENT_SECURITY_WPA2_PSK_PERSONAL := by decide
    constructor
    · intro hk
      unfold pa_wifiClient_Connect
      simp only [h0, if_false, hp, hne1, hne2, hne3, hne4, if_true, hk, and_self]
    · intro hk command hc
      subst hc
      unfold pa_wifiClient_Connect
      simp only [h0, if_false, hp, hne1, hne2, hne3, hne4, if_true, hk, connectCommand,
        systemResultCode_bits, COMMAND_WIFICLIENT_CONNECT_SECURITY_WPA_EAP_PEAP0_ENTERPRISE, e2,
        List.append_assoc]
  · intro h0 hp
    have hne1 : LE_WIFICLIENT_SECURITY_WPA2_EAP_PEAP0_ENTERPRISE ≠ LE_WIFICLIENT_SECURITY_NONE :=
      by decide
    have hne2 : LE_WIFICLIENT_SECURITY_WPA2_EAP_PEAP0_ENTERPRISE ≠ LE_WIFICLIENT_SECURITY_WEP := by
      decide
    have hne3 : LE_WIFICLIENT_SECURITY_WPA2_EAP_PEAP0_ENTERPRISE
        ≠ LE_WIFICLIENT_SECURITY_WPA_PSK_PERSONAL := by decide
    have hne4 : LE_WIFICLIENT_SECURITY_WPA2_EAP_PEAP0_ENTERPRISE
        ≠ LE_WIFICLIENT_SECURITY_WPA2_PSK_PERSONAL := by decide
    have hne5 : LE_WIFICLIENT_SECURITY_WPA2_EAP_PEAP0_ENTERPRISE
        ≠ LE_WIFICLIENT_SECURITY_WPA_EAP_PEAP0_ENTERPRISE := by decide
    constructor
    · intro hk
      unfold pa_wifiClient_Connect
      simp only [h0, if_false, hp, hne1, hne2, hne3, hne4, hne5, if_true, hk, and_self]
    · intro hk command hc
      subst hc
      unfold pa_wifiClient_Connect
      simp only [h0, if_false, hp, hne1, hne2, hne3, hne4, hne5, if_true, hk, connectCommand,
        systemResultCode_bits, COMMAND_WIFICLIENT_CONNECT_SECURITY_WPA2_EAP_PEAP0_ENTERPRISE, e3,
        List.append_assoc]

/-! ## Invariants of the reachable states -/

/-- A property that holds in a state and is kept by every public operation holds after every
sequence of public operations. -/
theorem runOps_invariant (d : WifiDefs) (P : PaState → Prop)
    (hstep : ∀ st op st1, P st → applyOp d st op = Exec.done st1 → P st1) :
    ∀ (ops : List Op) (st st1 : PaState), P st → runOps d st ops = Exec.done st1 → P st1 := by
  intro ops
  induction ops with
  | nil =>
    intro st st1 hP h
    simp only [runOps, Exec.done.injEq] at h
    exact h ▸ hP
  | cons op ops ih =>
    intro st st1 hP h
    unfold runOps at h
    cases hop : applyOp d st op with
    | done st2 =>
      rw [hop] at h
      exact ih st2 st1 (hstep st op st2 hP hop) h
    | undefinedBehaviour => rw [hop] at h; cases h
    | fuelExhausted => rw [hop] at h; cases h

/-- `GeneratePsk` called with both pointers non-null hands back a key buffer. -/
theorem generatePsk_some (d : WifiDefs) (w : World) (ssid : List Nat) (len : Nat)
    (pass psk : List Nat) (r : le_result_t) (out : Option (List Nat)) (calls : List Call)
    (h : GeneratePsk d w ssid len (some pass) (some psk) = Exec.done (r, out, calls)) :
    ∃ psk1, out = some psk1 := by
  unfold GeneratePsk at h
  simp only at h
  split at h
  · simp only [Exec.done.injEq, Prod.mk.injEq] at h
    exact ⟨psk, h.2.1.symm⟩
  · split at h
    · rename_i r2 psk1 _
      simp only [Exec.done.injEq, Prod.mk.injEq] at h
      exact ⟨psk1, h.2.1.symm⟩
    · cases h
    · cases h

/-- What the PSK-Personal cases of `Connect` do to the state. -/
theorem connectPskPersonal_state (d : WifiDefs) (w : World) (st : PaState) (ssid : List Nat)
    (len : Nat) (command : List Nat) (r : le_result_t) (st1 : PaState) (calls : List Call)
    (h : connectPskPersonal d w st ssid len command = Exec.done (r, st1, calls)) :
    st1 = st
    ∨ (st.SavedPassphrase.headD 0 ≠ 0
      ∧ ∃ r2 psk1 c2, GeneratePsk d w ssid len (some st.SavedPassphrase)
            (some st.SavedPreSharedKey) = Exec.done (r2, some psk1, c2)
          ∧ st1 = { st with SavedPreSharedKey := psk1 }) := by
  unfold connectPskPersonal at h
  by_cases hc : st.SavedPassphrase.headD 0 = 0 ∧ st.SavedPreSharedKey.headD 0 = 0
  · rw [if_pos hc] at h
    simp only [Exec.done.injEq, Prod.mk.injEq] at h
    exact Or.inl h.2.1.symm
  · rw [if_neg hc] at h
    by_cases hp : st.SavedPassphrase.headD 0 ≠ 0
    · rw [if_pos hp] at h
      cases hg : GeneratePsk d w ssid len (some st.SavedPassphrase)
          (some st.SavedPreSharedKey) with
      | done x =>
        obtain ⟨r2, out, c2⟩ := x
        obtain ⟨psk1, hout⟩ := generatePsk_some d w ssid len _ _ r2 out c2 hg
        subst hout
        rw [hg] at h
        simp only [Option.getD_some] at h
        refine Or.inr ⟨hp, r2, psk1, c2, rfl, ?_⟩
        by_cases hr : r2 ≠ LE_OK
        · rw [if_pos hr] at h
          simp only [Exec.done.injEq, Prod.mk.injEq] at h
          exact h.2.1.symm
        · rw [if_neg hr] at h
          split at h
          · simp only [Exec.done.injEq, Prod.mk.injEq] at h
            exact h.2.1.symm
          · simp only [Exec.done.injEq, Prod.mk.injEq] at h
            exact h.2.1.symm
      | undefinedBehaviour => rw [hg] at h; cases h
      | fuelExhausted => rw [hg] at h; cases h
    · rw [if_neg hp] at h
      left
      simp only [ne_eq, not_true_eq_false, if_false] at h
      split at h
      · simp only [Exec.done.injEq, Prod.mk.injEq] at h
        exact h.2.1.symm
      · simp only [Exec.done.injEq, Prod.mk.injEq] at h
        exact h.2.1.symm

theorem connectCommand_state (w : World) (st : PaState) (command : List Nat) (r : le_result_t)
    (st1 : PaState) (calls : List Call)
    (h : connectCommand w st command = Exec.done (r, st1, calls)) : st1 = st := by
  unfold connectCommand at h
  simp only [Exec.done.injEq, Prod.mk.injEq] at h
  exact h.2.1.symm

/-- What `Connect` does to the state: nothing, unless it derives the key, in which case the
key buffer is the one `GeneratePsk` hands back. -/
theorem connect_state (d : WifiDefs) (w : World) (st : PaState) (ssid : List Nat) (len : Nat)
    (r : le_result_t) (st1 : PaState) (calls : List Call)
    (h : pa_wifiClient_Connect d w st ssid len = Exec.done (r, st1, calls)) :
    st1 = st
    ∨ (derivesKey st (Op.Connect w ssid len) = true
      ∧ ∃ r2 psk1 c2, GeneratePsk d w ssid len (some st.SavedPassphrase)
            (some st.SavedPreSharedKey) = Exec.done (r2, some psk1, c2)
          ∧ st1 = { st with SavedPreSharedKey := psk1 }) := by
  have hfault : ∀ {r st1 calls}, (Exec.done (LE_FAULT, st, ([] : List Call))
      = Exec.done (r, st1, calls)) → st1 = st := by
    intro r st1 calls hh
    simp only [Exec.done.injEq, Prod.mk.injEq] at hh
    exact hh.2.1.symm
  unfold pa_wifiClient_Connect at h
  split at h
  · exact Or.inl (hfault h)
  · rename_i hlen
    split at h
    · exact Or.inl (connectCommand_state _ _ _ _ _ _ h)
    · split at h
      · split at h
        · exact Or.inl (hfault h)
        · exact Or.inl (connectCommand_state _ _ _ _ _ _ h)
      · split at h
        · rename_i hproto
          rcases connectPskPersonal_state d w st ssid len _ r st1 calls h with h1 | ⟨hp, h2⟩
          · exact Or.inl h1
          · refine Or.inr ⟨?_, h2⟩
            simp only [List.headD_eq_head?_getD] at hp
            simp [derivesKey, hlen, hproto, hp]
        · split at h
          · rename_i hproto
            rcases connectPskPersonal_state d w st ssid len _ r st1 calls h with h1 | ⟨hp, h2⟩
            · exact Or.inl h1
            · refine Or.inr ⟨?_, h2⟩
              simp only [List.headD_eq_head?_getD] at hp
              simp [derivesKey, hlen, hproto, hp]
          · split at h
            · split at h
              · exact Or.inl (hfault h)
              · exact Or.inl (connectCommand_state _ _ _ _ _ _ h)
            · split at h
              · split at h
                · exact Or.inl (hfault h)
                · exact Or.inl (connectCommand_state _ _ _ _ _ _ h)
              · exact Or.inl (hfault h)

/-- What `GetScanResult` does to the state: it only advances the scan pipe. -/
theorem getScanResult_state (d : WifiDefs) (st : PaState)
    (accessPointPtr : Option pa_wifiClient_AccessPoint_t) (r : le_result_t) (st1 : PaState)
    (out : Option pa_wifiClient_AccessPoint_t)
    (h : pa_wifiClient_GetScanResult d st accessPointPtr = Exec.done (r, st1, out)) :
    st1 = st ∨ ∃ rest, st1 = { st with IwScanPipePtr := some rest } := by
  unfold pa_wifiClient_GetScanResult at h
  split at h
  · simp only [Exec.done.injEq, Prod.mk.injEq] at h
    exact Or.inl h.2.1.symm
  · split at h
    · simp only [Exec.done.injEq, Prod.mk.injEq] at h
      exact Or.inl h.2.1.symm
    · split at h
      · rename_i rest _ _
        simp only [Exec.done.injEq, Prod.mk.injEq] at h
        exact Or.inr ⟨rest, h.2.1.symm⟩
      · cases h
      · cases h

/-- What `Scan` does to the state: it only touches the scan pipe and clears the flag, or
leaves everything as it is. -/
theorem scan_state (w : World) (st : PaState) :
    (pa_wifiClient_Scan w st).2.1 = st
    ∨ ∃ pipe, (pa_wifiClient_Scan w st).2.1
        = { st with IwScanPipePtr := pipe, IsScanRunning := false } := by
  unfold pa_wifiClient_Scan
  split
  · exact Or.inl rfl
  · split
    · exact Or.inl rfl
    · simp only
      split
      · exact Or.inr ⟨none, rfl⟩
      · rename_i out _
        exact Or.inr ⟨some out, rfl⟩

theorem scanDone_state (st : PaState) :
    (pa_wifiClient_ScanDone st).2 = st
    ∨ (pa_wifiClient_ScanDone st).2 = { st with IwScanPipePtr := none, IsScanRunning := false } := by
  unfold pa_wifiClient_ScanDone
  split
  · exact Or.inr rfl
  · exact Or.inl rfl

/-! ### The scan flag -/

theorem applyOp_scanFlag (d : WifiDefs) (st : PaState) (op : Op) (st1 : PaState)
    (hP : st.IsScanRunning = false) (h : applyOp d st op = Exec.done st1) :
    st1.IsScanRunning = false := by
  cases op with
  | Start w => simp only [applyOp, Exec.done.injEq] at h; exact h ▸ hP
  | Stop w j => simp only [applyOp, Exec.done.injEq] at h; exact h ▸ hP
  | Scan w =>
    simp only [applyOp, Exec.done.injEq] at h
    rcases scan_state w st with h1 | ⟨pipe, h1⟩
    · rw [← h, h1]; exact hP
    · rw [← h, h1]
  | IsScanRunning => simp only [applyOp, Exec.done.injEq] at h; exact h ▸ hP
  | GetScanResult ap =>
    simp only [applyOp] at h
    split at h
    · rename_i r st2 out hg
      simp only [Exec.done.injEq] at h
      subst h
      rcases getScanResult_state d st ap r st2 out hg with h1 | ⟨rest, h1⟩
      · rw [h1]; exact hP
      · rw [h1]; exact hP
    · cases h
    · cases h
  | ScanDone =>
    simp only [applyOp, Exec.done.injEq] at h
    rcases scanDone_state st with h1 | h1
    · rw [← h, h1]; exact hP
    · rw [← h, h1]
  | SetSecurityProtocol v =>
    simp only [applyOp, Exec.done.injEq] at h
    subst h
    unfold pa_wifiClient_SetSecurityProtocol
    split <;> exact hP
  | Connect w ssid len =>
    simp only [applyOp] at h
    split at h
    · rename_i r st2 calls hg
      simp only [Exec.done.injEq] at h
      subst h
      rcases connect_state d w st ssid len r st2 calls hg with h1 | ⟨_, _, psk1, _, _, h1⟩
      · rw [h1]; exact hP
      · rw [h1]; exact hP
    · cases h
    · cases h
  | Disconnect w => simp only [applyOp, Exec.done.injEq] at h; exact h ▸ hP
  | ClearAllCredentials =>
    simp only [applyOp, Exec.done.injEq] at h
    subst h
    exact hP
  | SetWepKey k =>
    simp only [applyOp, Exec.done.injEq] at h
    subst h
    unfold pa_wifiClient_SetWepKey
    split <;> exact hP
  | SetPreSharedKey k =>
    simp only [applyOp, Exec.done.injEq] at h
    subst h
    unfold pa_wifiClient_SetPreSharedKey
    split <;> exact hP
  | SetPassphrase p =>
    simp only [applyOp, Exec.done.injEq] at h
    subst h
    unfold pa_wifiClient_SetPassphrase
    split
    · exact hP
    · simp only
      split <;> exact hP
  | SetUserCredentials u p =>
    simp only [applyOp, Exec.done.injEq] at h
    subst h
    unfold pa_wifiClient_SetUserCredentials
    split
    · exact hP
    · simp only
      split <;> exact hP

/-- C20: in every state reached from the initial state by a sequence of completed public
operations, `IsScanRunning` returns false; in particular right after a successful `Scan`,
while the scan pipe is open. -/
theorem C20_scan_flag_never_set (d : WifiDefs) (ops : List Op) (st : PaState)
    (hrun : runOps d (PaState.initial d) ops = Exec.done st) :
    pa_wifiClient_IsScanRunning st = false :=
  runOps_invariant d (fun s => s.IsScanRunning = false) (applyOp_scanFlag d) ops
    (PaState.initial d) st rfl hrun

/-- C20 at the upstream limits after a successful `Scan`: the pipe is open on the output of the
scan command and the flag is false. -/
theorem C20_scan_flag_never_set_witness :
    runOps upstreamDefs (PaState.initial upstreamDefs)
        [Op.Scan (worldWith (bytes "\tSSID: Home\n"))]
      = Exec.done (scanOpen (bytes "\tSSID: Home\n"))
    ∧ (pa_wifiClient_Scan (worldWith (bytes "\tSSID: Home\n"))
        (PaState.initial upstreamDefs)).1 = LE_OK
    ∧ pa_wifiClient_IsScanRunning (scanOpen (bytes "\tSSID: Home\n")) = false :=
  ⟨by decide, by decide,
    C20_scan_flag_never_set upstreamDefs [Op.Scan (worldWith (bytes "\tSSID: Home\n"))]
      (scanOpen (bytes "\tSSID: Home\n")) (by decide)⟩

/-! ### NUL termination of the credential buffers -/

theorem terminated_strncpy_set (buf p : List Nat) (n : Nat) (h : buf.length = n + 1) :
    Terminated ((strncpy buf p n).set n 0) (n + 1) := by
  have hlen : ((strncpy buf p n).set n 0).length = n + 1 := by
    simp [strncpy, h]
  refine ⟨hlen, ?_⟩
  have hi : n < ((strncpy buf p n).set n 0).length := by omega
  have h0 : ((strncpy buf p n).set n 0)[n] = 0 := by simp
  have hm := List.getElem_mem hi
  rw [h0] at hm
  exact hm

theorem terminated_set_zero (buf : List Nat) (capacity : Nat) (h : Terminated buf capacity) :
    Terminated (buf.set 0 0) capacity := by
  obtain ⟨hlen, hmem⟩ := h
  refine ⟨by simpa using hlen, ?_⟩
  cases buf with
  | nil => simp at hmem
  | cons b t => simp

theorem terminated_memset (buf : List Nat) (n : Nat) (h : buf.length = n + 1) :
    Terminated (memset buf 0 (n + 1)) (n + 1) := by
  unfold memset
  refine ⟨by simp [h], ?_⟩
  simp [List.replicate_succ]

theorem terminated_strncpy_short (buf src : List Nat) (n capacity : Nat)
    (h : buf = List.replicate capacity 0) (hn : n < capacity) :
    Terminated (strncpy buf src n) capacity := by
  subst h
  unfold strncpy
  constructor
  · simp
    omega
  · apply List.mem_append_right
    rw [List.drop_replicate]
    obtain ⟨k, hk⟩ : ∃ k, capacity - n = k + 1 := ⟨capacity - n - 1, by omega⟩
    rw [hk, List.replicate_succ]
    simp

theorem memset_full (buf : List Nat) (capacity : Nat) (h : buf.length = capacity) :
    memset buf 0 capacity = List.replicate capacity 0 := by
  unfold memset
  rw [List.drop_eq_nil_of_le (by omega)]
  simp

/-- The key buffer stays NUL-terminated through the loop of `GeneratePsk`. -/
theorem pskLoop_terminated (d : WifiDefs) (fuel : Nat) (stream : List Nat) (result : le_result_t)
    (psk : List Nat) (r : le_result_t) (psk1 : List Nat)
    (hpsk : Terminated psk d.LE_WIFIDEFS_MAX_PSK_BYTES)
    (h : pskLoop d fuel stream result psk = Exec.done (r, psk1)) :
    Terminated psk1 d.LE_WIFIDEFS_MAX_PSK_BYTES := by
  induction fuel generalizing stream result psk with
  | zero => simp [pskLoop] at h
  | succ fuel ih =>
    unfold pskLoop at h
    split at h
    · simp only [Exec.done.injEq, Prod.mk.injEq] at h
      exact h.2 ▸ hpsk
    · split at h
      · split at h
        · cases h
        · rename_i n _
          have hfull := memset_full psk _ hpsk.1
          split at h
          · rename_i hn
            simp only [Exec.done.injEq, Prod.mk.injEq] at h
            rw [← h.2]
            exact terminated_strncpy_short _ _ n _ hfull hn
          · refine ih _ _ _ ?_ h
            rw [hfull]
            refine ⟨by simp, ?_⟩
            unfold WifiDefs.LE_WIFIDEFS_MAX_PSK_BYTES
            simp [List.replicate_succ]
      · exact ih _ _ _ hpsk h

theorem generatePsk_terminated (d : WifiDefs) (w : World) (ssid : List Nat) (len : Nat)
    (pass psk : List Nat) (r : le_result_t) (psk1 : List Nat) (calls : List Call)
    (hpsk : Terminated psk d.LE_WIFIDEFS_MAX_PSK_BYTES)
    (h : GeneratePsk d w ssid len (some pass) (some psk) = Exec.done (r, some psk1, calls)) :
    Terminated psk1 d.LE_WIFIDEFS_MAX_PSK_BYTES := by
  unfold GeneratePsk at h
  simp only at h
  split at h
  · simp only [Exec.done.injEq, Prod.mk.injEq, Option.some.injEq] at h
    exact h.2.1 ▸ hpsk
  · split at h
    · rename_i out _ r2 psk2 hloop
      simp only [Exec.done.injEq, Prod.mk.injEq, Option.some.injEq] at h
      rw [← h.2.1]
      exact pskLoop_terminated d _ _ _ _ _ _ hpsk hloop
    · cases h
    · cases h

theorem strlen_lt_of_terminated (buf : List Nat) (capacity : Nat) (h : Terminated buf capacity) :
    strlen buf < capacity := by
  obtain ⟨hlen, hmem⟩ := h
  unfold strlen cstr
  rw [← hlen]
  by_contra hcon
  have hle : (buf.takeWhile fun c => decide (c ≠ 0)).length ≤ buf.length :=
    (List.takeWhile_sublist _).length_le
  have heq : buf.takeWhile (fun c => decide (c ≠ 0)) = buf := by
    apply (List.takeWhile_sublist _).eq_of_length_le
    omega
  rw [List.takeWhile_eq_self_iff] at heq
  have := heq 0 hmem
  simp at this

theorem applyOp_terminated (d : WifiDefs) (st : PaState) (op : Op) (st1 : PaState)
    (hP : st.CredentialsTerminated d) (h : applyOp d st op = Exec.done st1) :
    st1.CredentialsTerminated d := by
  obtain ⟨hwep, hpass, hpsk, huser, hpwd⟩ := hP
  cases op with
  | Start w =>
    simp only [applyOp, Exec.done.injEq] at h; subst h; exact ⟨hwep, hpass, hpsk, huser, hpwd⟩
  | Stop w j =>
    simp only [applyOp, Exec.done.injEq] at h; subst h; exact ⟨hwep, hpass, hpsk, huser, hpwd⟩
  | Scan w =>
    simp only [applyOp, Exec.done.injEq] at h
    rcases scan_state w st with h1 | ⟨pipe, h1⟩
    · rw [← h, h1]; exact ⟨hwep, hpass, hpsk, huser, hpwd⟩
    · rw [← h, h1]; exact ⟨hwep, hpass, hpsk, huser, hpwd⟩
  | IsScanRunning =>
    simp only [applyOp, Exec.done.injEq] at h; subst h; exact ⟨hwep, hpass, hpsk, huser, hpwd⟩
  | GetScanResult ap =>
    simp only [applyOp] at h
    split at h
    · rename_i r st2 out hg
      simp only [Exec.done.injEq] at h
      subst h
      rcases getScanResult_state d st ap r st2 out hg with h1 | ⟨rest, h1⟩
      · rw [h1]; exact ⟨hwep, hpass, hpsk, huser, hpwd⟩
      · rw [h1]; exact ⟨hwep, hpass, hpsk, huser, hpwd⟩
    · cases h
    · cases h
  | ScanDone =>
    simp only [applyOp, Exec.done.injEq] at h
    rcases scanDone_state st with h1 | h1
    · rw [← h, h1]; exact ⟨hwep, hpass, hpsk, huser, hpwd⟩
    · rw [← h, h1]; exact ⟨hwep, hpass, hpsk, huser, hpwd⟩
  | SetSecurityProtocol v =>
    simp only [applyOp, Exec.done.injEq] at h
    subst h
    unfold pa_wifiClient_SetSecurityProtocol
    split <;> exact ⟨hwep, hpass, hpsk, huser, hpwd⟩
  | Connect w ssid len =>
    simp only [applyOp] at h
    split at h
    · rename_i r st2 calls hg
      simp only [Exec.done.injEq] at h
      subst h
      rcases connect_state d w st ssid len r st2 calls hg with h1 | ⟨_, r2, psk1, c2, hgen, h1⟩
      · rw [h1]; exact ⟨hwep, hpass, hpsk, huser, hpwd⟩
      · rw [h1]
        exact ⟨hwep, hpass, generatePsk_terminated d w ssid len _ _ r2 psk1 c2 hpsk hgen, huser,
          hpwd⟩
    · cases h
    · cases h
  | Disconnect w =>
    simp only [applyOp, Exec.done.injEq] at h; subst h; exact ⟨hwep, hpass, hpsk, huser, hpwd⟩
  | ClearAllCredentials =>
    simp only [applyOp, Exec.done.injEq] at h
    subst h
    exact ⟨terminated_memset _ _ hwep.1, terminated_memset _ _ hpass.1,
      terminated_memset _ _ hpsk.1, terminated_memset _ _ huser.1, terminated_memset _ _ hpwd.1⟩
  | SetWepKey k =>
    simp only [applyOp, Exec.done.injEq] at h
    subst h
    unfold pa_wifiClient_SetWepKey
    split
    · exact ⟨hwep, hpass, hpsk, huser, hpwd⟩
    · exact ⟨terminated_strncpy_set _ _ _ hwep.1, hpass, hpsk, huser, hpwd⟩
  | SetPreSharedKey k =>
    simp only [applyOp, Exec.done.injEq] at h
    subst h
    unfold pa_wifiClient_SetPreSharedKey
    split
    · exact ⟨hwep, hpass, hpsk, huser, hpwd⟩
    · exact ⟨hwep, terminated_set_zero _ _ hpass, terminated_strncpy_set _ _ _ hpsk.1, huser,
        hpwd⟩
  | SetPassphrase p =>
    simp only [applyOp, Exec.done.injEq] at h
    subst h
    unfold pa_wifiClient_SetPassphrase
    split
    · exact ⟨hwep, hpass, hpsk, huser, hpwd⟩
    · simp only
      split
      · exact ⟨hwep, terminated_strncpy_set _ _ _ hpass.1, terminated_set_zero _ _ hpsk, huser,
          hpwd⟩
      · exact ⟨hwep, hpass, hpsk, huser, hpwd⟩
  | SetUserCredentials u p =>
    simp only [applyOp, Exec.done.injEq] at h
    subst h
    unfold pa_wifiClient_SetUserCredentials
    split
    · exact ⟨hwep, hpass, hpsk, huser, hpwd⟩
    · simp only
      split
      · exact ⟨hwep, hpass, hpsk, terminated_strncpy_set _ _ _ huser.1, hpwd⟩
      · exact ⟨hwep, hpass, hpsk, terminated_strncpy_set _ _ _ huser.1,
          terminated_strncpy_set _ _ _ hpwd.1⟩

theorem initial_terminated (d : WifiDefs) : (PaState.initial d).CredentialsTerminated d := by
  unfold PaState.CredentialsTerminated Terminated PaState.initial
  simp [WifiDefs.LE_WIFIDEFS_MAX_WEPKEY_BYTES, WifiDefs.LE_WIFIDEFS_MAX_PASSPHRASE_BYTES,
    WifiDefs.LE_WIFIDEFS_MAX_PSK_BYTES, WifiDefs.LE_WIFIDEFS_MAX_USERNAME_BYTES,
    WifiDefs.LE_WIFIDEFS_MAX_PASSWORD_BYTES, List.replicate_succ]

/-- C17: in every state reached from the initial state by a sequence of public operations,
`Connect` with its key derivation included and whatever the length of the inputs, every
credential buffer has its declared capacity and holds a NUL byte, so the stored string is at
most `MAX_*_LENGTH` bytes long; and in such a state each setter stores its input cut at
`MAX_*_LENGTH` bytes. -/
theorem C17_credentials_nul_terminated (d : WifiDefs) (ops : List Op) (st : PaState)
    (hrun : runOps d (PaState.initial d) ops = Exec.done st) :
    st.CredentialsTerminated d
    ∧ (strlen st.SavedWepKey ≤ d.LE_WIFIDEFS_MAX_WEPKEY_LENGTH
      ∧ strlen st.SavedPassphrase ≤ d.LE_WIFIDEFS_MAX_PASSPHRASE_LENGTH
      ∧ strlen st.SavedPreSharedKey ≤ d.LE_WIFIDEFS_MAX_PSK_LENGTH
      ∧ strlen st.SavedUsername ≤ d.LE_WIFIDEFS_MAX_USERNAME_LENGTH
      ∧ strlen st.SavedPassword ≤ d.LE_WIFIDEFS_MAX_PASSWORD_LENGTH)
    ∧ (∀ k, cstr (pa_wifiClient_SetWepKey d st (some k)).2.SavedWepKey
        = (cstr k).take d.LE_WIFIDEFS_MAX_WEPKEY_LENGTH)
    ∧ (∀ k, cstr (pa_wifiClient_SetPreSharedKey d st (some k)).2.SavedPreSharedKey
        = (cstr k).take d.LE_WIFIDEFS_MAX_PSK_LENGTH)
    ∧ (∀ u p, cstr (pa_wifiClient_SetUserCredentials d st (some u) (some p)).2.SavedUsername
          = (cstr u).take d.LE_WIFIDEFS_MAX_USERNAME_LENGTH
        ∧ cstr (pa_wifiClient_SetUserCredentials d st (some u) (some p)).2.SavedPassword
          = (cstr p).take d.LE_WIFIDEFS_MAX_PASSWORD_LENGTH) := by
  have hT : st.CredentialsTerminated d :=
    runOps_invariant d (fun s => s.CredentialsTerminated d) (applyOp_terminated d) ops
      (PaState.initial d) st (initial_terminated d) hrun
  obtain ⟨hwep, hpass, hpsk, huser, hpwd⟩ := hT
  refine ⟨⟨hwep, hpass, hpsk, huser, hpwd⟩, ⟨?_, ?_, ?_, ?_, ?_⟩, ?_, ?_, ?_⟩
  · exact Nat.lt_succ_iff.1 (strlen_lt_of_terminated _ _ hwep)
  · exact Nat.lt_succ_iff.1 (strlen_lt_of_terminated _ _ hpass)
  · exact Nat.lt_succ_iff.1 (strlen_lt_of_terminated _ _ hpsk)
  · exact Nat.lt_succ_iff.1 (strlen_lt_of_terminated _ _ huser)
  · exact Nat.lt_succ_iff.1 (strlen_lt_of_terminated _ _ hpwd)
  · intro k
    exact cstr_strncpy_set _ _ _ hwep.1
  · intro k
    exact cstr_strncpy_set _ _ _ hpsk.1
  · intro u p
    exact ⟨cstr_strncpy_set _ _ _ huser.1, cstr_strncpy_set _ _ _ hpwd.1⟩

/-- C17 at the upstream limits after `SetWepKey` with a key of 100 bytes: the buffer holds its
first 63 bytes and a NUL. -/
theorem C17_credentials_nul_terminated_witness :
    runOps upstreamDefs (PaState.initial upstreamDefs)
        [Op.SetWepKey (some (List.replicate 100 65))]
      = Exec.done { PaState.initial upstreamDefs with
          SavedWepKey := List.replicate 63 65 ++ [0] }
    ∧ PaState.CredentialsTerminated upstreamDefs
        { PaState.initial upstreamDefs with SavedWepKey := List.replicate 63 65 ++ [0] } :=
  ⟨by decide,
    (C17_credentials_nul_terminated upstreamDefs [Op.SetWepKey (some (List.replicate 100 65))]
      { PaState.initial upstreamDefs with SavedWepKey := List.replicate 63 65 ++ [0] }
      (by decide)).1⟩

/-! ### Passphrase and pre-shared key -/

theorem cstr_eq_nil_iff (m : List Nat) : cstr m = [] ↔ m.headD 0 = 0 := by
  cases m with
  | nil => simp [cstr]
  | cons b t =>
    by_cases hb : b = 0
    · simp [cstr, hb]
    · simp [cstr, hb]

theorem headD_set_zero (buf : List Nat) : (buf.set 0 0).headD 0 = 0 := by
  cases buf <;> rfl

/-- Every public operation other than a key-deriving `Connect` keeps one of the passphrase and
the pre-shared key empty. -/
theorem applyOp_exclusive (d : WifiDefs) (st : PaState) (op : Op) (st1 : PaState)
    (hP : st.SavedPassphrase.headD 0 = 0 ∨ st.SavedPreSharedKey.headD 0 = 0)
    (hno : derivesKey st op = false) (h : applyOp d st op = Exec.done st1) :
    st1.SavedPassphrase.headD 0 = 0 ∨ st1.SavedPreSharedKey.headD 0 = 0 := by
  cases op with
  | Start w => simp only [applyOp, Exec.done.injEq] at h; exact h ▸ hP
  | Stop w j => simp only [applyOp, Exec.done.injEq] at h; exact h ▸ hP
  | Scan w =>
    simp only [applyOp, Exec.done.injEq] at h
    rcases scan_state w st with h1 | ⟨pipe, h1⟩
    · rw [← h, h1]; exact hP
    · rw [← h, h1]; exact hP
  | IsScanRunning => simp only [applyOp, Exec.done.injEq] at h; exact h ▸ hP
  | GetScanResult ap =>
    simp only [applyOp] at h
    split at h
    · rename_i r st2 out hg
      simp only [Exec.done.injEq] at h
      subst h
      rcases getScanResult_state d st ap r st2 out hg with h1 | ⟨rest, h1⟩
      · rw [h1]; exact hP
      · rw [h1]; exact hP
    · cases h
    · cases h
  | ScanDone =>
    simp only [applyOp, Exec.done.injEq] at h
    rcases scanDone_state st with h1 | h1
    · rw [← h, h1]; exact hP
    · rw [← h, h1]; exact hP
  | SetSecurityProtocol v =>
    simp only [applyOp, Exec.done.injEq] at h
    subst h
    unfold pa_wifiClient_SetSecurityProtocol
    split <;> exact hP
  | Connect w ssid len =>
    simp only [applyOp] at h
    split at h
    · rename_i r st2 calls hg
      simp only [Exec.done.injEq] at h
      subst h
      rcases connect_state d w st ssid len r st2 calls hg with h1 | ⟨hder, _⟩
      · rw [h1]; exact hP
      · rw [hno] at hder
        cases hder
    · cases h
    · cases h
  | Disconnect w => simp only [applyOp, Exec.done.injEq] at h; exact h ▸ hP
  | ClearAllCredentials =>
    simp only [applyOp, Exec.done.injEq] at h
    subst h
    exact Or.inl (headD_memset_zero _ _)
  | SetWepKey k =>
    simp only [applyOp, Exec.done.injEq] at h
    subst h
    unfold pa_wifiClient_SetWepKey
    split <;> exact hP
  | SetPreSharedKey k =>
    simp only [applyOp, Exec.done.injEq] at h
    subst h
    unfold pa_wifiClient_SetPreSharedKey
    split
    · exact hP
    · exact Or.inl (headD_set_zero _)
  | SetPassphrase p =>
    simp only [applyOp, Exec.done.injEq] at h
    subst h
    unfold pa_wifiClient_SetPassphrase
    split
    · exact hP
    · simp only
      split
      · exact Or.inr (headD_set_zero _)
      · exact hP
  | SetUserCredentials u p =>
    simp only [applyOp, Exec.done.injEq] at h
    subst h
    unfold pa_wifiClient_SetUserCredentials
    split
    · exact hP
    · simp only
      split <;> exact hP

theorem runOps_exclusive (d : WifiDefs) :
    ∀ (ops : List Op) (st st1 : PaState),
      (st.SavedPassphrase.headD 0 = 0 ∨ st.SavedPreSharedKey.headD 0 = 0)
      → noKeyDerivation d st ops = true → runOps d st ops = Exec.done st1
      → st1.SavedPassphrase.headD 0 = 0 ∨ st1.SavedPreSharedKey.headD 0 = 0 := by
  intro ops
  induction ops with
  | nil =>
    intro st st1 hP _ h
    simp only [runOps, Exec.done.injEq] at h
    exact h ▸ hP
  | cons op ops ih =>
    intro st st1 hP hno h
    unfold runOps at h
    unfold noKeyDerivation at hno
    simp only [Bool.and_eq_true, Bool.not_eq_true'] at hno
    cases hop : applyOp d st op with
    | done st2 =>
      rw [hop] at h hno
      exact ih st2 st1 (applyOp_exclusive d st op st2 hP hno.1 hop) hno.2 h
    | undefinedBehaviour => rw [hop] at h; cases h
    | fuelExhausted => rw [hop] at h; cases h

/-- Starting from the initial state, after every sequence of public operations in which no
`Connect` is made with a non-zero SSID length under a PSK-Personal protocol while a passphrase
is stored, the stored passphrase and the stored pre-shared key are not both non-empty: the
setters and `ClearAllCredentials` keep the two exclusive. -/
theorem exclusive_without_key_derivation (d : WifiDefs) (ops : List Op) (st : PaState)
    (hrun : runOps d (PaState.initial d) ops = Exec.done st)
    (hno : noKeyDerivation d (PaState.initial d) ops = true) :
    ¬ (cstr st.SavedPassphrase ≠ [] ∧ cstr st.SavedPreSharedKey ≠ []) := by
  have hinit : (PaState.initial d).SavedPassphrase.headD 0 = 0
      ∨ (PaState.initial d).SavedPreSharedKey.headD 0 = 0 := by
    left
    simp [PaState.initial, WifiDefs.LE_WIFIDEFS_MAX_PASSPHRASE_BYTES, List.replicate_succ]
  rcases runOps_exclusive d ops (PaState.initial d) st hinit hno hrun with h | h
  · exact fun hh => hh.1 ((cstr_eq_nil_iff _).2 h)
  · exact fun hh => hh.2 ((cstr_eq_nil_iff _).2 h)

/-- C16 at the failing input: at the upstream limits, from the initial state,
`SetSecurityProtocol` with WPA2-PSK-Personal, `SetPassphrase` with `passphrase` and a `Connect`
to `Home` whose helper prints a key line all complete, and the state reached holds both the
passphrase and the key derived from it: `Connect` writes the key into the buffer of the
pre-shared key and leaves the passphrase in place, so the two are non-empty together. -/
theorem C16_connect_stores_key_beside_passphrase :
    (∃ st, runOps upstreamDefs (PaState.initial upstreamDefs)
          [Op.SetSecurityProtocol LE_WIFICLIENT_SECURITY_WPA2_PSK_PERSONAL,
            Op.SetPassphrase (some (bytes "passphrase")),
            Op.Connect (worldWith helperOutput) (bytes "Home") 4]
        = Exec.done st
      ∧ cstr st.SavedPassphrase ≠ [] ∧ cstr st.SavedPreSharedKey ≠ [])
    ∧ runOps upstreamDefs (PaState.initial upstreamDefs)
        [Op.SetSecurityProtocol LE_WIFICLIENT_SECURITY_WPA2_PSK_PERSONAL,
          Op.SetPassphrase (some (bytes "passphrase")),
          Op.Connect (worldWith helperOutput) (bytes "Home") 4]
      = Exec.done { personalPassphraseState (bytes "passphrase") with
          SavedPreSharedKey :=
            bytes "0123456789abcdef0123456789abcdef0123456789abcdef0123456789abcdef" ++ [0] }
    ∧ cstr (personalPassphraseState (bytes "passphrase")).SavedPassphrase = bytes "passphrase"
    ∧ cstr (bytes "0123456789abcdef0123456789abcdef0123456789abcdef0123456789abcdef" ++ [0])
      = bytes "0123456789abcdef0123456789abcdef0123456789abcdef0123456789abcdef"
    ∧ (pa_wifiClient_SetPassphrase upstreamDefs
        (pa_wifiClient_SetPreSharedKey upstreamDefs (PaState.initial upstreamDefs)
          (some (bytes "00ff"))).2 (some (bytes "passphrase"))).2.SavedPreSharedKey.headD 0 = 0
    ∧ (pa_wifiClient_SetPreSharedKey upstreamDefs
        (pa_wifiClient_SetPassphrase upstreamDefs (PaState.initial upstreamDefs)
          (some (bytes "passphrase"))).2 (some (bytes "00ff"))).2.SavedPassphrase.headD 0 = 0 := by
  refine ⟨⟨{ personalPassphraseState (bytes "passphrase") with
      SavedPreSharedKey :=
        bytes "0123456789abcdef0123456789abcdef0123456789abcdef0123456789abcdef" ++ [0] },
    by decide, by decide, by decide⟩, by decide, by decide, by decide, by decide, by decide⟩

/-! ## User credentials, SSID length and wait status: claims C21 to C23 -/

/-- C21: `SetUserCredentials` is not atomic. With a null user name it returns `LE_BAD_PARAMETER`
and changes nothing. With a user name `u` and a null password it returns `LE_BAD_PARAMETER`
after having stored `u`, cut at the maximum user-name length, and nothing else is changed, the
stored password in particular. With both non-null it returns `LE_OK` and stores both, each cut
at its maximum length. The buffers have their declared capacity. -/
theorem C21_user_credentials_not_atomic (d : WifiDefs) (st : PaState) (u p : List Nat)
    (passwordPtr : Option (List Nat)) (hst : st.WellFormed d) :
    pa_wifiClient_SetUserCredentials d st none passwordPtr = (LE_BAD_PARAMETER, st)
    ∧ ((pa_wifiClient_SetUserCredentials d st (some u) none).1 = LE_BAD_PARAMETER
      ∧ cstr (pa_wifiClient_SetUserCredentials d st (some u) none).2.SavedUsername
        = (cstr u).take d.LE_WIFIDEFS_MAX_USERNAME_LENGTH
      ∧ (pa_wifiClient_SetUserCredentials d st (some u) none).2
        = { st with
            SavedUsername := (pa_wifiClient_SetUserCredentials d st (some u) none).2.SavedUsername })
    ∧ ((pa_wifiClient_SetUserCredentials d st (some u) (some p)).1 = LE_OK
      ∧ cstr (pa_wifiClient_SetUserCredentials d st (some u) (some p)).2.SavedUsername
        = (cstr u).take d.LE_WIFIDEFS_MAX_USERNAME_LENGTH
      ∧ cstr (pa_wifiClient_SetUserCredentials d st (some u) (some p)).2.SavedPassword
        = (cstr p).take d.LE_WIFIDEFS_MAX_PASSWORD_LENGTH) := by
  obtain ⟨_, _, _, huser, hpwd⟩ := hst
  refine ⟨rfl, ⟨rfl, ?_, rfl⟩, rfl, ?_, ?_⟩
  · exact cstr_strncpy_set _ _ _ huser
  · exact cstr_strncpy_set _ _ _ huser
  · exact cstr_strncpy_set _ _ _ hpwd

/-- C21 at the upstream limits: with `alice` and `secret` stored, a call with the user name
`bob` and a null password fails and leaves `bob` with the old password `secret`. -/
theorem C21_user_credentials_not_atomic_witness :
    (pa_wifiClient_SetUserCredentials upstreamDefs
        (pa_wifiClient_SetUserCredentials upstreamDefs (PaState.initial upstreamDefs)
          (some (bytes "alice")) (some (bytes "secret"))).2 (some (bytes "bob")) none).1
      = LE_BAD_PARAMETER
    ∧ cstr (pa_wifiClient_SetUserCredentials upstreamDefs
        (pa_wifiClient_SetUserCredentials upstreamDefs (PaState.initial upstreamDefs)
          (some (bytes "alice")) (some (bytes "secret"))).2 (some (bytes "bob"))
          none).2.SavedUsername
      = (cstr (bytes "bob")).take upstreamDefs.LE_WIFIDEFS_MAX_USERNAME_LENGTH
    ∧ cstr (pa_wifiClient_SetUserCredentials upstreamDefs
        (pa_wifiClient_SetUserCredentials upstreamDefs (PaState.initial upstreamDefs)
          (some (bytes "alice")) (some (bytes "secret"))).2 (some (bytes "bob"))
          none).2.SavedPassword
      = bytes "secret" :=
  ⟨(C21_user_credentials_not_atomic upstreamDefs
      (pa_wifiClient_SetUserCredentials upstreamDefs (PaState.initial upstreamDefs)
        (some (bytes "alice")) (some (bytes "secret"))).2 (bytes "bob") [] none
      (by unfold PaState.WellFormed; decide)).2.1.1,
    (C21_user_credentials_not_atomic upstreamDefs
      (pa_wifiClient_SetUserCredentials upstreamDefs (PaState.initial upstreamDefs)
        (some (bytes "alice")) (some (bytes "secret"))).2 (bytes "bob") [] none
      (by unfold PaState.WellFormed; decide)).2.1.2.1,
    by decide⟩

theorem strlen_le_length (m : List Nat) : strlen m ≤ m.length :=
  (List.takeWhile_sublist _).length_le

/-- C22: for every line held in `path` that begins with the SSID tag and is at least 8
characters long (as a C string), with a buffer of 8 to 256 bytes, the SSID branch copies without
leaving its buffers: the length stored is `strnlen(path, LE_WIFIDEFS_MAX_SSID_BYTES) - 8`, it is
at most `LE_WIFIDEFS_MAX_SSID_BYTES - 8`, the bytes copied lie inside the line, before its last
character, the SSID array keeps its capacity, and the scan loop returns `LE_OK`. The bound on
the line is needed: for the bare tag, 7 characters without newline, the subtraction gives -1,
the eight-bit length is 255 and the copy leaves its buffers. -/
theorem C22_ssid_length_within_bounds (d : WifiDefs) (path : List Nat)
    (ap : pa_wifiClient_AccessPoint_t)
    (hd : 7 ≤ d.LE_WIFIDEFS_MAX_SSID_LENGTH ∧ d.LE_WIFIDEFS_MAX_SSID_LENGTH ≤ 255)
    (htag : ssidTag <+: path) (hlen : 8 ≤ strlen path) :
    (∃ ap1, storeSsid d path ap = some ap1
      ∧ (ap1.ssidLength : Int) = (strnlen path d.LE_WIFIDEFS_MAX_SSID_BYTES : Int) - 7 - 1
      ∧ ap1.ssidLength ≤ d.LE_WIFIDEFS_MAX_SSID_BYTES - 8
      ∧ 7 + ap1.ssidLength < strlen path
      ∧ ap1.ssidBytes.take ap1.ssidLength = (path.drop 7).take ap1.ssidLength
      ∧ (ap.ssidBytes.length = d.LE_WIFIDEFS_MAX_SSID_BYTES
        → ap1.ssidBytes.length = d.LE_WIFIDEFS_MAX_SSID_BYTES)
      ∧ ∀ fuel stream rest, fgets 1023 stream = some (path, rest)
        → scanLoop d (fuel + 1) stream ap = Exec.done (LE_OK, rest, ap1))
    ∧ ((strnlen ssidTag d.LE_WIFIDEFS_MAX_SSID_BYTES : Int) - 7 - 1 = -1
      ∧ storeSsid d ssidTag ap = none
      ∧ ∀ fuel, scanLoop d (fuel + 1) ssidTag ap = Exec.undefinedBehaviour) := by
  obtain ⟨hd1, hd2⟩ := hd
  have hle := strlen_le_length path
  have hB : d.LE_WIFIDEFS_MAX_SSID_BYTES = d.LE_WIFIDEFS_MAX_SSID_LENGTH + 1 := rfl
  constructor
  · have hn : strnlen path d.LE_WIFIDEFS_MAX_SSID_BYTES
        = min (strlen path) d.LE_WIFIDEFS_MAX_SSID_BYTES := rfl
    have hn8 : 8 ≤ strnlen path d.LE_WIFIDEFS_MAX_SSID_BYTES := by omega
    have hnB : strnlen path d.LE_WIFIDEFS_MAX_SSID_BYTES ≤ d.LE_WIFIDEFS_MAX_SSID_BYTES := by
      omega
    have hnS : strnlen path d.LE_WIFIDEFS_MAX_SSID_BYTES ≤ strlen path := by omega
    have hmod : (strnlen path d.LE_WIFIDEFS_MAX_SSID_BYTES + 256 - 7 - 1) % 256
        = strnlen path d.LE_WIFIDEFS_MAX_SSID_BYTES - 8 := by omega
    have hdst : (memset ap.ssidBytes 0 d.LE_WIFIDEFS_MAX_SSID_BYTES).length
        = d.LE_WIFIDEFS_MAX_SSID_BYTES
          + (ap.ssidBytes.length - d.LE_WIFIDEFS_MAX_SSID_BYTES) := by
      unfold memset
      simp only [List.length_append, List.length_replicate, List.length_drop]
    have hsrc : ((path ++ [0]).drop 7).length = path.length + 1 - 7 := by
      simp only [List.length_append, List.length_drop, List.length_cons, List.length_nil]
    have hcond : strnlen path d.LE_WIFIDEFS_MAX_SSID_BYTES - 8
          ≤ (memset ap.ssidBytes 0 d.LE_WIFIDEFS_MAX_SSID_BYTES).length
        ∧ strnlen path d.LE_WIFIDEFS_MAX_SSID_BYTES - 8 ≤ ((path ++ [0]).drop 7).length := by
      rw [hdst, hsrc]
      omega
    have hstore : storeSsid d path ap
        = some { ap with
            ssidLength := strnlen path d.LE_WIFIDEFS_MAX_SSID_BYTES - 8
            ssidBytes := ((path ++ [0]).drop 7).take
                (strnlen path d.LE_WIFIDEFS_MAX_SSID_BYTES - 8)
              ++ (memset ap.ssidBytes 0 d.LE_WIFIDEFS_MAX_SSID_BYTES).drop
                (strnlen path d.LE_WIFIDEFS_MAX_SSID_BYTES - 8) } := by
      unfold storeSsid
      simp only [hmod, memcpy, hcond, and_self, if_true]
    have htakeLen : (((path ++ [0]).drop 7).take
        (strnlen path d.LE_WIFIDEFS_MAX_SSID_BYTES - 8)).length
        = strnlen path d.LE_WIFIDEFS_MAX_SSID_BYTES - 8 := by
      rw [List.length_take]
      exact Nat.min_eq_left hcond.2
    refine ⟨_, hstore, ?_, ?_, ?_, ?_, ?_, ?_⟩
    · simp only
      omega
    · simp only
      omega
    · simp only
      omega
    · simp only
      rw [List.take_append_of_le_length (by rw [htakeLen]), List.take_take, Nat.min_self,
        List.drop_append_of_le_length (by omega)]
      rw [List.take_append_of_le_length (by simp only [List.length_drop]; omega)]
    · intro hcap
      simp only [List.length_append, htakeLen, List.length_drop, hdst, hcap]
      omega
    · intro fuel stream rest hf
      have hpre : strncmp ssidTag path 7 = 0 := (strncmp_ssidTag path).2 htag
      unfold scanLoop
      simp only [hf, hpre, if_true, hstore]
  · have hstr : strnlen ssidTag d.LE_WIFIDEFS_MAX_SSID_BYTES = 7 := by
      have h7 : strlen ssidTag = 7 := by decide
      have hn : strnlen ssidTag d.LE_WIFIDEFS_MAX_SSID_BYTES
          = min (strlen ssidTag) d.LE_WIFIDEFS_MAX_SSID_BYTES := rfl
      omega
    have hnone : storeSsid d ssidTag ap = none := by
      unfold storeSsid
      simp only [hstr]
      have hsrc : ((ssidTag ++ [0]).drop 7).length = 1 := by decide
      unfold memcpy
      rw [hsrc]
      simp
    refine ⟨by rw [hstr]; norm_num, hnone, ?_⟩
    intro fuel
    have hf : fgets 1023 ssidTag = some (ssidTag, []) := by decide
    have hpre : strncmp ssidTag ssidTag 7 = 0 := by decide
    unfold scanLoop
    simp only [hf, hpre, if_true, hnone]

/-- C22 at the upstream limits on the line `"\tSSID: Home\n"`: the length stored is 4. -/
theorem C22_ssid_length_within_bounds_witness :
    ∃ ap1, storeSsid upstreamDefs (bytes "\tSSID: Home\n") blankRecord = some ap1
      ∧ (ap1.ssidLength : Int)
        = (strnlen (bytes "\tSSID: Home\n") upstreamDefs.LE_WIFIDEFS_MAX_SSID_BYTES : Int) - 7 - 1
      ∧ ap1.ssidLength ≤ upstreamDefs.LE_WIFIDEFS_MAX_SSID_BYTES - 8 := by
  obtain ⟨ap1, h1, h2, h3, _⟩ := (C22_ssid_length_within_bounds upstreamDefs
    (bytes "\tSSID: Home\n") blankRecord (by decide) (by decide) (by decide)).1
  exact ⟨ap1, h1, h2, h3⟩

/-- C23: the result of `Disconnect` depends only on bits 8 to 15 of the status `system`
returns, taken as a 32-bit pattern: it is `LE_OK` exactly when those bits are zero and
`LE_FAULT` otherwise. So a non-zero status with those bits zero, such as 9 for a child killed
by signal 9, gives `LE_OK`, and the status -1 gives `LE_FAULT`. `Stop` tests its command the
same way: it cancels the worker exactly when those bits are zero. -/
theorem C23_result_from_bits_8_to_15 (w : World) (joinResult : le_result_t) :
    ((pa_wifiClient_Disconnect w).1 = LE_OK
      ↔ (((w.system (WIFI_SCRIPT_PATH ++ COMMAND_WIFICLIENT_DISCONNECT)) % 2 ^ 32).toNat >>> 8)
          &&& 0xFF = 0)
    ∧ ((pa_wifiClient_Disconnect w).1 ≠ LE_OK → (pa_wifiClient_Disconnect w).1 = LE_FAULT)
    ∧ (w.system (WIFI_SCRIPT_PATH ++ COMMAND_WIFICLIENT_DISCONNECT) = 9
      → (pa_wifiClient_Disconnect w).1 = LE_OK)
    ∧ (w.system (WIFI_SCRIPT_PATH ++ COMMAND_WIFICLIENT_DISCONNECT) = -1
      → (pa_wifiClient_Disconnect w).1 = LE_FAULT)
    ∧ (Call.le_thread_Cancel ∈ (pa_wifiClient_Stop w joinResult).2
      ↔ (((w.system (WIFI_SCRIPT_PATH ++ COMMAND_WIFI_HW_STOP)) % 2 ^ 32).toNat >>> 8)
          &&& 0xFF = 0) := by
  have hbits : ∀ s : Int, (((s % 2 ^ 32).toNat >>> 8) &&& 0xFF = 0) ↔ WEXITSTATUS s = 0 := by
    intro s
    have h1 : ((s % 2 ^ 32).toNat >>> 8) &&& 0xFF = ((s % 2 ^ 32).toNat / 256) % 256 := by
      rw [Nat.shiftRight_eq_div_pow]
      exact Nat.and_pow_two_sub_one_eq_mod _ 8
    rw [h1]
    unfold WEXITSTATUS
    omega
  refine ⟨?_, ?_, ?_, ?_, ?_⟩
  · rw [hbits]
    simp only [pa_wifiClient_Disconnect, systemResultCode_eq]
    split <;> simp_all
  · simp only [pa_wifiClient_Disconnect, systemResultCode_eq]
    split <;> simp
  · intro h
    simp only [pa_wifiClient_Disconnect, systemResultCode_eq, h]
    decide
  · intro h
    simp only [pa_wifiClient_Disconnect, systemResultCode_eq, h]
    decide
  · rw [hbits]
    simp only [pa_wifiClient_Stop, systemResultCode_eq]
    by_cases hz : WEXITSTATUS (w.system (WIFI_SCRIPT_PATH ++ COMMAND_WIFI_HW_STOP)) = 0
    · simp [hz]
    · simp [hz]

end PaWifi
